import Mathlib

/-!
Shallow embedding of the text-repair / field-extraction engine of the
Employment-contract repository (`src/pdf_contracts.py`, `src/ai_assist.py`),
together with theorems settling the frozen claims about it.

Python strings are sequences of Unicode code points; they are modelled by
Lean `String` viewed through its `List Char` data, and every operation used
by the source (strip, split, reverse, slicing, regular-expression search) is
re-implemented here on code-point lists with Python's semantics.
-/

set_option maxHeartbeats 4000000
set_option maxRecDepth 20000

namespace Contracts

/-! ## Character predicates

`re` in Python 3 matches `\d` against Unicode decimal digits and `\s`
against Unicode whitespace.  The predicates below model those classes on
the character repertoire of these documents (ASCII, the base Arabic block
U+0600–U+06FF including Arabic-Indic digits, and the common whitespace
code points); this is the fragment on which the engine is exercised. -/

/-- Python regex `\s` / `str.strip()` whitespace. -/
def pySpace (c : Char) : Bool :=
  c == ' ' || c == '\t' || c == '\n' || c == '\r' ||
  c == '\x0b' || c == '\x0c' || c == '\x85' || c == '\xa0' ||
  c == ' ' || (' ' ≤ c && c ≤ ' ') ||
  c == ' ' || c == ' ' || c == ' ' || c == ' ' || c == '　'

/-- ASCII digit, the class `[0-9]`. -/
def isDig09 (c : Char) : Bool := '0' ≤ c && c ≤ '9'

/-- Python regex `\d`: Unicode decimal digits; here ASCII plus the
Arabic-Indic (U+0660–U+0669) and extended Arabic-Indic (U+06F0–U+06F9) digits. -/
def isDig (c : Char) : Bool :=
  isDig09 c || ('٠' ≤ c && c ≤ '٩') || ('۰' ≤ c && c ≤ '۹')

/-- ASCII letter, the class `[A-Za-z]`. -/
def isAsciiLetter (c : Char) : Bool :=
  ('A' ≤ c && c ≤ 'Z') || ('a' ≤ c && c ≤ 'z')

/-- The class `[؀-ۿ]` of `AR_RE`. -/
def isArabic (c : Char) : Bool := '؀' ≤ c && c ≤ 'ۿ'

/-- The class `[A-Za-z@]` of `LAT_RE`. -/
def isLatAt (c : Char) : Bool := isAsciiLetter c || c == '@'

/-- Numeric value of a decimal digit character (0 for non-digits). -/
def digitVal (c : Char) : Nat :=
  if isDig09 c then c.toNat - '0'.toNat
  else if '٠' ≤ c && c ≤ '٩' then c.toNat - 0x660
  else if '۰' ≤ c && c ≤ '۹' then c.toNat - 0x6f0
  else 0

/-! ## Python string operations on code-point lists -/

/-- Python `int(s)` on an all-digit string (the only use in the source):
value of the decimal digit sequence. -/
def pyIntL (l : List Char) : Nat := l.foldl (fun a c => a * 10 + digitVal c) 0

def pyInt (s : String) : Nat := pyIntL s.data

/-- Python `s[::-1]`: reverse of the code-point sequence. -/
def strRev (s : String) : String := String.mk s.data.reverse

/-- Python `s.strip()` on a code-point list. -/
def pyStripL (l : List Char) : List Char :=
  ((l.dropWhile pySpace).reverse.dropWhile pySpace).reverse

/-- Python `s.strip()`. -/
def pyStrip (s : String) : String := String.mk (pyStripL s.data)

/-- Python `sub in s` (substring containment). -/
def containsSubL (sub : List Char) : List Char → Bool
  | [] => sub.isEmpty
  | l@(_ :: xs) => sub.isPrefixOf l || containsSubL sub xs

def containsSub (s sub : String) : Bool := containsSubL sub.data s.data

/-- Python `s.startswith(p)`. -/
def pyStartsWith (s p : String) : Bool := p.data.isPrefixOf s.data

/-- Python colon count of a string. -/
def countColon (s : String) : Nat := s.data.count ':'

/-- Python colon-containment test. -/
def hasColon (s : String) : Bool := s.data.contains ':'

/-- Python split-at-colon with maxsplit 1, for a string containing a colon:
the part before the first colon and the part after it. -/
def splitColon1 (s : String) : String × String :=
  (String.mk (s.data.takeWhile (fun c => c ≠ ':')),
   String.mk ((s.data.dropWhile (fun c => c ≠ ':')).drop 1))

/-- Python `s[n:]` (code-point slicing). -/
def pyDrop (s : String) (n : Nat) : String := String.mk (s.data.drop n)

/-- Python `s.replace(pat, rep)` for a nonempty `pat`: replace every
occurrence, scanning left to right. -/
def strReplaceL (pat rep : List Char) : Nat → List Char → List Char
  | 0, l => l
  | _ + 1, [] => []
  | fuel + 1, l@(c :: cs) =>
    if pat ≠ [] && pat.isPrefixOf l then
      rep ++ strReplaceL pat rep fuel (l.drop pat.length)
    else
      c :: strReplaceL pat rep fuel cs

def strReplace (s pat rep : String) : String :=
  String.mk (strReplaceL pat.data rep.data (s.data.length + 1) s.data)

/-- `ar_count`: number of `AR_RE` matches, i.e. of Arabic-block characters. -/
def ar_count (s : String) : Nat := (s.data.filter isArabic).length

/-- `lat_count`: number of `LAT_RE` matches, i.e. of `[A-Za-z@]` characters. -/
def lat_count (s : String) : Nat := (s.data.filter isLatAt).length

/-- `dig_count`: number of `\d` matches. -/
def dig_count (s : String) : Nat := (s.data.filter isDig).length

/-- Line-boundary characters of Python `str.splitlines()`
(besides the carriage-return/line-feed pair, handled separately). -/
def isLineBreak (c : Char) : Bool :=
  c == '\n' || c == '\r' || c == '\x0b' || c == '\x0c' ||
  c == '\x1c' || c == '\x1d' || c == '\x1e' || c == '\x85' ||
  c == ' ' || c == ' '

/-- Worker for `splitlines`: `cur` is the current line accumulated in
reverse.  A terminal segment is emitted only when nonempty, matching
Python (no trailing empty line). -/
def splitlinesAux : List Char → List Char → List (List Char)
  | cur, [] => if cur = [] then [] else [cur.reverse]
  | cur, '\r' :: '\n' :: rest => cur.reverse :: splitlinesAux [] rest
  | cur, c :: rest =>
    if isLineBreak c then cur.reverse :: splitlinesAux [] rest
    else splitlinesAux (c :: cur) rest

/-- Python `s.splitlines()`. -/
def pySplitlines (s : String) : List String :=
  (splitlinesAux [] s.data).map String.mk

/-- Python newline-join of a list of lines. -/
def joinLines (lines : List String) : String := String.intercalate "\n" lines

/-- Python zero-padded decimal formatting of a natural number to width `w`. -/
def padZ (w : Nat) (n : Nat) : String :=
  let r := Nat.repr n
  String.mk (List.replicate (w - r.length) '0' ++ r.data)


/-! ## Text Normalizer (`pdf_contracts.py`) -/

/-- The call to NFKC Unicode normalization in `normalize_text`, modelled as
the identity: every character appearing in the alias tables, patterns and
concrete inputs of this development (ASCII and the base Arabic block
U+0600–U+06FF) is NFKC-invariant, and NFKC itself is idempotent, so the
model is exact on the fragment analysed. -/
def nfkc (t : String) : String := t

/-- `normalize_text`: NFKC normalization, then removal of the RLM (U+200F)
and LRM (U+200E) directional marks. -/
def normalize_text (t : String) : String :=
  strReplace (strReplace (nfkc t) "‏" "") "‎" ""

/-- `smart_normalize_line`: repair of mirrored label/value lines. -/
def smart_normalize_line (line : String) : String :=
  let line := pyStrip line
  if line = "" then ""
  else
    let line :=
      if pyStartsWith line ":" ∧ countColon line = 1 then pyStrip (pyDrop line 1) else line
    if ¬ hasColon line then line
    else
      let p := splitColon1 line
      let left := pyStrip p.1
      let right := pyStrip p.2
      if 0 < ar_count right ∧ lat_count right = 0 ∧ dig_count right < 3 then
        pyStrip (strRev right) ++ ": " ++ pyStrip left
      else if 0 < ar_count left ∧ lat_count left = 0 ∧ dig_count left < 3 then
        pyStrip (strRev left) ++ ": " ++ pyStrip right
      else line

/-- `maybe_reverse_sentence`: for non label/value lines, reverse when Arabic
dominates. -/
def maybe_reverse_sentence (line : String) : String :=
  let s := pyStrip line
  if s = "" then ""
  else if hasColon s then s
  else if 10 ≤ ar_count s ∧ lat_count s < ar_count s then strRev s
  else s

/-- `normalize_contract_text`: per-line normalization pipeline; empty lines
are dropped and the survivors joined with a newline. -/
def normalize_contract_text (raw_text : String) : String :=
  joinLines ((((pySplitlines raw_text).map
    (fun ln => maybe_reverse_sentence (smart_normalize_line (normalize_text ln)))).filter
    (fun ln => ln ≠ "")))

/-! ## Value Sanitizers (`pdf_contracts.py`) -/

/-- Worker for the regex findall of maximal decimal-digit runs:
`cur` is the current run accumulated in reverse. -/
def digitRunsAux : List Char → List Char → List (List Char)
  | cur, [] => if cur = [] then [] else [cur.reverse]
  | cur, c :: rest =>
    if isDig c then digitRunsAux (c :: cur) rest
    else if cur = [] then digitRunsAux [] rest
    else cur.reverse :: digitRunsAux [] rest

/-- All maximal runs of `\d` characters, in order (Python findall). -/
def digit_runs (s : String) : List String := (digitRunsAux [] s.data).map String.mk

/-- `digits_only`: concatenation of all digit runs. -/
def digits_only (s : String) : String :=
  if s = "" then "" else String.join (digit_runs s)

/-- `fix_rtl_value`: reverse an Arabic value that arrived mirrored; values
containing an at-sign or an ASCII letter pass through unchanged. -/
def fix_rtl_value (v : String) : String :=
  if v = "" then ""
  else
    let v := pyStrip v
    if containsSub v "@" ∨ v.data.any isAsciiLetter then v
    else if 3 ≤ ar_count v ∧ lat_count v < ar_count v then strRev v
    else v

/-- `clean_amount_to_int`: group 1 of the first match of the amount pattern
(a digit followed by digits or commas, an optional fractional tail being
outside the group), with the commas removed.  Returns empty when no digit
occurs. -/
def clean_amount_to_int (s : String) : String :=
  if s = "" then ""
  else
    match s.data.dropWhile (fun c => !(isDig c)) with
    | [] => ""
    | d :: rest =>
      String.mk ((d :: rest.takeWhile (fun c => isDig c || c == ',')).filter
        (fun c => !(c == ',')))

/-- `normalize_reversed_short_number`: a token that fully matches a zero
followed by one digit is digit-swapped. -/
def normalize_reversed_short_number (token : String) : String :=
  let token := pyStrip token
  match token.data with
  | ['0', c] => if isDig c then strRev token else token
  | _ => token

/-- `normalize_amount_token`: a token with the transposed-amount marker (a
leading zero-zero-dot segment) is reversed wholesale, then reduced to an
integer digit string. -/
def normalize_amount_token (token : String) : String :=
  if token = "" then ""
  else
    let t := pyStrip token
    let t :=
      if pyStartsWith t "00." ∧ containsSub t "," then strRev t
      else if pyStartsWith t "00." ∧ ¬ containsSub t "," then strRev t
      else t
    clean_amount_to_int t

/-- The separator class of the 3-part date token. -/
def isDateSep (c : Char) : Bool := c == '-' || c == '/'

/-- Match of the date-token regex (one-to-four digits, separator, one-to-two
digits, separator, one-to-four digits) anchored at the start of `s`.  The
quantifier semantics collapse to conditions on the maximal digit runs: the
first two runs must fit their bounds exactly (a shorter greedy attempt is
always followed by a digit and fails), while the third group greedily takes
at most four digits of the final run. -/
def matchDate3 (s : List Char) : Option (List Char × List Char × List Char) :=
  let r1 := s.takeWhile isDig
  let t1 := s.dropWhile isDig
  if r1.length < 1 ∨ 4 < r1.length then none
  else
    match t1 with
    | c1 :: t2 =>
      if isDateSep c1 then
        let r2 := t2.takeWhile isDig
        let t3 := t2.dropWhile isDig
        if r2.length < 1 ∨ 2 < r2.length then none
        else
          match t3 with
          | c2 :: t4 =>
            if isDateSep c2 then
              let r3 := t4.takeWhile isDig
              if r3.length < 1 then none else some (r1, r2, r3.take 4)
            else none
          | [] => none
      else none
    | [] => none

/-- Leftmost match of the date-token regex (Python re.search). -/
def findDate3 : List Char → Option (List Char × List Char × List Char)
  | [] => none
  | s@(_ :: xs) => (matchDate3 s).orElse (fun _ => findDate3 xs)

/-- `format_date_any`: parse a 3-part date token, repair a reversed 4-digit
final part when it exceeds 2100, disambiguate year-first from day-first by
the length of the first part, validate, and render as day/month/year. -/
def format_date_any (s : String) : String :=
  if s = "" then ""
  else
    let s := pyStrip s
    match findDate3 s.data with
    | none => ""
    | some (a, b, c) =>
      let c := if c.length = 4 ∧ 2100 < pyIntL c then c.reverse else c
      let dmy :=
        if a.length = 4 then (pyIntL c, pyIntL b, pyIntL a)
        else
          let y := pyIntL c
          (pyIntL a, pyIntL b, if y < 100 then y + 2000 else y)
      if 1 ≤ dmy.2.1 ∧ dmy.2.1 ≤ 12 ∧ 1 ≤ dmy.1 ∧ dmy.1 ≤ 31 then
        padZ 2 dmy.1 ++ "/" ++ padZ 2 dmy.2.1 ++ "/" ++ padZ 4 dmy.2.2
      else ""

/-! ## Getters (`pdf_contracts.py`) -/

/-- The local-number scan of `normalize_mobile_from_line`: the first
ten-digit run starting zero-five, or the first nine-digit run starting
five (prefixed with a zero); the loop breaks at the first hit. -/
def findLocal : List String → String
  | [] => ""
  | g :: rest =>
    if g.data.length = 10 ∧ pyStartsWith g "05" then g
    else if g.data.length = 9 ∧ pyStartsWith g "5" then "0" ++ g
    else findLocal rest

/-- `normalize_mobile_from_line`: canonicalize the phone number found on a
line. -/
def normalize_mobile_from_line (line : String) : String :=
  if line = "" then ""
  else
    let groups := digit_runs line
    if groups = [] then ""
    else
      let has966 := groups.any (fun g => g == "966" || pyStartsWith g "966")
      let localNum := findLocal groups
      if has966 ∧ localNum ≠ "" then "966" ++ pyDrop localNum 1
      else
        let joined := String.join groups
        if pyStartsWith joined "9660" then "966" ++ pyDrop joined 4 else joined

/-- Worker for `find_line_containing`. -/
def firstContainingLine : List String → String → String
  | [], _ => ""
  | ln :: rest, kw => if containsSub ln kw then pyStrip ln else firstContainingLine rest kw

/-- `find_line_containing`: the first line containing the keyword, stripped. -/
def find_line_containing (text keyword : String) : String :=
  firstContainingLine (pySplitlines text) keyword


/-! ## A backtracking regular-expression engine

Python `re.search` semantics for the fragment used by the source: leftmost
match; ordered alternation; greedy and lazy quantifiers via priority
backtracking; numbered capture groups (of which the last assignment wins,
as in Python).  The dot does not match a newline (the source never sets
DOTALL).  The matcher is written in continuation-passing style with an
explicit fuel argument so that it is structurally recursive and reducible
by the kernel; the fuel bounds the call depth, which never exceeds the
pattern size times the input length for the patterns at hand. -/

inductive RE where
  | eps
  | dotAny
  | lit (c : Char)
  | cls (p : Char → Bool)
  | seq (r1 r2 : RE)
  | alt (r1 r2 : RE)
  | opt (r : RE) (lazy : Bool)
  | star (r : RE) (lazy : Bool)
  | rep (r : RE) (lo hi : Nat) (lazy : Bool)
  | group (idx : Nat) (r : RE)

/-- Capture environment: most recent assignment first. -/
abbrev Caps := List (Nat × List Char)

/-- Size of a pattern, used only to choose a sufficient fuel. -/
def reSize : RE → Nat
  | .eps | .dotAny | .lit _ | .cls _ => 1
  | .seq r1 r2 | .alt r1 r2 => reSize r1 + reSize r2 + 1
  | .opt r _ | .star r _ | .group _ r => reSize r + 1
  | .rep r _ hi _ => (reSize r + 1) * (hi + 2) + 1

/-- The backtracking matcher.  `reM fuel r s caps k` tries to match `r` at
the head of `s`, passing the remaining suffix and captures to the
continuation `k`; alternatives are tried in priority order, so the first
success is the one Python reports. -/
def reM : Nat → RE → List Char → Caps →
    (List Char → Caps → Option (List Char × Caps)) → Option (List Char × Caps)
  | 0, _, _, _, _ => none
  | _ + 1, .eps, s, caps, k => k s caps
  | _ + 1, .dotAny, s, caps, k =>
    match s with
    | [] => none
    | c :: rest => if c = '\n' then none else k rest caps
  | _ + 1, .lit c0, s, caps, k =>
    match s with
    | [] => none
    | c :: rest => if c = c0 then k rest caps else none
  | _ + 1, .cls p, s, caps, k =>
    match s with
    | [] => none
    | c :: rest => if p c then k rest caps else none
  | f + 1, .seq r1 r2, s, caps, k => reM f r1 s caps (fun s1 c1 => reM f r2 s1 c1 k)
  | f + 1, .alt r1 r2, s, caps, k =>
    (reM f r1 s caps k).orElse (fun _ => reM f r2 s caps k)
  | f + 1, .opt r lz, s, caps, k =>
    if lz then (k s caps).orElse (fun _ => reM f r s caps k)
    else (reM f r s caps k).orElse (fun _ => k s caps)
  | f + 1, .star r lz, s, caps, k =>
    let cont := fun s1 c1 =>
      if s1.length < s.length then reM f (.star r lz) s1 c1 k else k s1 c1
    if lz then (k s caps).orElse (fun _ => reM f r s caps cont)
    else (reM f r s caps cont).orElse (fun _ => k s caps)
  | f + 1, .rep r lo hi lz, s, caps, k =>
    match lo with
    | l + 1 => reM f r s caps (fun s1 c1 => reM f (.rep r l (hi - 1) lz) s1 c1 k)
    | 0 =>
      match hi with
      | 0 => k s caps
      | h + 1 =>
        let cont := fun s1 c1 =>
          if s1.length < s.length then reM f (.rep r 0 h lz) s1 c1 k else k s1 c1
        if lz then (k s caps).orElse (fun _ => reM f r s caps cont)
        else (reM f r s caps cont).orElse (fun _ => k s caps)
  | f + 1, .group i r, s, caps, k =>
    reM f r s caps (fun s1 c1 => k s1 ((i, s.take (s.length - s1.length)) :: c1))

/-- Fuel sufficient for the patterns and inputs of this development. -/
def reFuel (r : RE) (s : List Char) : Nat := (reSize r + 2) * (s.length + 2) + 2

/-- Leftmost search: try a match at each successive start position.
Returns the text before the match, the match itself, the captures, and the
remaining suffix. -/
def pySearchAux (f : Nat) (r : RE) :
    List Char → Option (List Char × List Char × Caps × List Char)
  | [] =>
    match reM f r [] [] (fun s1 c1 => some (s1, c1)) with
    | some (_, caps) => some ([], [], caps, [])
    | none => none
  | s@(c :: xs) =>
    match reM f r s [] (fun s1 c1 => some (s1, c1)) with
    | some (rest, caps) => some ([], s.take (s.length - rest.length), caps, rest)
    | none => (pySearchAux f r xs).map (fun q => (c :: q.1, q.2.1, q.2.2.1, q.2.2.2))

/-- A successful search result. -/
structure ReMatch where
  pre : List Char
  matched : List Char
  caps : Caps
  rest : List Char

/-- Python re.search. -/
def pySearch (r : RE) (s : String) : Option ReMatch :=
  match pySearchAux (reFuel r s.data) r s.data with
  | some (p, m, cps, rst) => some ⟨p, m, cps, rst⟩
  | none => none

/-- Python match group: the text of the last assignment of capture `i`. -/
def grp (m : ReMatch) (i : Nat) : String := String.mk ((m.caps.lookup i).getD [])

/-- Python re.findall (patterns without groups): the successive
non-overlapping matches, scanning left to right; after an empty match the
scan advances one character. -/
def pyFindallAux (f : Nat) (r : RE) : Nat → List Char → List (List Char)
  | 0, _ => []
  | fuel + 1, s =>
    match pySearchAux f r s with
    | none => []
    | some (_, m, _, rest) =>
      if m = [] then
        match rest with
        | [] => [m]
        | _ :: xs => m :: pyFindallAux f r fuel xs
      else m :: pyFindallAux f r fuel rest

def pyFindall (r : RE) (s : String) : List String :=
  (pyFindallAux (reFuel r s.data) r (s.data.length + 1) s.data).map String.mk

/-- Python re.split with maxsplit 1, for a pattern without groups: the text
before the first match and the text after it, or the whole string when the
pattern does not occur. -/
def pySplitOnce (r : RE) (s : String) : List String :=
  match pySearchAux (reFuel r s.data) r s.data with
  | none => [s]
  | some (p, _, _, rst) => [String.mk p, String.mk rst]

/-! ### Pattern builders -/

/-- A literal string as a pattern. -/
def strLit (s : String) : RE := s.data.foldr (fun c acc => RE.seq (.lit c) acc) .eps

def wsStar : RE := .star (.cls pySpace) false

def wsPlus : RE := .seq (.cls pySpace) wsStar

def plusOf (r : RE) : RE := .seq r (.star r false)

def lazyDotStar : RE := .star .dotAny true

def reDigU : RE := .cls isDig

def reDig09 : RE := .cls isDig09


/-- Sequential composition of a list of patterns. -/
def seqAll (l : List RE) : RE := l.foldr .seq .eps

/-! ### Getters -/

/-- The pattern of `get_value_after_label`: the (escaped) label, optional
whitespace, a colon, optional whitespace, then the rest of the line as
group 1. -/
def labelRE (label : String) : RE :=
  seqAll [strLit label, wsStar, .lit ':', wsStar,
          .group 1 (plusOf (.cls (fun c => c ≠ '\n')))]

/-- `get_value_after_label`. -/
def get_value_after_label (text label : String) : String :=
  match pySearch (labelRE label) text with
  | some m => pyStrip (grp m 1)
  | none => ""

/-- `get_bi`: first label alias with a non-empty value. -/
def get_bi (text : String) : List String → String
  | [] => ""
  | lab :: rest =>
    let v := get_value_after_label text lab
    if v ≠ "" then v else get_bi text rest

/-! ### The patterns of `parse_contract` -/

def isEmailLocalChar (c : Char) : Bool :=
  isAsciiLetter c || isDig09 c || c == '.' || c == '_' || c == '%' || c == '+' || c == '-'

def isEmailDomainChar (c : Char) : Bool :=
  isAsciiLetter c || isDig09 c || c == '.' || c == '-'

/-- `EMAIL_RE`. -/
def emailRE : RE :=
  seqAll [plusOf (.cls isEmailLocalChar), .lit '@', plusOf (.cls isEmailDomainChar),
          .lit '.', .cls isAsciiLetter, .cls isAsciiLetter, .star (.cls isAsciiLetter) false]

def dateSepC : RE := .cls isDateSep

/-- The loose 3-part date token of the sentence patterns. -/
def dateTok24 : RE :=
  seqAll [.rep reDig09 2 4 false, dateSepC, .rep reDig09 1 2 false, dateSepC,
          .rep reDig09 2 4 false]

/-- The strict 3-part date token of the parenthesized-date fallback. -/
def dateTokStrict : RE :=
  seqAll [.rep reDig09 4 4 false, dateSepC, .rep reDig09 2 2 false, dateSepC,
          .rep reDig09 2 2 false]

def commaCls : RE := .cls (fun c => c == ',' || c == '،')

def tanweenCls : RE := .cls (fun c => c == 'ً' || c == 'ا')

def yaCls : RE := .cls (fun c => c == 'ي' || c == 'ى')

/-- The amount token: an ASCII digit followed by digits, dots or commas. -/
def amountTok : RE := .seq reDig09 (plusOf (.cls (fun c => isDig09 c || c == '.' || c == ',')))

def patContractNo : RE :=
  seqAll [strLit "رقم العقد", wsStar, .lit ':', wsStar, .group 1 (plusOf reDigU)]

def patContractDate1 : RE :=
  seqAll [strLit "في يوم", lazyDotStar, .opt (.lit '(') false, wsStar,
          .group 1 dateTok24, wsStar, .opt (.lit ')') false]

def patContractDate2 : RE :=
  seqAll [.lit '(', wsStar, .group 1 dateTokStrict, wsStar, .lit ')']

def patContractDate3 : RE :=
  seqAll [strLit "تم", lazyDotStar, strLit "بتاريخ", wsStar, .group 1 dateTok24]

def patDuration : RE :=
  seqAll [strLit "مدة هذا العقد", wsPlus, .group 1 (plusOf reDigU), wsStar,
          .group 2 (.alt (strLit "سنة") (.alt (strLit "سنوات") (.alt (strLit "شهر") (strLit "أشهر"))))]

def patStartEnd : RE :=
  seqAll [strLit "يبدأ", wsStar, lazyDotStar, strLit "من", wsStar, strLit "تاريخ", wsStar,
          .group 1 dateTok24, lazyDotStar, strLit "وينتهي", wsStar, lazyDotStar,
          strLit "في", wsStar, .opt commaCls false, wsStar, .group 2 dateTok24]

def patStart : RE :=
  seqAll [strLit "يبدأ", wsStar, lazyDotStar, strLit "من", wsStar, strLit "تاريخ", wsStar,
          .group 1 dateTok24]

def patEnd : RE :=
  seqAll [strLit "وينتهي", wsStar, lazyDotStar, strLit "في", wsStar, .opt commaCls false,
          wsStar, .group 1 dateTok24]

def patJoining : RE :=
  seqAll [strLit "تاريخ", wsPlus, strLit "مباشرة", lazyDotStar,
          .opt (.alt (strLit "هو") (.lit ':')) false, wsStar, .group 1 dateTok24]

def patTrial : RE :=
  seqAll [strLit "فترة", wsPlus, lazyDotStar, strLit "تجربة", lazyDotStar,
          strLit "مدتها", wsStar, .group 1 (plusOf reDigU), wsStar, strLit "يوم"]

def patWorkDays : RE :=
  seqAll [strLit "تحدد", wsPlus, strLit "أيام", wsPlus, strLit "العمل", lazyDotStar,
          strLit "ب", wsStar, .group 1 (plusOf reDigU), wsStar, strLit "أيام"]

def patWorkHours : RE :=
  seqAll [strLit "تحدد", wsPlus, strLit "ساعات", wsPlus, strLit "العمل", lazyDotStar,
          strLit "ب", wsStar, .group 1 (plusOf reDigU), wsStar, strLit "يومي"]

def patOvertime : RE :=
  seqAll [.alt (.lit '٪') (.lit '%'), wsStar, .group 1 (.rep reDig09 1 3 false)]

def patBaseSalary : RE :=
  seqAll [strLit "أجر", .opt tanweenCls false, wsStar, strLit "أساس", yaCls, wsStar,
          strLit "قدره", wsStar, .group 1 amountTok]

def patHousing : RE :=
  seqAll [strLit "أجر", wsStar, .group 1 amountTok, wsStar, strLit "ريال", wsStar,
          strLit "سعودي", wsStar, .opt commaCls false, wsStar, strLit "بدل", wsStar,
          strLit "سكن"]

def patLeave : RE :=
  seqAll [strLit "إجازة", wsStar, strLit "سنوية", wsStar, strLit "مدتها", wsStar,
          .group 1 (plusOf reDigU), wsStar, strLit "يوم"]

def patCompensation : RE :=
  seqAll [strLit "تعويض", .opt tanweenCls false, lazyDotStar, strLit "قدره", wsStar,
          .group 1 amountTok, wsStar, strLit "ريال", wsStar, strLit "سعودي"]

/-- The split pattern of the signatory block. -/
def patSifa : RE := seqAll [wsStar, strLit "بصفته", wsStar]

/-- The whitespace-removal of the IBAN block (Python re.sub of runs of
whitespace by the empty string removes exactly the whitespace characters). -/
def removeWs (s : String) : String := String.mk (s.data.filter (fun c => ¬ pySpace c))


/-! ## The schema and the record (`HEADERS`, `parse_contract`) -/

/-- The fixed, ordered schema of 40 canonical field names. -/
def HEADERS : List String :=
  ["رقم العقد",
   "تاريخ العقد",
   "شركة/مؤسسة",
   "الرقم الوطني الموحد",
   "رقم المنشأة",
   "السجل التجاري",
   "عنوان الشركة",
   "مكان العمل",
   "بريد الشركة",
   "المسؤول الموقع",
   "الصفة",
   "اسم الموظف",
   "رقم الهوية",
   "نوع الهوية",
   "تاريخ الميلاد",
   "تاريخ انتهاء الهوية",
   "الجنسية",
   "الجنس",
   "الديانة",
   "الحالة الاجتماعية",
   "المؤهل العلمي",
   "التخصص",
   "المهنة",
   "الرقم الوظيفي",
   "رقم الآيبان",
   "اسم البنك",
   "بريد الموظف",
   "رقم الجوال",
   "بدء العقد",
   "انتهاء العقد",
   "تاريخ المباشرة الفعلية",
   "مدة العقد",
   "فترة التجربة",
   "أيام العمل الأسبوعية",
   "ساعات العمل اليومية",
   "الراتب الأساسي",
   "بدل السكن",
   "الإجازة السنوية",
   "أجر الساعة الإضافية",
   "التعويض عند الفسخ بدون سبب"]

/-- Python dictionary read with default empty string. -/
def dget : List (String × String) → String → String
  | [], _ => ""
  | (k1, v) :: rest, k => if k1 = k then v else dget rest k

/-- Python dictionary assignment: update in place when the key is present
(keeping its position), append otherwise. -/
def dset : List (String × String) → String → String → List (String × String)
  | [], k, v => [(k, v)]
  | (k1, v1) :: rest, k, v => if k1 = k then (k1, v) :: rest else (k1, v1) :: dset rest k v

/-- The record type of `parse_contract`: an insertion-ordered dictionary. -/
abbrev Row := List (String × String)

/-- The conditional-assignment idiom of the parser: search, and assign a
function of the match only when the search succeeded. -/
def condSet (o : Option ReMatch) (k : String) (f : ReMatch → String) (row : Row) : Row :=
  match o with
  | some m => dset row k (f m)
  | none => row

/-- The final cleanup loop of `parse_contract`: strip every value. -/
def cleanup (row : Row) : Row :=
  HEADERS.foldl (fun r k => dset r k (pyStrip (dget r k))) row

/-! ### The per-field assignment steps of `parse_contract`, in source order -/

def step_contract_no (text : String) (row : Row) : Row :=
  condSet (pySearch patContractNo text) "رقم العقد" (fun m => grp m 1) row

def step_contract_date1 (text : String) (row : Row) : Row :=
  condSet (pySearch patContractDate1 text) "تاريخ العقد" (fun m => format_date_any (grp m 1)) row

def step_duration (text : String) (row : Row) : Row :=
  condSet (pySearch patDuration text) "مدة العقد" (fun m => digits_only (grp m 1)) row

def step_joining (text : String) (row : Row) : Row :=
  condSet (pySearch patJoining text) "تاريخ المباشرة الفعلية" (fun m => format_date_any (grp m 1)) row

def step_trial (text : String) (row : Row) : Row :=
  condSet (pySearch patTrial text) "فترة التجربة" (fun m => digits_only (if (grp m 1).data.length = 2 then normalize_reversed_short_number (grp m 1) else grp m 1)) row

def step_workdays (text : String) (row : Row) : Row :=
  condSet (pySearch patWorkDays text) "أيام العمل الأسبوعية" (fun m => digits_only (grp m 1)) row

def step_workhours (text : String) (row : Row) : Row :=
  condSet (pySearch patWorkHours text) "ساعات العمل اليومية" (fun m => digits_only (grp m 1)) row

def step_overtime (text : String) (row : Row) : Row :=
  condSet (pySearch patOvertime text) "أجر الساعة الإضافية" (fun m => digits_only (if (grp m 1).data.length = 2 then normalize_reversed_short_number (grp m 1) else grp m 1)) row

def step_salary (text : String) (row : Row) : Row :=
  condSet (pySearch patBaseSalary text) "الراتب الأساسي" (fun m => normalize_amount_token (grp m 1)) row

def step_housing (text : String) (row : Row) : Row :=
  condSet (pySearch patHousing text) "بدل السكن" (fun m => normalize_amount_token (grp m 1)) row

def step_leave (text : String) (row : Row) : Row :=
  condSet (pySearch patLeave text) "الإجازة السنوية" (fun m => digits_only (if (grp m 1).data.length = 2 then normalize_reversed_short_number (grp m 1) else grp m 1)) row

def step_compensation (text : String) (row : Row) : Row :=
  condSet (pySearch patCompensation text) "التعويض عند الفسخ بدون سبب" (fun m => normalize_amount_token (grp m 1)) row

def step_contract_date2 (text : String) (row : Row) : Row :=
  if dget row "تاريخ العقد" = "" then
    condSet (pySearch patContractDate2 text) "تاريخ العقد" (fun m => format_date_any (grp m 1)) row
  else row

def step_contract_date3 (text : String) (row : Row) : Row :=
  if dget row "تاريخ العقد" = "" then
    condSet (pySearch patContractDate3 text) "تاريخ العقد" (fun m => format_date_any (grp m 1)) row
  else row

def step_company (text : String) (row : Row) : Row :=
  dset row "شركة/مؤسسة" (fix_rtl_value (get_bi text ["شركة/مؤسسة", "Corporation/Company"]))

def step_unified_no (text : String) (row : Row) : Row :=
  dset row "الرقم الوطني الموحد" (digits_only (get_bi text ["الرقم الوطني الموحد", "National Unified Number"]))

def step_estab_no (text : String) (row : Row) : Row :=
  dset row "رقم المنشأة" (pyStrip (get_bi text ["رقم المنشأة", "Establishment Number"]))

def step_comm_reg (text : String) (row : Row) : Row :=
  dset row "السجل التجاري" (digits_only (get_bi text ["السجل التجاري", "Commercial Registration"]))

def step_address (text : String) (row : Row) : Row :=
  dset row "عنوان الشركة" (fix_rtl_value (get_bi text ["العنوان", "Address"]))

def step_work_loc (text : String) (row : Row) : Row :=
  dset row "مكان العمل" (fix_rtl_value (get_bi text ["مكان العمل", "Work Location"]))

def step_emp_name (text : String) (row : Row) : Row :=
  dset row "اسم الموظف" (fix_rtl_value (pyStrip (get_bi text ["االسم", "الاسم", "Name"])))

def step_profession (text : String) (row : Row) : Row :=
  dset row "المهنة" (fix_rtl_value (get_bi text ["المهنة", "Profession"]))

def step_emp_no (text : String) (row : Row) : Row :=
  dset row "الرقم الوظيفي" (digits_only (get_bi text ["الرقم الوظيفي", "Employee Number"]))

def step_nationality (text : String) (row : Row) : Row :=
  dset row "الجنسية" (fix_rtl_value (get_bi text ["الجنسية", "Nationality"]))

def step_birth (text : String) (row : Row) : Row :=
  dset row "تاريخ الميلاد" (format_date_any (get_bi text ["تاريخ الميالد", "Date of Birth"]))

def step_id_no (text : String) (row : Row) : Row :=
  dset row "رقم الهوية" (digits_only (get_bi text ["رقم الهوية", "Identity Number"]))

def step_id_type (text : String) (row : Row) : Row :=
  dset row "نوع الهوية" (fix_rtl_value (get_bi text ["نوع الهوية", "ID Type"]))

def step_id_expiry (text : String) (row : Row) : Row :=
  dset row "تاريخ انتهاء الهوية" (format_date_any (get_bi text ["تاريخ اإلنتهاء", "تاريخ الانتهاء", "ID Expiry Date"]))

def step_gender (text : String) (row : Row) : Row :=
  dset row "الجنس" (fix_rtl_value (get_bi text ["الجنس", "Gender"]))

def step_religion (text : String) (row : Row) : Row :=
  dset row "الديانة" (fix_rtl_value (get_bi text ["الديانة", "Religion"]))

def step_marital (text : String) (row : Row) : Row :=
  dset row "الحالة الاجتماعية" (fix_rtl_value (get_bi text ["الحالة االجتماعية", "الحالة الاجتماعية", "Marital Status"]))

def step_education (text : String) (row : Row) : Row :=
  dset row "المؤهل العلمي" (fix_rtl_value (get_bi text ["المؤهل العلمي", "Education"]))

def step_specialty (text : String) (row : Row) : Row :=
  dset row "التخصص" (fix_rtl_value (get_bi text ["التخصص", "Speciality"]))

def step_iban (text : String) (row : Row) : Row :=
  dset row "رقم الآيبان" (pyStrip (removeWs (get_bi text ["رقم اآليبان", "رقم الآيبان", "Iban"])))

def step_bank (text : String) (row : Row) : Row :=
  dset row "اسم البنك" (fix_rtl_value (get_bi text ["اسم البنك", "Bank Name"]))

def step_emails (text : String) (row : Row) : Row :=
  match pyFindall emailRE text with
  | [] => row
  | e1 :: restEmails =>
    match restEmails with
    | [] => dset row "بريد الشركة" e1
    | e2 :: _ => dset (dset row "بريد الشركة" e1) "بريد الموظف" e2

def signRawOf (text : String) : String :=
  pyStrip (strReplace (fix_rtl_value (get_value_after_label text "ويمثلها بالتوقيع")) "هتفصب" "بصفته")

def step_sign (text : String) (row : Row) : Row :=
  if signRawOf text ≠ "" then
    match pySplitOnce patSifa (signRawOf text) with
    | [a, b] => dset (dset row "المسؤول الموقع" (pyStrip a)) "الصفة" (pyStrip b)
    | _ => dset row "المسؤول الموقع" (signRawOf text)
  else row

def step_mobile (text : String) (row : Row) : Row :=
  if find_line_containing text "رقم الجوال" ≠ "" then
    dset row "رقم الجوال" (normalize_mobile_from_line (find_line_containing text "رقم الجوال"))
  else row

def step_start_end (text : String) (row : Row) : Row :=
  match pySearch patStartEnd text with
  | some m =>
    dset (dset row "بدء العقد" (format_date_any (grp m 1))) "انتهاء العقد" (format_date_any (grp m 2))
  | none =>
    condSet (pySearch patEnd text) "انتهاء العقد" (fun m => format_date_any (grp m 1))
      (condSet (pySearch patStart text) "بدء العقد" (fun m => format_date_any (grp m 1)) row)

/-- `parse_contract`: the record is initialized with an empty string for
every schema field, filled by the independent per-field blocks in source
order, and finally cleaned up by stripping every value. -/
def parse_contract (text : String) : Row :=
  if text = "" then HEADERS.map (fun h => (h, ""))
  else
    cleanup
      (step_compensation text (step_leave text (step_housing text (step_salary text (step_overtime text (step_workhours text (step_workdays text (step_trial text (step_joining text (step_start_end text (step_duration text (step_mobile text (step_bank text (step_iban text (step_specialty text (step_education text (step_marital text (step_religion text (step_gender text (step_id_expiry text (step_id_type text (step_id_no text (step_birth text (step_nationality text (step_emp_no text (step_profession text (step_emp_name text (step_sign text (step_emails text (step_work_loc text (step_address text (step_comm_reg text (step_estab_no text (step_unified_no text (step_company text (step_contract_date3 text (step_contract_date2 text (step_contract_date1 text (step_contract_no text (HEADERS.map (fun h => (h, ""))))))))))))))))))))))))))))))))))))))))))

/-! ## Quality scorer (`calc_quality`) -/

/-- Python round with one decimal digit, on exact rationals: round half to
even at the first decimal place.  (The percentages produced here are exact
multiples of one fourth, on which the binary-float computation of the
source agrees with exact rational arithmetic.) -/
def pyRound1 (q : ℚ) : ℚ :=
  let x := q * 10
  let f : ℤ := ⌊x⌋
  let r := x - f
  let n : ℤ := if r < 1/2 then f else if 1/2 < r then f + 1 else if f % 2 = 0 then f else f + 1
  (n : ℚ) / 10

/-- `calc_quality`: count the filled fields, collect the missing ones in
schema order, and compute the completeness percentage. -/
def calc_quality (row : Row) : Nat × Nat × ℚ × List String :=
  let total := HEADERS.length
  let fm := HEADERS.foldl
    (fun (acc : Nat × List String) h =>
      if pyStrip (dget row h) ≠ "" then (acc.1 + 1, acc.2) else (acc.1, acc.2 ++ [h]))
    (0, [])
  let filled := fm.1
  let missing := fm.2
  let pct := if total ≠ 0 then pyRound1 (((filled : ℚ) / (total : ℚ)) * 100) else 0
  (filled, total, pct, missing)

/-! ## Fallback merge (`ai_assist.py`) -/

/-- One iteration of the merge loop of `merge_row_with_ai`: skip an empty
value; under the fill-empty-only policy skip a field whose current value is
nonblank; otherwise write the value and count it. -/
def mergeStep (only_fill_empty : Bool) (acc : Row × Nat) (kv : String × String) : Row × Nat :=
  if kv.2 = "" then acc
  else if only_fill_empty ∧ pyStrip (dget acc.1 kv.1) ≠ "" then acc
  else (dset acc.1 kv.1 kv.2, acc.2 + 1)

/-- `merge_row_with_ai`: merge the fallback values into the record, in
response order.  Returns the record and the number of fields written. -/
def merge_row_with_ai (row : Row) (aiValues : List (String × String))
    (only_fill_empty : Bool := true) : Row × Nat :=
  aiValues.foldl (mergeStep only_fill_empty) (row, 0)


/-! ### Case combinators

Small named combinators for the optional-match and list-match shapes of the
parser; the per-field value lemmas and the per-field specifications are
both phrased through them. -/

/-- Value of an optional match: apply `f` on success, default otherwise. -/
def optStr (o : Option ReMatch) (f : ReMatch → String) (d : String) : String :=
  match o with
  | some m => f m
  | none => d

/-- First element of a list of matches, or a default. -/
def firstEmailOr (es : List String) (d : String) : String :=
  match es with
  | [] => d
  | e1 :: _ => e1

/-- Second element of a list of matches, or a default. -/
def secondEmailOr (es : List String) (d : String) : String :=
  match es with
  | _ :: e2 :: _ => e2
  | _ => d

/-- Case split on a split result with exactly two parts. -/
def splitCase2 (parts : List String) (f : String → String → String) (d : String) : String :=
  match parts with
  | [a, b] => f a b
  | _ => d

/-! ## Dictionary lemmas -/

theorem dget_dset (row : Row) (k1 v k) :
    dget (dset row k1 v) k = if k1 = k then v else dget row k := by
  induction row with
  | nil => simp [dset, dget]
  | cons p rest ih =>
    obtain ⟨k2, v2⟩ := p
    simp only [dset]
    split_ifs with h1 <;> simp only [dget] <;> split_ifs with h2 <;> simp_all [dget]

theorem dget_dset_self (row : Row) (k v : String) : dget (dset row k v) k = v := by
  simp [dget_dset]

theorem dget_dset_ne {k1 k : String} (row : Row) (v : String) (h : k1 ≠ k) :
    dget (dset row k1 v) k = dget row k := by simp [dget_dset, h]

theorem dget_condSet_ne {k1 k : String} (o : Option ReMatch) (f : ReMatch → String)
    (row : Row) (h : k1 ≠ k) : dget (condSet o k1 f row) k = dget row k := by
  cases o <;> simp [condSet, dget_dset_ne _ _ h]

theorem dget_condSet_self (o : Option ReMatch) (k : String) (f : ReMatch → String)
    (row : Row) :
    dget (condSet o k f row) k = optStr o f (dget row k) := by
  cases o <;> simp [condSet, optStr, dget_dset_self]

theorem dget_ite (c : Prop) [Decidable c] (r1 r2 : Row) (k : String) :
    dget (if c then r1 else r2) k = if c then dget r1 k else dget r2 k :=
  apply_ite (fun r => dget r k) c r1 r2

theorem dget_map_empty (hs : List String) (k : String) :
    dget (hs.map fun h => (h, "")) k = "" := by
  induction hs with
  | nil => rfl
  | cons h0 rest ih => simp only [List.map_cons, dget]; split_ifs <;> simp [ih]

theorem dget_not_mem {row : Row} {k : String} (h : k ∉ row.map Prod.fst) : dget row k = "" := by
  induction row with
  | nil => rfl
  | cons p rest ih =>
    obtain ⟨k2, v2⟩ := p
    simp only [List.map_cons, List.mem_cons] at h
    push_neg at h
    simp only [dget]
    rw [if_neg (fun he => h.1 he.symm)]
    exact ih h.2

theorem keys_dset_of_mem {row : Row} {k : String} (v : String) (h : k ∈ row.map Prod.fst) :
    (dset row k v).map Prod.fst = row.map Prod.fst := by
  induction row with
  | nil => simp at h
  | cons p rest ih =>
    obtain ⟨k2, v2⟩ := p
    simp only [List.map_cons, List.mem_cons] at h
    simp only [dset]
    by_cases h1 : k2 = k
    · simp [h1]
    · rcases h with h | h
      · exact absurd h.symm h1
      · simp [h1, ih h]

theorem headers_nodup : HEADERS.Nodup := by decide

theorem keysH_dset {row : Row} {k : String} (v : String) (hk : k ∈ HEADERS)
    (h : row.map Prod.fst = HEADERS) : (dset row k v).map Prod.fst = HEADERS := by
  have hm : k ∈ row.map Prod.fst := by rw [h]; exact hk
  rw [keys_dset_of_mem v hm, h]

theorem keysH_condSet {o : Option ReMatch} {k : String} {f : ReMatch → String} {row : Row}
    (hk : k ∈ HEADERS) (h : row.map Prod.fst = HEADERS) :
    (condSet o k f row).map Prod.fst = HEADERS := by
  cases o <;> simp only [condSet]
  · exact h
  · exact keysH_dset _ hk h

theorem keysH_ite {c : Prop} [Decidable c] {r1 r2 : Row}
    (h1 : r1.map Prod.fst = HEADERS) (h2 : r2.map Prod.fst = HEADERS) :
    (if c then r1 else r2).map Prod.fst = HEADERS := by
  split_ifs <;> assumption

theorem keys_init : ((HEADERS.map fun h => (h, "")).map Prod.fst) = HEADERS := by
  rw [List.map_map]
  exact List.map_id HEADERS

theorem keys_foldStrip (ks : List String) (row : Row)
    (h : ∀ k ∈ ks, k ∈ row.map Prod.fst) :
    ((ks.foldl (fun r k2 => dset r k2 (pyStrip (dget r k2))) row).map Prod.fst)
      = row.map Prod.fst := by
  induction ks generalizing row with
  | nil => simp
  | cons k0 ks ih =>
    simp only [List.foldl_cons]
    have hk0 : k0 ∈ row.map Prod.fst := h k0 (by simp)
    rw [ih, keys_dset_of_mem _ hk0]
    intro k hk
    rw [keys_dset_of_mem _ hk0]
    exact h k (by simp [hk])

theorem dget_foldStrip (ks : List String) (row : Row) (k : String) (hnd : ks.Nodup) :
    dget (ks.foldl (fun r k2 => dset r k2 (pyStrip (dget r k2))) row) k
      = if k ∈ ks then pyStrip (dget row k) else dget row k := by
  induction ks generalizing row with
  | nil => simp
  | cons k0 ks ih =>
    rcases List.nodup_cons.mp hnd with ⟨hk0, hnd2⟩
    simp only [List.foldl_cons]
    rw [ih _ hnd2]
    by_cases he : k = k0
    · subst he
      rw [if_neg hk0, dget_dset_self]
      simp
    · rw [dget_dset_ne _ _ (Ne.symm he)]
      by_cases hm : k ∈ ks
      · simp [hm, he]
      · simp [hm, he]

theorem dget_cleanup_mem (row : Row) (k : String) (h : k ∈ HEADERS) :
    dget (cleanup row) k = pyStrip (dget row k) := by
  unfold cleanup
  rw [dget_foldStrip _ _ _ headers_nodup, if_pos h]

theorem keys_cleanup_inv {row : Row} (h : row.map Prod.fst = HEADERS) :
    (cleanup row).map Prod.fst = HEADERS := by
  unfold cleanup
  rw [keys_foldStrip]
  · exact h
  · intro k hk; rw [h]; exact hk

/-! ### Per-step lemmas: key-set preservation, frame, and value -/

theorem keys_step_contract_no {row : Row} (text : String) (h : row.map Prod.fst = HEADERS) :
    (step_contract_no text row).map Prod.fst = HEADERS := by
  unfold step_contract_no
  exact keysH_condSet (by decide) h

theorem dget_step_contract_no_ne (text : String) (row : Row) (k : String) (h : k ≠ "رقم العقد") :
    dget (step_contract_no text row) k = dget row k := by
  unfold step_contract_no
  exact dget_condSet_ne _ _ _ (Ne.symm h)

theorem dget_step_contract_no_self (text : String) (row : Row) :
    dget (step_contract_no text row) "رقم العقد"
      = optStr (pySearch patContractNo text) (fun m => grp m 1) (dget row "رقم العقد") := by
  unfold step_contract_no
  exact dget_condSet_self _ _ _ _

theorem keys_step_contract_date1 {row : Row} (text : String) (h : row.map Prod.fst = HEADERS) :
    (step_contract_date1 text row).map Prod.fst = HEADERS := by
  unfold step_contract_date1
  exact keysH_condSet (by decide) h

theorem dget_step_contract_date1_ne (text : String) (row : Row) (k : String) (h : k ≠ "تاريخ العقد") :
    dget (step_contract_date1 text row) k = dget row k := by
  unfold step_contract_date1
  exact dget_condSet_ne _ _ _ (Ne.symm h)

theorem dget_step_contract_date1_self (text : String) (row : Row) :
    dget (step_contract_date1 text row) "تاريخ العقد"
      = optStr (pySearch patContractDate1 text) (fun m => format_date_any (grp m 1)) (dget row "تاريخ العقد") := by
  unfold step_contract_date1
  exact dget_condSet_self _ _ _ _

theorem keys_step_duration {row : Row} (text : String) (h : row.map Prod.fst = HEADERS) :
    (step_duration text row).map Prod.fst = HEADERS := by
  unfold step_duration
  exact keysH_condSet (by decide) h

theorem dget_step_duration_ne (text : String) (row : Row) (k : String) (h : k ≠ "مدة العقد") :
    dget (step_duration text row) k = dget row k := by
  unfold step_duration
  exact dget_condSet_ne _ _ _ (Ne.symm h)

theorem dget_step_duration_self (text : String) (row : Row) :
    dget (step_duration text row) "مدة العقد"
      = optStr (pySearch patDuration text) (fun m => digits_only (grp m 1)) (dget row "مدة العقد") := by
  unfold step_duration
  exact dget_condSet_self _ _ _ _

theorem keys_step_joining {row : Row} (text : String) (h : row.map Prod.fst = HEADERS) :
    (step_joining text row).map Prod.fst = HEADERS := by
  unfold step_joining
  exact keysH_condSet (by decide) h

theorem dget_step_joining_ne (text : String) (row : Row) (k : String) (h : k ≠ "تاريخ المباشرة الفعلية") :
    dget (step_joining text row) k = dget row k := by
  unfold step_joining
  exact dget_condSet_ne _ _ _ (Ne.symm h)

theorem dget_step_joining_self (text : String) (row : Row) :
    dget (step_joining text row) "تاريخ المباشرة الفعلية"
      = optStr (pySearch patJoining text) (fun m => format_date_any (grp m 1)) (dget row "تاريخ المباشرة الفعلية") := by
  unfold step_joining
  exact dget_condSet_self _ _ _ _

theorem keys_step_trial {row : Row} (text : String) (h : row.map Prod.fst = HEADERS) :
    (step_trial text row).map Prod.fst = HEADERS := by
  unfold step_trial
  exact keysH_condSet (by decide) h

theorem dget_step_trial_ne (text : String) (row : Row) (k : String) (h : k ≠ "فترة التجربة") :
    dget (step_trial text row) k = dget row k := by
  unfold step_trial
  exact dget_condSet_ne _ _ _ (Ne.symm h)

theorem dget_step_trial_self (text : String) (row : Row) :
    dget (step_trial text row) "فترة التجربة"
      = optStr (pySearch patTrial text) (fun m => digits_only (if (grp m 1).data.length = 2 then normalize_reversed_short_number (grp m 1) else grp m 1)) (dget row "فترة التجربة") := by
  unfold step_trial
  exact dget_condSet_self _ _ _ _

theorem keys_step_workdays {row : Row} (text : String) (h : row.map Prod.fst = HEADERS) :
    (step_workdays text row).map Prod.fst = HEADERS := by
  unfold step_workdays
  exact keysH_condSet (by decide) h

theorem dget_step_workdays_ne (text : String) (row : Row) (k : String) (h : k ≠ "أيام العمل الأسبوعية") :
    dget (step_workdays text row) k = dget row k := by
  unfold step_workdays
  exact dget_condSet_ne _ _ _ (Ne.symm h)

theorem dget_step_workdays_self (text : String) (row : Row) :
    dget (step_workdays text row) "أيام العمل الأسبوعية"
      = optStr (pySearch patWorkDays text) (fun m => digits_only (grp m 1)) (dget row "أيام العمل الأسبوعية") := by
  unfold step_workdays
  exact dget_condSet_self _ _ _ _

theorem keys_step_workhours {row : Row} (text : String) (h : row.map Prod.fst = HEADERS) :
    (step_workhours text row).map Prod.fst = HEADERS := by
  unfold step_workhours
  exact keysH_condSet (by decide) h

theorem dget_step_workhours_ne (text : String) (row : Row) (k : String) (h : k ≠ "ساعات العمل اليومية") :
    dget (step_workhours text row) k = dget row k := by
  unfold step_workhours
  exact dget_condSet_ne _ _ _ (Ne.symm h)

theorem dget_step_workhours_self (text : String) (row : Row) :
    dget (step_workhours text row) "ساعات العمل اليومية"
      = optStr (pySearch patWorkHours text) (fun m => digits_only (grp m 1)) (dget row "ساعات العمل اليومية") := by
  unfold step_workhours
  exact dget_condSet_self _ _ _ _

theorem keys_step_overtime {row : Row} (text : String) (h : row.map Prod.fst = HEADERS) :
    (step_overtime text row).map Prod.fst = HEADERS := by
  unfold step_overtime
  exact keysH_condSet (by decide) h

theorem dget_step_overtime_ne (text : String) (row : Row) (k : String) (h : k ≠ "أجر الساعة الإضافية") :
    dget (step_overtime text row) k = dget row k := by
  unfold step_overtime
  exact dget_condSet_ne _ _ _ (Ne.symm h)

theorem dget_step_overtime_self (text : String) (row : Row) :
    dget (step_overtime text row) "أجر الساعة الإضافية"
      = optStr (pySearch patOvertime text) (fun m => digits_only (if (grp m 1).data.length = 2 then normalize_reversed_short_number (grp m 1) else grp m 1)) (dget row "أجر الساعة الإضافية") := by
  unfold step_overtime
  exact dget_condSet_self _ _ _ _

theorem keys_step_salary {row : Row} (text : String) (h : row.map Prod.fst = HEADERS) :
    (step_salary text row).map Prod.fst = HEADERS := by
  unfold step_salary
  exact keysH_condSet (by decide) h

theorem dget_step_salary_ne (text : String) (row : Row) (k : String) (h : k ≠ "الراتب الأساسي") :
    dget (step_salary text row) k = dget row k := by
  unfold step_salary
  exact dget_condSet_ne _ _ _ (Ne.symm h)

theorem dget_step_salary_self (text : String) (row : Row) :
    dget (step_salary text row) "الراتب الأساسي"
      = optStr (pySearch patBaseSalary text) (fun m => normalize_amount_token (grp m 1)) (dget row "الراتب الأساسي") := by
  unfold step_salary
  exact dget_condSet_self _ _ _ _

theorem keys_step_housing {row : Row} (text : String) (h : row.map Prod.fst = HEADERS) :
    (step_housing text row).map Prod.fst = HEADERS := by
  unfold step_housing
  exact keysH_condSet (by decide) h

theorem dget_step_housing_ne (text : String) (row : Row) (k : String) (h : k ≠ "بدل السكن") :
    dget (step_housing text row) k = dget row k := by
  unfold step_housing
  exact dget_condSet_ne _ _ _ (Ne.symm h)

theorem dget_step_housing_self (text : String) (row : Row) :
    dget (step_housing text row) "بدل السكن"
      = optStr (pySearch patHousing text) (fun m => normalize_amount_token (grp m 1)) (dget row "بدل السكن") := by
  unfold step_housing
  exact dget_condSet_self _ _ _ _

theorem keys_step_leave {row : Row} (text : String) (h : row.map Prod.fst = HEADERS) :
    (step_leave text row).map Prod.fst = HEADERS := by
  unfold step_leave
  exact keysH_condSet (by decide) h

theorem dget_step_leave_ne (text : String) (row : Row) (k : String) (h : k ≠ "الإجازة السنوية") :
    dget (step_leave text row) k = dget row k := by
  unfold step_leave
  exact dget_condSet_ne _ _ _ (Ne.symm h)

theorem dget_step_leave_self (text : String) (row : Row) :
    dget (step_leave text row) "الإجازة السنوية"
      = optStr (pySearch patLeave text) (fun m => digits_only (if (grp m 1).data.length = 2 then normalize_reversed_short_number (grp m 1) else grp m 1)) (dget row "الإجازة السنوية") := by
  unfold step_leave
  exact dget_condSet_self _ _ _ _

theorem keys_step_compensation {row : Row} (text : String) (h : row.map Prod.fst = HEADERS) :
    (step_compensation text row).map Prod.fst = HEADERS := by
  unfold step_compensation
  exact keysH_condSet (by decide) h

theorem dget_step_compensation_ne (text : String) (row : Row) (k : String) (h : k ≠ "التعويض عند الفسخ بدون سبب") :
    dget (step_compensation text row) k = dget row k := by
  unfold step_compensation
  exact dget_condSet_ne _ _ _ (Ne.symm h)

theorem dget_step_compensation_self (text : String) (row : Row) :
    dget (step_compensation text row) "التعويض عند الفسخ بدون سبب"
      = optStr (pySearch patCompensation text) (fun m => normalize_amount_token (grp m 1)) (dget row "التعويض عند الفسخ بدون سبب") := by
  unfold step_compensation
  exact dget_condSet_self _ _ _ _

theorem keys_step_contract_date2 {row : Row} (text : String) (h : row.map Prod.fst = HEADERS) :
    (step_contract_date2 text row).map Prod.fst = HEADERS := by
  unfold step_contract_date2
  exact keysH_ite (keysH_condSet (by decide) h) h

theorem dget_step_contract_date2_ne (text : String) (row : Row) (k : String) (h : k ≠ "تاريخ العقد") :
    dget (step_contract_date2 text row) k = dget row k := by
  unfold step_contract_date2
  rw [dget_ite, dget_condSet_ne _ _ _ (Ne.symm h), ite_self]

theorem dget_step_contract_date2_self (text : String) (row : Row) :
    dget (step_contract_date2 text row) "تاريخ العقد"
      = (if dget row "تاريخ العقد" = "" then
          optStr (pySearch patContractDate2 text) (fun m => format_date_any (grp m 1)) (dget row "تاريخ العقد")
        else dget row "تاريخ العقد") := by
  unfold step_contract_date2
  rw [dget_ite, dget_condSet_self]

theorem keys_step_contract_date3 {row : Row} (text : String) (h : row.map Prod.fst = HEADERS) :
    (step_contract_date3 text row).map Prod.fst = HEADERS := by
  unfold step_contract_date3
  exact keysH_ite (keysH_condSet (by decide) h) h

theorem dget_step_contract_date3_ne (text : String) (row : Row) (k : String) (h : k ≠ "تاريخ العقد") :
    dget (step_contract_date3 text row) k = dget row k := by
  unfold step_contract_date3
  rw [dget_ite, dget_condSet_ne _ _ _ (Ne.symm h), ite_self]

theorem dget_step_contract_date3_self (text : String) (row : Row) :
    dget (step_contract_date3 text row) "تاريخ العقد"
      = (if dget row "تاريخ العقد" = "" then
          optStr (pySearch patContractDate3 text) (fun m => format_date_any (grp m 1)) (dget row "تاريخ العقد")
        else dget row "تاريخ العقد") := by
  unfold step_contract_date3
  rw [dget_ite, dget_condSet_self]

theorem keys_step_company {row : Row} (text : String) (h : row.map Prod.fst = HEADERS) :
    (step_company text row).map Prod.fst = HEADERS := by
  unfold step_company
  exact keysH_dset _ (by decide) h

theorem dget_step_company_ne (text : String) (row : Row) (k : String) (h : k ≠ "شركة/مؤسسة") :
    dget (step_company text row) k = dget row k := by
  unfold step_company
  exact dget_dset_ne _ _ (Ne.symm h)

theorem dget_step_company_self (text : String) (row : Row) :
    dget (step_company text row) "شركة/مؤسسة" = fix_rtl_value (get_bi text ["شركة/مؤسسة", "Corporation/Company"]) := by
  unfold step_company
  exact dget_dset_self _ _ _

theorem keys_step_unified_no {row : Row} (text : String) (h : row.map Prod.fst = HEADERS) :
    (step_unified_no text row).map Prod.fst = HEADERS := by
  unfold step_unified_no
  exact keysH_dset _ (by decide) h

theorem dget_step_unified_no_ne (text : String) (row : Row) (k : String) (h : k ≠ "الرقم الوطني الموحد") :
    dget (step_unified_no text row) k = dget row k := by
  unfold step_unified_no
  exact dget_dset_ne _ _ (Ne.symm h)

theorem dget_step_unified_no_self (text : String) (row : Row) :
    dget (step_unified_no text row) "الرقم الوطني الموحد" = digits_only (get_bi text ["الرقم الوطني الموحد", "National Unified Number"]) := by
  unfold step_unified_no
  exact dget_dset_self _ _ _

theorem keys_step_estab_no {row : Row} (text : String) (h : row.map Prod.fst = HEADERS) :
    (step_estab_no text row).map Prod.fst = HEADERS := by
  unfold step_estab_no
  exact keysH_dset _ (by decide) h

theorem dget_step_estab_no_ne (text : String) (row : Row) (k : String) (h : k ≠ "رقم المنشأة") :
    dget (step_estab_no text row) k = dget row k := by
  unfold step_estab_no
  exact dget_dset_ne _ _ (Ne.symm h)

theorem dget_step_estab_no_self (text : String) (row : Row) :
    dget (step_estab_no text row) "رقم المنشأة" = pyStrip (get_bi text ["رقم المنشأة", "Establishment Number"]) := by
  unfold step_estab_no
  exact dget_dset_self _ _ _

theorem keys_step_comm_reg {row : Row} (text : String) (h : row.map Prod.fst = HEADERS) :
    (step_comm_reg text row).map Prod.fst = HEADERS := by
  unfold step_comm_reg
  exact keysH_dset _ (by decide) h

theorem dget_step_comm_reg_ne (text : String) (row : Row) (k : String) (h : k ≠ "السجل التجاري") :
    dget (step_comm_reg text row) k = dget row k := by
  unfold step_comm_reg
  exact dget_dset_ne _ _ (Ne.symm h)

theorem dget_step_comm_reg_self (text : String) (row : Row) :
    dget (step_comm_reg text row) "السجل التجاري" = digits_only (get_bi text ["السجل التجاري", "Commercial Registration"]) := by
  unfold step_comm_reg
  exact dget_dset_self _ _ _

theorem keys_step_address {row : Row} (text : String) (h : row.map Prod.fst = HEADERS) :
    (step_address text row).map Prod.fst = HEADERS := by
  unfold step_address
  exact keysH_dset _ (by decide) h

theorem dget_step_address_ne (text : String) (row : Row) (k : String) (h : k ≠ "عنوان الشركة") :
    dget (step_address text row) k = dget row k := by
  unfold step_address
  exact dget_dset_ne _ _ (Ne.symm h)

theorem dget_step_address_self (text : String) (row : Row) :
    dget (step_address text row) "عنوان الشركة" = fix_rtl_value (get_bi text ["العنوان", "Address"]) := by
  unfold step_address
  exact dget_dset_self _ _ _

theorem keys_step_work_loc {row : Row} (text : String) (h : row.map Prod.fst = HEADERS) :
    (step_work_loc text row).map Prod.fst = HEADERS := by
  unfold step_work_loc
  exact keysH_dset _ (by decide) h

theorem dget_step_work_loc_ne (text : String) (row : Row) (k : String) (h : k ≠ "مكان العمل") :
    dget (step_work_loc text row) k = dget row k := by
  unfold step_work_loc
  exact dget_dset_ne _ _ (Ne.symm h)

theorem dget_step_work_loc_self (text : String) (row : Row) :
    dget (step_work_loc text row) "مكان العمل" = fix_rtl_value (get_bi text ["مكان العمل", "Work Location"]) := by
  unfold step_work_loc
  exact dget_dset_self _ _ _

theorem keys_step_emp_name {row : Row} (text : String) (h : row.map Prod.fst = HEADERS) :
    (step_emp_name text row).map Prod.fst = HEADERS := by
  unfold step_emp_name
  exact keysH_dset _ (by decide) h

theorem dget_step_emp_name_ne (text : String) (row : Row) (k : String) (h : k ≠ "اسم الموظف") :
    dget (step_emp_name text row) k = dget row k := by
  unfold step_emp_name
  exact dget_dset_ne _ _ (Ne.symm h)

theorem dget_step_emp_name_self (text : String) (row : Row) :
    dget (step_emp_name text row) "اسم الموظف" = fix_rtl_value (pyStrip (get_bi text ["االسم", "الاسم", "Name"])) := by
  unfold step_emp_name
  exact dget_dset_self _ _ _

theorem keys_step_profession {row : Row} (text : String) (h : row.map Prod.fst = HEADERS) :
    (step_profession text row).map Prod.fst = HEADERS := by
  unfold step_profession
  exact keysH_dset _ (by decide) h

theorem dget_step_profession_ne (text : String) (row : Row) (k : String) (h : k ≠ "المهنة") :
    dget (step_profession text row) k = dget row k := by
  unfold step_profession
  exact dget_dset_ne _ _ (Ne.symm h)

theorem dget_step_profession_self (text : String) (row : Row) :
    dget (step_profession text row) "المهنة" = fix_rtl_value (get_bi text ["المهنة", "Profession"]) := by
  unfold step_profession
  exact dget_dset_self _ _ _

theorem keys_step_emp_no {row : Row} (text : String) (h : row.map Prod.fst = HEADERS) :
    (step_emp_no text row).map Prod.fst = HEADERS := by
  unfold step_emp_no
  exact keysH_dset _ (by decide) h

theorem dget_step_emp_no_ne (text : String) (row : Row) (k : String) (h : k ≠ "الرقم الوظيفي") :
    dget (step_emp_no text row) k = dget row k := by
  unfold step_emp_no
  exact dget_dset_ne _ _ (Ne.symm h)

theorem dget_step_emp_no_self (text : String) (row : Row) :
    dget (step_emp_no text row) "الرقم الوظيفي" = digits_only (get_bi text ["الرقم الوظيفي", "Employee Number"]) := by
  unfold step_emp_no
  exact dget_dset_self _ _ _

theorem keys_step_nationality {row : Row} (text : String) (h : row.map Prod.fst = HEADERS) :
    (step_nationality text row).map Prod.fst = HEADERS := by
  unfold step_nationality
  exact keysH_dset _ (by decide) h

theorem dget_step_nationality_ne (text : String) (row : Row) (k : String) (h : k ≠ "الجنسية") :
    dget (step_nationality text row) k = dget row k := by
  unfold step_nationality
  exact dget_dset_ne _ _ (Ne.symm h)

theorem dget_step_nationality_self (text : String) (row : Row) :
    dget (step_nationality text row) "الجنسية" = fix_rtl_value (get_bi text ["الجنسية", "Nationality"]) := by
  unfold step_nationality
  exact dget_dset_self _ _ _

theorem keys_step_birth {row : Row} (text : String) (h : row.map Prod.fst = HEADERS) :
    (step_birth text row).map Prod.fst = HEADERS := by
  unfold step_birth
  exact keysH_dset _ (by decide) h

theorem dget_step_birth_ne (text : String) (row : Row) (k : String) (h : k ≠ "تاريخ الميلاد") :
    dget (step_birth text row) k = dget row k := by
  unfold step_birth
  exact dget_dset_ne _ _ (Ne.symm h)

theorem dget_step_birth_self (text : String) (row : Row) :
    dget (step_birth text row) "تاريخ الميلاد" = format_date_any (get_bi text ["تاريخ الميالد", "Date of Birth"]) := by
  unfold step_birth
  exact dget_dset_self _ _ _

theorem keys_step_id_no {row : Row} (text : String) (h : row.map Prod.fst = HEADERS) :
    (step_id_no text row).map Prod.fst = HEADERS := by
  unfold step_id_no
  exact keysH_dset _ (by decide) h

theorem dget_step_id_no_ne (text : String) (row : Row) (k : String) (h : k ≠ "رقم الهوية") :
    dget (step_id_no text row) k = dget row k := by
  unfold step_id_no
  exact dget_dset_ne _ _ (Ne.symm h)

theorem dget_step_id_no_self (text : String) (row : Row) :
    dget (step_id_no text row) "رقم الهوية" = digits_only (get_bi text ["رقم الهوية", "Identity Number"]) := by
  unfold step_id_no
  exact dget_dset_self _ _ _

theorem keys_step_id_type {row : Row} (text : String) (h : row.map Prod.fst = HEADERS) :
    (step_id_type text row).map Prod.fst = HEADERS := by
  unfold step_id_type
  exact keysH_dset _ (by decide) h

theorem dget_step_id_type_ne (text : String) (row : Row) (k : String) (h : k ≠ "نوع الهوية") :
    dget (step_id_type text row) k = dget row k := by
  unfold step_id_type
  exact dget_dset_ne _ _ (Ne.symm h)

theorem dget_step_id_type_self (text : String) (row : Row) :
    dget (step_id_type text row) "نوع الهوية" = fix_rtl_value (get_bi text ["نوع الهوية", "ID Type"]) := by
  unfold step_id_type
  exact dget_dset_self _ _ _

theorem keys_step_id_expiry {row : Row} (text : String) (h : row.map Prod.fst = HEADERS) :
    (step_id_expiry text row).map Prod.fst = HEADERS := by
  unfold step_id_expiry
  exact keysH_dset _ (by decide) h

theorem dget_step_id_expiry_ne (text : String) (row : Row) (k : String) (h : k ≠ "تاريخ انتهاء الهوية") :
    dget (step_id_expiry text row) k = dget row k := by
  unfold step_id_expiry
  exact dget_dset_ne _ _ (Ne.symm h)

theorem dget_step_id_expiry_self (text : String) (row : Row) :
    dget (step_id_expiry text row) "تاريخ انتهاء الهوية" = format_date_any (get_bi text ["تاريخ اإلنتهاء", "تاريخ الانتهاء", "ID Expiry Date"]) := by
  unfold step_id_expiry
  exact dget_dset_self _ _ _

theorem keys_step_gender {row : Row} (text : String) (h : row.map Prod.fst = HEADERS) :
    (step_gender text row).map Prod.fst = HEADERS := by
  unfold step_gender
  exact keysH_dset _ (by decide) h

theorem dget_step_gender_ne (text : String) (row : Row) (k : String) (h : k ≠ "الجنس") :
    dget (step_gender text row) k = dget row k := by
  unfold step_gender
  exact dget_dset_ne _ _ (Ne.symm h)

theorem dget_step_gender_self (text : String) (row : Row) :
    dget (step_gender text row) "الجنس" = fix_rtl_value (get_bi text ["الجنس", "Gender"]) := by
  unfold step_gender
  exact dget_dset_self _ _ _

theorem keys_step_religion {row : Row} (text : String) (h : row.map Prod.fst = HEADERS) :
    (step_religion text row).map Prod.fst = HEADERS := by
  unfold step_religion
  exact keysH_dset _ (by decide) h

theorem dget_step_religion_ne (text : String) (row : Row) (k : String) (h : k ≠ "الديانة") :
    dget (step_religion text row) k = dget row k := by
  unfold step_religion
  exact dget_dset_ne _ _ (Ne.symm h)

theorem dget_step_religion_self (text : String) (row : Row) :
    dget (step_religion text row) "الديانة" = fix_rtl_value (get_bi text ["الديانة", "Religion"]) := by
  unfold step_religion
  exact dget_dset_self _ _ _

theorem keys_step_marital {row : Row} (text : String) (h : row.map Prod.fst = HEADERS) :
    (step_marital text row).map Prod.fst = HEADERS := by
  unfold step_marital
  exact keysH_dset _ (by decide) h

theorem dget_step_marital_ne (text : String) (row : Row) (k : String) (h : k ≠ "الحالة الاجتماعية") :
    dget (step_marital text row) k = dget row k := by
  unfold step_marital
  exact dget_dset_ne _ _ (Ne.symm h)

theorem dget_step_marital_self (text : String) (row : Row) :
    dget (step_marital text row) "الحالة الاجتماعية" = fix_rtl_value (get_bi text ["الحالة االجتماعية", "الحالة الاجتماعية", "Marital Status"]) := by
  unfold step_marital
  exact dget_dset_self _ _ _

theorem keys_step_education {row : Row} (text : String) (h : row.map Prod.fst = HEADERS) :
    (step_education text row).map Prod.fst = HEADERS := by
  unfold step_education
  exact keysH_dset _ (by decide) h

theorem dget_step_education_ne (text : String) (row : Row) (k : String) (h : k ≠ "المؤهل العلمي") :
    dget (step_education text row) k = dget row k := by
  unfold step_education
  exact dget_dset_ne _ _ (Ne.symm h)

theorem dget_step_education_self (text : String) (row : Row) :
    dget (step_education text row) "المؤهل العلمي" = fix_rtl_value (get_bi text ["المؤهل العلمي", "Education"]) := by
  unfold step_education
  exact dget_dset_self _ _ _

theorem keys_step_specialty {row : Row} (text : String) (h : row.map Prod.fst = HEADERS) :
    (step_specialty text row).map Prod.fst = HEADERS := by
  unfold step_specialty
  exact keysH_dset _ (by decide) h

theorem dget_step_specialty_ne (text : String) (row : Row) (k : String) (h : k ≠ "التخصص") :
    dget (step_specialty text row) k = dget row k := by
  unfold step_specialty
  exact dget_dset_ne _ _ (Ne.symm h)

theorem dget_step_specialty_self (text : String) (row : Row) :
    dget (step_specialty text row) "التخصص" = fix_rtl_value (get_bi text ["التخصص", "Speciality"]) := by
  unfold step_specialty
  exact dget_dset_self _ _ _

theorem keys_step_iban {row : Row} (text : String) (h : row.map Prod.fst = HEADERS) :
    (step_iban text row).map Prod.fst = HEADERS := by
  unfold step_iban
  exact keysH_dset _ (by decide) h

theorem dget_step_iban_ne (text : String) (row : Row) (k : String) (h : k ≠ "رقم الآيبان") :
    dget (step_iban text row) k = dget row k := by
  unfold step_iban
  exact dget_dset_ne _ _ (Ne.symm h)

theorem dget_step_iban_self (text : String) (row : Row) :
    dget (step_iban text row) "رقم الآيبان" = pyStrip (removeWs (get_bi text ["رقم اآليبان", "رقم الآيبان", "Iban"])) := by
  unfold step_iban
  exact dget_dset_self _ _ _

theorem keys_step_bank {row : Row} (text : String) (h : row.map Prod.fst = HEADERS) :
    (step_bank text row).map Prod.fst = HEADERS := by
  unfold step_bank
  exact keysH_dset _ (by decide) h

theorem dget_step_bank_ne (text : String) (row : Row) (k : String) (h : k ≠ "اسم البنك") :
    dget (step_bank text row) k = dget row k := by
  unfold step_bank
  exact dget_dset_ne _ _ (Ne.symm h)

theorem dget_step_bank_self (text : String) (row : Row) :
    dget (step_bank text row) "اسم البنك" = fix_rtl_value (get_bi text ["اسم البنك", "Bank Name"]) := by
  unfold step_bank
  exact dget_dset_self _ _ _

theorem keys_step_emails {row : Row} (text : String) (h : row.map Prod.fst = HEADERS) :
    (step_emails text row).map Prod.fst = HEADERS := by
  unfold step_emails
  rcases pyFindall emailRE text with _ | ⟨e1, _ | ⟨e2, rest⟩⟩
  · exact h
  · exact keysH_dset _ (by decide) h
  · exact keysH_dset _ (by decide) (keysH_dset _ (by decide) h)

theorem dget_step_emails_ne (text : String) (row : Row) (k : String)
    (h1 : k ≠ "بريد الشركة") (h2 : k ≠ "بريد الموظف") :
    dget (step_emails text row) k = dget row k := by
  unfold step_emails
  rcases pyFindall emailRE text with _ | ⟨e1, _ | ⟨e2, rest⟩⟩
  · rfl
  · exact dget_dset_ne _ _ (Ne.symm h1)
  · rw [dget_dset_ne _ _ (Ne.symm h2), dget_dset_ne _ _ (Ne.symm h1)]

theorem dget_step_emails_company (text : String) (row : Row) :
    dget (step_emails text row) "بريد الشركة"
      = firstEmailOr (pyFindall emailRE text) (dget row "بريد الشركة") := by
  unfold step_emails
  rcases pyFindall emailRE text with _ | ⟨e1, _ | ⟨e2, rest⟩⟩ <;>
    simp [firstEmailOr, dget_dset_self, dget_dset_ne]

theorem dget_step_emails_employee (text : String) (row : Row) :
    dget (step_emails text row) "بريد الموظف"
      = secondEmailOr (pyFindall emailRE text) (dget row "بريد الموظف") := by
  unfold step_emails
  rcases pyFindall emailRE text with _ | ⟨e1, _ | ⟨e2, rest⟩⟩ <;>
    simp [secondEmailOr, dget_dset_self, dget_dset_ne]

theorem keys_step_sign {row : Row} (text : String) (h : row.map Prod.fst = HEADERS) :
    (step_sign text row).map Prod.fst = HEADERS := by
  unfold step_sign
  split_ifs with hs
  · rcases pySplitOnce patSifa (signRawOf text) with _ | ⟨a, _ | ⟨b, _ | ⟨c, r⟩⟩⟩
    · exact keysH_dset _ (by decide) h
    · exact keysH_dset _ (by decide) h
    · exact keysH_dset _ (by decide) (keysH_dset _ (by decide) h)
    · exact keysH_dset _ (by decide) h
  · exact h

theorem dget_step_sign_ne (text : String) (row : Row) (k : String)
    (h1 : k ≠ "المسؤول الموقع") (h2 : k ≠ "الصفة") :
    dget (step_sign text row) k = dget row k := by
  unfold step_sign
  split_ifs with hs
  · rcases pySplitOnce patSifa (signRawOf text) with _ | ⟨a, _ | ⟨b, _ | ⟨c, r⟩⟩⟩
    · exact dget_dset_ne _ _ (Ne.symm h1)
    · exact dget_dset_ne _ _ (Ne.symm h1)
    · rw [dget_dset_ne _ _ (Ne.symm h2), dget_dset_ne _ _ (Ne.symm h1)]
    · exact dget_dset_ne _ _ (Ne.symm h1)
  · rfl

theorem dget_step_sign_name (text : String) (row : Row) :
    dget (step_sign text row) "المسؤول الموقع"
      = (if signRawOf text ≠ "" then
          splitCase2 (pySplitOnce patSifa (signRawOf text)) (fun a _ => pyStrip a) (signRawOf text)
        else dget row "المسؤول الموقع") := by
  unfold step_sign
  split_ifs with hs
  · rcases pySplitOnce patSifa (signRawOf text) with _ | ⟨a, _ | ⟨b, _ | ⟨c, r⟩⟩⟩ <;>
      simp [splitCase2, dget_dset_self, dget_dset_ne]
  · rfl

theorem dget_step_sign_sifa (text : String) (row : Row) :
    dget (step_sign text row) "الصفة"
      = (if signRawOf text ≠ "" then
          splitCase2 (pySplitOnce patSifa (signRawOf text)) (fun _ b => pyStrip b) (dget row "الصفة")
        else dget row "الصفة") := by
  unfold step_sign
  split_ifs with hs
  · rcases pySplitOnce patSifa (signRawOf text) with _ | ⟨a, _ | ⟨b, _ | ⟨c, r⟩⟩⟩ <;>
      simp [splitCase2, dget_dset_self, dget_dset_ne]
  · rfl

theorem keys_step_mobile {row : Row} (text : String) (h : row.map Prod.fst = HEADERS) :
    (step_mobile text row).map Prod.fst = HEADERS := by
  unfold step_mobile
  split_ifs
  · exact keysH_dset _ (by decide) h
  · exact h

theorem dget_step_mobile_ne (text : String) (row : Row) (k : String) (h : k ≠ "رقم الجوال") :
    dget (step_mobile text row) k = dget row k := by
  unfold step_mobile
  split_ifs
  · exact dget_dset_ne _ _ (Ne.symm h)
  · rfl

theorem dget_step_mobile_self (text : String) (row : Row) :
    dget (step_mobile text row) "رقم الجوال"
      = (if find_line_containing text "رقم الجوال" ≠ "" then
          normalize_mobile_from_line (find_line_containing text "رقم الجوال")
        else dget row "رقم الجوال") := by
  unfold step_mobile
  split_ifs
  · exact dget_dset_self _ _ _
  · rfl

theorem keys_step_start_end {row : Row} (text : String) (h : row.map Prod.fst = HEADERS) :
    (step_start_end text row).map Prod.fst = HEADERS := by
  unfold step_start_end
  rcases pySearch patStartEnd text with _ | m
  · exact keysH_condSet (by decide) (keysH_condSet (by decide) h)
  · exact keysH_dset _ (by decide) (keysH_dset _ (by decide) h)

theorem dget_step_start_end_ne (text : String) (row : Row) (k : String)
    (h1 : k ≠ "بدء العقد") (h2 : k ≠ "انتهاء العقد") :
    dget (step_start_end text row) k = dget row k := by
  unfold step_start_end
  rcases pySearch patStartEnd text with _ | m
  · rw [dget_condSet_ne _ _ _ (Ne.symm h2), dget_condSet_ne _ _ _ (Ne.symm h1)]
  · rw [dget_dset_ne _ _ (Ne.symm h2), dget_dset_ne _ _ (Ne.symm h1)]

theorem dget_step_start_end_start (text : String) (row : Row) :
    dget (step_start_end text row) "بدء العقد"
      = optStr (pySearch patStartEnd text) (fun m => format_date_any (grp m 1))
          (optStr (pySearch patStart text) (fun m => format_date_any (grp m 1))
            (dget row "بدء العقد")) := by
  unfold step_start_end
  rcases pySearch patStartEnd text with _ | m <;>
    simp [optStr, dget_dset_self, dget_dset_ne, dget_condSet_self, dget_condSet_ne]

theorem dget_step_start_end_endd (text : String) (row : Row) :
    dget (step_start_end text row) "انتهاء العقد"
      = optStr (pySearch patStartEnd text) (fun m => format_date_any (grp m 2))
          (optStr (pySearch patEnd text) (fun m => format_date_any (grp m 1))
            (dget row "انتهاء العقد")) := by
  unfold step_start_end
  rcases pySearch patStartEnd text with _ | m <;>
    simp [optStr, dget_dset_self, dget_dset_ne, dget_condSet_self, dget_condSet_ne]

/-- The key set of the parsed record: always exactly the schema. -/
theorem parse_contract_keys (t : String) : (parse_contract t).map Prod.fst = HEADERS := by
  unfold parse_contract
  by_cases ht : t = ""
  · simp only [if_pos ht]
    exact keys_init
  · simp only [if_neg ht]
    exact keys_cleanup_inv (keys_step_compensation t (keys_step_leave t (keys_step_housing t (keys_step_salary t (keys_step_overtime t (keys_step_workhours t (keys_step_workdays t (keys_step_trial t (keys_step_joining t (keys_step_start_end t (keys_step_duration t (keys_step_mobile t (keys_step_bank t (keys_step_iban t (keys_step_specialty t (keys_step_education t (keys_step_marital t (keys_step_religion t (keys_step_gender t (keys_step_id_expiry t (keys_step_id_type t (keys_step_id_no t (keys_step_birth t (keys_step_nationality t (keys_step_emp_no t (keys_step_profession t (keys_step_emp_name t (keys_step_sign t (keys_step_emails t (keys_step_work_loc t (keys_step_address t (keys_step_comm_reg t (keys_step_estab_no t (keys_step_unified_no t (keys_step_company t (keys_step_contract_date3 t (keys_step_contract_date2 t (keys_step_contract_date1 t (keys_step_contract_no t keys_init)))))))))))))))))))))))))))))))))))))))

/-! ### Per-field specifications and value theorems -/

def spec_contract_no (t : String) : String :=
  if t = "" then "" else pyStrip (optStr (pySearch patContractNo t) (fun m => grp m 1) "")

theorem field_contract_no (t : String) : dget (parse_contract t) "رقم العقد" = spec_contract_no t := by
  unfold parse_contract spec_contract_no
  by_cases ht : t = ""
  · simp only [if_pos ht, dget_map_empty]
  · simp only [if_neg ht]
    rw [dget_cleanup_mem _ _ (by decide),
      dget_step_compensation_ne t _ _ (by decide),
      dget_step_leave_ne t _ _ (by decide),
      dget_step_housing_ne t _ _ (by decide),
      dget_step_salary_ne t _ _ (by decide),
      dget_step_overtime_ne t _ _ (by decide),
      dget_step_workhours_ne t _ _ (by decide),
      dget_step_workdays_ne t _ _ (by decide),
      dget_step_trial_ne t _ _ (by decide),
      dget_step_joining_ne t _ _ (by decide),
      dget_step_start_end_ne t _ _ (by decide) (by decide),
      dget_step_duration_ne t _ _ (by decide),
      dget_step_mobile_ne t _ _ (by decide),
      dget_step_bank_ne t _ _ (by decide),
      dget_step_iban_ne t _ _ (by decide),
      dget_step_specialty_ne t _ _ (by decide),
      dget_step_education_ne t _ _ (by decide),
      dget_step_marital_ne t _ _ (by decide),
      dget_step_religion_ne t _ _ (by decide),
      dget_step_gender_ne t _ _ (by decide),
      dget_step_id_expiry_ne t _ _ (by decide),
      dget_step_id_type_ne t _ _ (by decide),
      dget_step_id_no_ne t _ _ (by decide),
      dget_step_birth_ne t _ _ (by decide),
      dget_step_nationality_ne t _ _ (by decide),
      dget_step_emp_no_ne t _ _ (by decide),
      dget_step_profession_ne t _ _ (by decide),
      dget_step_emp_name_ne t _ _ (by decide),
      dget_step_sign_ne t _ _ (by decide) (by decide),
      dget_step_emails_ne t _ _ (by decide) (by decide),
      dget_step_work_loc_ne t _ _ (by decide),
      dget_step_address_ne t _ _ (by decide),
      dget_step_comm_reg_ne t _ _ (by decide),
      dget_step_estab_no_ne t _ _ (by decide),
      dget_step_unified_no_ne t _ _ (by decide),
      dget_step_company_ne t _ _ (by decide),
      dget_step_contract_date3_ne t _ _ (by decide),
      dget_step_contract_date2_ne t _ _ (by decide),
      dget_step_contract_date1_ne t _ _ (by decide),
      dget_step_contract_no_self,
      dget_map_empty]

def spec_contract_date (t : String) : String :=
  if t = "" then ""
  else pyStrip (
    let v1 := optStr (pySearch patContractDate1 t) (fun m => format_date_any (grp m 1)) ""
    let v2 := if v1 = "" then optStr (pySearch patContractDate2 t) (fun m => format_date_any (grp m 1)) v1 else v1
    if v2 = "" then optStr (pySearch patContractDate3 t) (fun m => format_date_any (grp m 1)) v2 else v2)

theorem field_contract_date (t : String) : dget (parse_contract t) "تاريخ العقد" = spec_contract_date t := by
  unfold parse_contract spec_contract_date
  by_cases ht : t = ""
  · simp only [if_pos ht, dget_map_empty]
  · simp only [if_neg ht]
    rw [dget_cleanup_mem _ _ (by decide),
      dget_step_compensation_ne t _ _ (by decide),
      dget_step_leave_ne t _ _ (by decide),
      dget_step_housing_ne t _ _ (by decide),
      dget_step_salary_ne t _ _ (by decide),
      dget_step_overtime_ne t _ _ (by decide),
      dget_step_workhours_ne t _ _ (by decide),
      dget_step_workdays_ne t _ _ (by decide),
      dget_step_trial_ne t _ _ (by decide),
      dget_step_joining_ne t _ _ (by decide),
      dget_step_start_end_ne t _ _ (by decide) (by decide),
      dget_step_duration_ne t _ _ (by decide),
      dget_step_mobile_ne t _ _ (by decide),
      dget_step_bank_ne t _ _ (by decide),
      dget_step_iban_ne t _ _ (by decide),
      dget_step_specialty_ne t _ _ (by decide),
      dget_step_education_ne t _ _ (by decide),
      dget_step_marital_ne t _ _ (by decide),
      dget_step_religion_ne t _ _ (by decide),
      dget_step_gender_ne t _ _ (by decide),
      dget_step_id_expiry_ne t _ _ (by decide),
      dget_step_id_type_ne t _ _ (by decide),
      dget_step_id_no_ne t _ _ (by decide),
      dget_step_birth_ne t _ _ (by decide),
      dget_step_nationality_ne t _ _ (by decide),
      dget_step_emp_no_ne t _ _ (by decide),
      dget_step_profession_ne t _ _ (by decide),
      dget_step_emp_name_ne t _ _ (by decide),
      dget_step_sign_ne t _ _ (by decide) (by decide),
      dget_step_emails_ne t _ _ (by decide) (by decide),
      dget_step_work_loc_ne t _ _ (by decide),
      dget_step_address_ne t _ _ (by decide),
      dget_step_comm_reg_ne t _ _ (by decide),
      dget_step_estab_no_ne t _ _ (by decide),
      dget_step_unified_no_ne t _ _ (by decide),
      dget_step_company_ne t _ _ (by decide),
      dget_step_contract_date3_self,
      dget_step_contract_date2_self,
      dget_step_contract_date1_self,
      dget_step_contract_no_ne t _ _ (by decide),
      dget_map_empty]

def spec_company (t : String) : String :=
  if t = "" then "" else pyStrip (fix_rtl_value (get_bi t ["شركة/مؤسسة", "Corporation/Company"]))

theorem field_company (t : String) : dget (parse_contract t) "شركة/مؤسسة" = spec_company t := by
  unfold parse_contract spec_company
  by_cases ht : t = ""
  · simp only [if_pos ht, dget_map_empty]
  · simp only [if_neg ht]
    rw [dget_cleanup_mem _ _ (by decide),
      dget_step_compensation_ne t _ _ (by decide),
      dget_step_leave_ne t _ _ (by decide),
      dget_step_housing_ne t _ _ (by decide),
      dget_step_salary_ne t _ _ (by decide),
      dget_step_overtime_ne t _ _ (by decide),
      dget_step_workhours_ne t _ _ (by decide),
      dget_step_workdays_ne t _ _ (by decide),
      dget_step_trial_ne t _ _ (by decide),
      dget_step_joining_ne t _ _ (by decide),
      dget_step_start_end_ne t _ _ (by decide) (by decide),
      dget_step_duration_ne t _ _ (by decide),
      dget_step_mobile_ne t _ _ (by decide),
      dget_step_bank_ne t _ _ (by decide),
      dget_step_iban_ne t _ _ (by decide),
      dget_step_specialty_ne t _ _ (by decide),
      dget_step_education_ne t _ _ (by decide),
      dget_step_marital_ne t _ _ (by decide),
      dget_step_religion_ne t _ _ (by decide),
      dget_step_gender_ne t _ _ (by decide),
      dget_step_id_expiry_ne t _ _ (by decide),
      dget_step_id_type_ne t _ _ (by decide),
      dget_step_id_no_ne t _ _ (by decide),
      dget_step_birth_ne t _ _ (by decide),
      dget_step_nationality_ne t _ _ (by decide),
      dget_step_emp_no_ne t _ _ (by decide),
      dget_step_profession_ne t _ _ (by decide),
      dget_step_emp_name_ne t _ _ (by decide),
      dget_step_sign_ne t _ _ (by decide) (by decide),
      dget_step_emails_ne t _ _ (by decide) (by decide),
      dget_step_work_loc_ne t _ _ (by decide),
      dget_step_address_ne t _ _ (by decide),
      dget_step_comm_reg_ne t _ _ (by decide),
      dget_step_estab_no_ne t _ _ (by decide),
      dget_step_unified_no_ne t _ _ (by decide),
      dget_step_company_self]

def spec_unified_no (t : String) : String :=
  if t = "" then "" else pyStrip (digits_only (get_bi t ["الرقم الوطني الموحد", "National Unified Number"]))

theorem field_unified_no (t : String) : dget (parse_contract t) "الرقم الوطني الموحد" = spec_unified_no t := by
  unfold parse_contract spec_unified_no
  by_cases ht : t = ""
  · simp only [if_pos ht, dget_map_empty]
  · simp only [if_neg ht]
    rw [dget_cleanup_mem _ _ (by decide),
      dget_step_compensation_ne t _ _ (by decide),
      dget_step_leave_ne t _ _ (by decide),
      dget_step_housing_ne t _ _ (by decide),
      dget_step_salary_ne t _ _ (by decide),
      dget_step_overtime_ne t _ _ (by decide),
      dget_step_workhours_ne t _ _ (by decide),
      dget_step_workdays_ne t _ _ (by decide),
      dget_step_trial_ne t _ _ (by decide),
      dget_step_joining_ne t _ _ (by decide),
      dget_step_start_end_ne t _ _ (by decide) (by decide),
      dget_step_duration_ne t _ _ (by decide),
      dget_step_mobile_ne t _ _ (by decide),
      dget_step_bank_ne t _ _ (by decide),
      dget_step_iban_ne t _ _ (by decide),
      dget_step_specialty_ne t _ _ (by decide),
      dget_step_education_ne t _ _ (by decide),
      dget_step_marital_ne t _ _ (by decide),
      dget_step_religion_ne t _ _ (by decide),
      dget_step_gender_ne t _ _ (by decide),
      dget_step_id_expiry_ne t _ _ (by decide),
      dget_step_id_type_ne t _ _ (by decide),
      dget_step_id_no_ne t _ _ (by decide),
      dget_step_birth_ne t _ _ (by decide),
      dget_step_nationality_ne t _ _ (by decide),
      dget_step_emp_no_ne t _ _ (by decide),
      dget_step_profession_ne t _ _ (by decide),
      dget_step_emp_name_ne t _ _ (by decide),
      dget_step_sign_ne t _ _ (by decide) (by decide),
      dget_step_emails_ne t _ _ (by decide) (by decide),
      dget_step_work_loc_ne t _ _ (by decide),
      dget_step_address_ne t _ _ (by decide),
      dget_step_comm_reg_ne t _ _ (by decide),
      dget_step_estab_no_ne t _ _ (by decide),
      dget_step_unified_no_self]

def spec_estab_no (t : String) : String :=
  if t = "" then "" else pyStrip (pyStrip (get_bi t ["رقم المنشأة", "Establishment Number"]))

theorem field_estab_no (t : String) : dget (parse_contract t) "رقم المنشأة" = spec_estab_no t := by
  unfold parse_contract spec_estab_no
  by_cases ht : t = ""
  · simp only [if_pos ht, dget_map_empty]
  · simp only [if_neg ht]
    rw [dget_cleanup_mem _ _ (by decide),
      dget_step_compensation_ne t _ _ (by decide),
      dget_step_leave_ne t _ _ (by decide),
      dget_step_housing_ne t _ _ (by decide),
      dget_step_salary_ne t _ _ (by decide),
      dget_step_overtime_ne t _ _ (by decide),
      dget_step_workhours_ne t _ _ (by decide),
      dget_step_workdays_ne t _ _ (by decide),
      dget_step_trial_ne t _ _ (by decide),
      dget_step_joining_ne t _ _ (by decide),
      dget_step_start_end_ne t _ _ (by decide) (by decide),
      dget_step_duration_ne t _ _ (by decide),
      dget_step_mobile_ne t _ _ (by decide),
      dget_step_bank_ne t _ _ (by decide),
      dget_step_iban_ne t _ _ (by decide),
      dget_step_specialty_ne t _ _ (by decide),
      dget_step_education_ne t _ _ (by decide),
      dget_step_marital_ne t _ _ (by decide),
      dget_step_religion_ne t _ _ (by decide),
      dget_step_gender_ne t _ _ (by decide),
      dget_step_id_expiry_ne t _ _ (by decide),
      dget_step_id_type_ne t _ _ (by decide),
      dget_step_id_no_ne t _ _ (by decide),
      dget_step_birth_ne t _ _ (by decide),
      dget_step_nationality_ne t _ _ (by decide),
      dget_step_emp_no_ne t _ _ (by decide),
      dget_step_profession_ne t _ _ (by decide),
      dget_step_emp_name_ne t _ _ (by decide),
      dget_step_sign_ne t _ _ (by decide) (by decide),
      dget_step_emails_ne t _ _ (by decide) (by decide),
      dget_step_work_loc_ne t _ _ (by decide),
      dget_step_address_ne t _ _ (by decide),
      dget_step_comm_reg_ne t _ _ (by decide),
      dget_step_estab_no_self]

def spec_comm_reg (t : String) : String :=
  if t = "" then "" else pyStrip (digits_only (get_bi t ["السجل التجاري", "Commercial Registration"]))

theorem field_comm_reg (t : String) : dget (parse_contract t) "السجل التجاري" = spec_comm_reg t := by
  unfold parse_contract spec_comm_reg
  by_cases ht : t = ""
  · simp only [if_pos ht, dget_map_empty]
  · simp only [if_neg ht]
    rw [dget_cleanup_mem _ _ (by decide),
      dget_step_compensation_ne t _ _ (by decide),
      dget_step_leave_ne t _ _ (by decide),
      dget_step_housing_ne t _ _ (by decide),
      dget_step_salary_ne t _ _ (by decide),
      dget_step_overtime_ne t _ _ (by decide),
      dget_step_workhours_ne t _ _ (by decide),
      dget_step_workdays_ne t _ _ (by decide),
      dget_step_trial_ne t _ _ (by decide),
      dget_step_joining_ne t _ _ (by decide),
      dget_step_start_end_ne t _ _ (by decide) (by decide),
      dget_step_duration_ne t _ _ (by decide),
      dget_step_mobile_ne t _ _ (by decide),
      dget_step_bank_ne t _ _ (by decide),
      dget_step_iban_ne t _ _ (by decide),
      dget_step_specialty_ne t _ _ (by decide),
      dget_step_education_ne t _ _ (by decide),
      dget_step_marital_ne t _ _ (by decide),
      dget_step_religion_ne t _ _ (by decide),
      dget_step_gender_ne t _ _ (by decide),
      dget_step_id_expiry_ne t _ _ (by decide),
      dget_step_id_type_ne t _ _ (by decide),
      dget_step_id_no_ne t _ _ (by decide),
      dget_step_birth_ne t _ _ (by decide),
      dget_step_nationality_ne t _ _ (by decide),
      dget_step_emp_no_ne t _ _ (by decide),
      dget_step_profession_ne t _ _ (by decide),
      dget_step_emp_name_ne t _ _ (by decide),
      dget_step_sign_ne t _ _ (by decide) (by decide),
      dget_step_emails_ne t _ _ (by decide) (by decide),
      dget_step_work_loc_ne t _ _ (by decide),
      dget_step_address_ne t _ _ (by decide),
      dget_step_comm_reg_self]

def spec_address (t : String) : String :=
  if t = "" then "" else pyStrip (fix_rtl_value (get_bi t ["العنوان", "Address"]))

theorem field_address (t : String) : dget (parse_contract t) "عنوان الشركة" = spec_address t := by
  unfold parse_contract spec_address
  by_cases ht : t = ""
  · simp only [if_pos ht, dget_map_empty]
  · simp only [if_neg ht]
    rw [dget_cleanup_mem _ _ (by decide),
      dget_step_compensation_ne t _ _ (by decide),
      dget_step_leave_ne t _ _ (by decide),
      dget_step_housing_ne t _ _ (by decide),
      dget_step_salary_ne t _ _ (by decide),
      dget_step_overtime_ne t _ _ (by decide),
      dget_step_workhours_ne t _ _ (by decide),
      dget_step_workdays_ne t _ _ (by decide),
      dget_step_trial_ne t _ _ (by decide),
      dget_step_joining_ne t _ _ (by decide),
      dget_step_start_end_ne t _ _ (by decide) (by decide),
      dget_step_duration_ne t _ _ (by decide),
      dget_step_mobile_ne t _ _ (by decide),
      dget_step_bank_ne t _ _ (by decide),
      dget_step_iban_ne t _ _ (by decide),
      dget_step_specialty_ne t _ _ (by decide),
      dget_step_education_ne t _ _ (by decide),
      dget_step_marital_ne t _ _ (by decide),
      dget_step_religion_ne t _ _ (by decide),
      dget_step_gender_ne t _ _ (by decide),
      dget_step_id_expiry_ne t _ _ (by decide),
      dget_step_id_type_ne t _ _ (by decide),
      dget_step_id_no_ne t _ _ (by decide),
      dget_step_birth_ne t _ _ (by decide),
      dget_step_nationality_ne t _ _ (by decide),
      dget_step_emp_no_ne t _ _ (by decide),
      dget_step_profession_ne t _ _ (by decide),
      dget_step_emp_name_ne t _ _ (by decide),
      dget_step_sign_ne t _ _ (by decide) (by decide),
      dget_step_emails_ne t _ _ (by decide) (by decide),
      dget_step_work_loc_ne t _ _ (by decide),
      dget_step_address_self]

def spec_work_loc (t : String) : String :=
  if t = "" then "" else pyStrip (fix_rtl_value (get_bi t ["مكان العمل", "Work Location"]))

theorem field_work_loc (t : String) : dget (parse_contract t) "مكان العمل" = spec_work_loc t := by
  unfold parse_contract spec_work_loc
  by_cases ht : t = ""
  · simp only [if_pos ht, dget_map_empty]
  · simp only [if_neg ht]
    rw [dget_cleanup_mem _ _ (by decide),
      dget_step_compensation_ne t _ _ (by decide),
      dget_step_leave_ne t _ _ (by decide),
      dget_step_housing_ne t _ _ (by decide),
      dget_step_salary_ne t _ _ (by decide),
      dget_step_overtime_ne t _ _ (by decide),
      dget_step_workhours_ne t _ _ (by decide),
      dget_step_workdays_ne t _ _ (by decide),
      dget_step_trial_ne t _ _ (by decide),
      dget_step_joining_ne t _ _ (by decide),
      dget_step_start_end_ne t _ _ (by decide) (by decide),
      dget_step_duration_ne t _ _ (by decide),
      dget_step_mobile_ne t _ _ (by decide),
      dget_step_bank_ne t _ _ (by decide),
      dget_step_iban_ne t _ _ (by decide),
      dget_step_specialty_ne t _ _ (by decide),
      dget_step_education_ne t _ _ (by decide),
      dget_step_marital_ne t _ _ (by decide),
      dget_step_religion_ne t _ _ (by decide),
      dget_step_gender_ne t _ _ (by decide),
      dget_step_id_expiry_ne t _ _ (by decide),
      dget_step_id_type_ne t _ _ (by decide),
      dget_step_id_no_ne t _ _ (by decide),
      dget_step_birth_ne t _ _ (by decide),
      dget_step_nationality_ne t _ _ (by decide),
      dget_step_emp_no_ne t _ _ (by decide),
      dget_step_profession_ne t _ _ (by decide),
      dget_step_emp_name_ne t _ _ (by decide),
      dget_step_sign_ne t _ _ (by decide) (by decide),
      dget_step_emails_ne t _ _ (by decide) (by decide),
      dget_step_work_loc_self]

def spec_company_email (t : String) : String :=
  if t = "" then "" else pyStrip (firstEmailOr (pyFindall emailRE t) "")

theorem field_company_email (t : String) : dget (parse_contract t) "بريد الشركة" = spec_company_email t := by
  unfold parse_contract spec_company_email
  by_cases ht : t = ""
  · simp only [if_pos ht, dget_map_empty]
  · simp only [if_neg ht]
    rw [dget_cleanup_mem _ _ (by decide),
      dget_step_compensation_ne t _ _ (by decide),
      dget_step_leave_ne t _ _ (by decide),
      dget_step_housing_ne t _ _ (by decide),
      dget_step_salary_ne t _ _ (by decide),
      dget_step_overtime_ne t _ _ (by decide),
      dget_step_workhours_ne t _ _ (by decide),
      dget_step_workdays_ne t _ _ (by decide),
      dget_step_trial_ne t _ _ (by decide),
      dget_step_joining_ne t _ _ (by decide),
      dget_step_start_end_ne t _ _ (by decide) (by decide),
      dget_step_duration_ne t _ _ (by decide),
      dget_step_mobile_ne t _ _ (by decide),
      dget_step_bank_ne t _ _ (by decide),
      dget_step_iban_ne t _ _ (by decide),
      dget_step_specialty_ne t _ _ (by decide),
      dget_step_education_ne t _ _ (by decide),
      dget_step_marital_ne t _ _ (by decide),
      dget_step_religion_ne t _ _ (by decide),
      dget_step_gender_ne t _ _ (by decide),
      dget_step_id_expiry_ne t _ _ (by decide),
      dget_step_id_type_ne t _ _ (by decide),
      dget_step_id_no_ne t _ _ (by decide),
      dget_step_birth_ne t _ _ (by decide),
      dget_step_nationality_ne t _ _ (by decide),
      dget_step_emp_no_ne t _ _ (by decide),
      dget_step_profession_ne t _ _ (by decide),
      dget_step_emp_name_ne t _ _ (by decide),
      dget_step_sign_ne t _ _ (by decide) (by decide),
      dget_step_emails_company,
      dget_step_work_loc_ne t _ _ (by decide),
      dget_step_address_ne t _ _ (by decide),
      dget_step_comm_reg_ne t _ _ (by decide),
      dget_step_estab_no_ne t _ _ (by decide),
      dget_step_unified_no_ne t _ _ (by decide),
      dget_step_company_ne t _ _ (by decide),
      dget_step_contract_date3_ne t _ _ (by decide),
      dget_step_contract_date2_ne t _ _ (by decide),
      dget_step_contract_date1_ne t _ _ (by decide),
      dget_step_contract_no_ne t _ _ (by decide),
      dget_map_empty]

def spec_sign_name (t : String) : String :=
  if t = "" then "" else pyStrip (if signRawOf t ≠ "" then splitCase2 (pySplitOnce patSifa (signRawOf t)) (fun a _ => pyStrip a) (signRawOf t) else "")

theorem field_sign_name (t : String) : dget (parse_contract t) "المسؤول الموقع" = spec_sign_name t := by
  unfold parse_contract spec_sign_name
  by_cases ht : t = ""
  · simp only [if_pos ht, dget_map_empty]
  · simp only [if_neg ht]
    rw [dget_cleanup_mem _ _ (by decide),
      dget_step_compensation_ne t _ _ (by decide),
      dget_step_leave_ne t _ _ (by decide),
      dget_step_housing_ne t _ _ (by decide),
      dget_step_salary_ne t _ _ (by decide),
      dget_step_overtime_ne t _ _ (by decide),
      dget_step_workhours_ne t _ _ (by decide),
      dget_step_workdays_ne t _ _ (by decide),
      dget_step_trial_ne t _ _ (by decide),
      dget_step_joining_ne t _ _ (by decide),
      dget_step_start_end_ne t _ _ (by decide) (by decide),
      dget_step_duration_ne t _ _ (by decide),
      dget_step_mobile_ne t _ _ (by decide),
      dget_step_bank_ne t _ _ (by decide),
      dget_step_iban_ne t _ _ (by decide),
      dget_step_specialty_ne t _ _ (by decide),
      dget_step_education_ne t _ _ (by decide),
      dget_step_marital_ne t _ _ (by decide),
      dget_step_religion_ne t _ _ (by decide),
      dget_step_gender_ne t _ _ (by decide),
      dget_step_id_expiry_ne t _ _ (by decide),
      dget_step_id_type_ne t _ _ (by decide),
      dget_step_id_no_ne t _ _ (by decide),
      dget_step_birth_ne t _ _ (by decide),
      dget_step_nationality_ne t _ _ (by decide),
      dget_step_emp_no_ne t _ _ (by decide),
      dget_step_profession_ne t _ _ (by decide),
      dget_step_emp_name_ne t _ _ (by decide),
      dget_step_sign_name,
      dget_step_emails_ne t _ _ (by decide) (by decide),
      dget_step_work_loc_ne t _ _ (by decide),
      dget_step_address_ne t _ _ (by decide),
      dget_step_comm_reg_ne t _ _ (by decide),
      dget_step_estab_no_ne t _ _ (by decide),
      dget_step_unified_no_ne t _ _ (by decide),
      dget_step_company_ne t _ _ (by decide),
      dget_step_contract_date3_ne t _ _ (by decide),
      dget_step_contract_date2_ne t _ _ (by decide),
      dget_step_contract_date1_ne t _ _ (by decide),
      dget_step_contract_no_ne t _ _ (by decide),
      dget_map_empty]

def spec_sign_sifa (t : String) : String :=
  if t = "" then "" else pyStrip (if signRawOf t ≠ "" then splitCase2 (pySplitOnce patSifa (signRawOf t)) (fun _ b => pyStrip b) "" else "")

theorem field_sign_sifa (t : String) : dget (parse_contract t) "الصفة" = spec_sign_sifa t := by
  unfold parse_contract spec_sign_sifa
  by_cases ht : t = ""
  · simp only [if_pos ht, dget_map_empty]
  · simp only [if_neg ht]
    rw [dget_cleanup_mem _ _ (by decide),
      dget_step_compensation_ne t _ _ (by decide),
      dget_step_leave_ne t _ _ (by decide),
      dget_step_housing_ne t _ _ (by decide),
      dget_step_salary_ne t _ _ (by decide),
      dget_step_overtime_ne t _ _ (by decide),
      dget_step_workhours_ne t _ _ (by decide),
      dget_step_workdays_ne t _ _ (by decide),
      dget_step_trial_ne t _ _ (by decide),
      dget_step_joining_ne t _ _ (by decide),
      dget_step_start_end_ne t _ _ (by decide) (by decide),
      dget_step_duration_ne t _ _ (by decide),
      dget_step_mobile_ne t _ _ (by decide),
      dget_step_bank_ne t _ _ (by decide),
      dget_step_iban_ne t _ _ (by decide),
      dget_step_specialty_ne t _ _ (by decide),
      dget_step_education_ne t _ _ (by decide),
      dget_step_marital_ne t _ _ (by decide),
      dget_step_religion_ne t _ _ (by decide),
      dget_step_gender_ne t _ _ (by decide),
      dget_step_id_expiry_ne t _ _ (by decide),
      dget_step_id_type_ne t _ _ (by decide),
      dget_step_id_no_ne t _ _ (by decide),
      dget_step_birth_ne t _ _ (by decide),
      dget_step_nationality_ne t _ _ (by decide),
      dget_step_emp_no_ne t _ _ (by decide),
      dget_step_profession_ne t _ _ (by decide),
      dget_step_emp_name_ne t _ _ (by decide),
      dget_step_sign_sifa,
      dget_step_emails_ne t _ _ (by decide) (by decide),
      dget_step_work_loc_ne t _ _ (by decide),
      dget_step_address_ne t _ _ (by decide),
      dget_step_comm_reg_ne t _ _ (by decide),
      dget_step_estab_no_ne t _ _ (by decide),
      dget_step_unified_no_ne t _ _ (by decide),
      dget_step_company_ne t _ _ (by decide),
      dget_step_contract_date3_ne t _ _ (by decide),
      dget_step_contract_date2_ne t _ _ (by decide),
      dget_step_contract_date1_ne t _ _ (by decide),
      dget_step_contract_no_ne t _ _ (by decide),
      dget_map_empty]

def spec_emp_name (t : String) : String :=
  if t = "" then "" else pyStrip (fix_rtl_value (pyStrip (get_bi t ["االسم", "الاسم", "Name"])))

theorem field_emp_name (t : String) : dget (parse_contract t) "اسم الموظف" = spec_emp_name t := by
  unfold parse_contract spec_emp_name
  by_cases ht : t = ""
  · simp only [if_pos ht, dget_map_empty]
  · simp only [if_neg ht]
    rw [dget_cleanup_mem _ _ (by decide),
      dget_step_compensation_ne t _ _ (by decide),
      dget_step_leave_ne t _ _ (by decide),
      dget_step_housing_ne t _ _ (by decide),
      dget_step_salary_ne t _ _ (by decide),
      dget_step_overtime_ne t _ _ (by decide),
      dget_step_workhours_ne t _ _ (by decide),
      dget_step_workdays_ne t _ _ (by decide),
      dget_step_trial_ne t _ _ (by decide),
      dget_step_joining_ne t _ _ (by decide),
      dget_step_start_end_ne t _ _ (by decide) (by decide),
      dget_step_duration_ne t _ _ (by decide),
      dget_step_mobile_ne t _ _ (by decide),
      dget_step_bank_ne t _ _ (by decide),
      dget_step_iban_ne t _ _ (by decide),
      dget_step_specialty_ne t _ _ (by decide),
      dget_step_education_ne t _ _ (by decide),
      dget_step_marital_ne t _ _ (by decide),
      dget_step_religion_ne t _ _ (by decide),
      dget_step_gender_ne t _ _ (by decide),
      dget_step_id_expiry_ne t _ _ (by decide),
      dget_step_id_type_ne t _ _ (by decide),
      dget_step_id_no_ne t _ _ (by decide),
      dget_step_birth_ne t _ _ (by decide),
      dget_step_nationality_ne t _ _ (by decide),
      dget_step_emp_no_ne t _ _ (by decide),
      dget_step_profession_ne t _ _ (by decide),
      dget_step_emp_name_self]

def spec_profession (t : String) : String :=
  if t = "" then "" else pyStrip (fix_rtl_value (get_bi t ["المهنة", "Profession"]))

theorem field_profession (t : String) : dget (parse_contract t) "المهنة" = spec_profession t := by
  unfold parse_contract spec_profession
  by_cases ht : t = ""
  · simp only [if_pos ht, dget_map_empty]
  · simp only [if_neg ht]
    rw [dget_cleanup_mem _ _ (by decide),
      dget_step_compensation_ne t _ _ (by decide),
      dget_step_leave_ne t _ _ (by decide),
      dget_step_housing_ne t _ _ (by decide),
      dget_step_salary_ne t _ _ (by decide),
      dget_step_overtime_ne t _ _ (by decide),
      dget_step_workhours_ne t _ _ (by decide),
      dget_step_workdays_ne t _ _ (by decide),
      dget_step_trial_ne t _ _ (by decide),
      dget_step_joining_ne t _ _ (by decide),
      dget_step_start_end_ne t _ _ (by decide) (by decide),
      dget_step_duration_ne t _ _ (by decide),
      dget_step_mobile_ne t _ _ (by decide),
      dget_step_bank_ne t _ _ (by decide),
      dget_step_iban_ne t _ _ (by decide),
      dget_step_specialty_ne t _ _ (by decide),
      dget_step_education_ne t _ _ (by decide),
      dget_step_marital_ne t _ _ (by decide),
      dget_step_religion_ne t _ _ (by decide),
      dget_step_gender_ne t _ _ (by decide),
      dget_step_id_expiry_ne t _ _ (by decide),
      dget_step_id_type_ne t _ _ (by decide),
      dget_step_id_no_ne t _ _ (by decide),
      dget_step_birth_ne t _ _ (by decide),
      dget_step_nationality_ne t _ _ (by decide),
      dget_step_emp_no_ne t _ _ (by decide),
      dget_step_profession_self]

def spec_emp_no (t : String) : String :=
  if t = "" then "" else pyStrip (digits_only (get_bi t ["الرقم الوظيفي", "Employee Number"]))

theorem field_emp_no (t : String) : dget (parse_contract t) "الرقم الوظيفي" = spec_emp_no t := by
  unfold parse_contract spec_emp_no
  by_cases ht : t = ""
  · simp only [if_pos ht, dget_map_empty]
  · simp only [if_neg ht]
    rw [dget_cleanup_mem _ _ (by decide),
      dget_step_compensation_ne t _ _ (by decide),
      dget_step_leave_ne t _ _ (by decide),
      dget_step_housing_ne t _ _ (by decide),
      dget_step_salary_ne t _ _ (by decide),
      dget_step_overtime_ne t _ _ (by decide),
      dget_step_workhours_ne t _ _ (by decide),
      dget_step_workdays_ne t _ _ (by decide),
      dget_step_trial_ne t _ _ (by decide),
      dget_step_joining_ne t _ _ (by decide),
      dget_step_start_end_ne t _ _ (by decide) (by decide),
      dget_step_duration_ne t _ _ (by decide),
      dget_step_mobile_ne t _ _ (by decide),
      dget_step_bank_ne t _ _ (by decide),
      dget_step_iban_ne t _ _ (by decide),
      dget_step_specialty_ne t _ _ (by decide),
      dget_step_education_ne t _ _ (by decide),
      dget_step_marital_ne t _ _ (by decide),
      dget_step_religion_ne t _ _ (by decide),
      dget_step_gender_ne t _ _ (by decide),
      dget_step_id_expiry_ne t _ _ (by decide),
      dget_step_id_type_ne t _ _ (by decide),
      dget_step_id_no_ne t _ _ (by decide),
      dget_step_birth_ne t _ _ (by decide),
      dget_step_nationality_ne t _ _ (by decide),
      dget_step_emp_no_self]

def spec_nationality (t : String) : String :=
  if t = "" then "" else pyStrip (fix_rtl_value (get_bi t ["الجنسية", "Nationality"]))

theorem field_nationality (t : String) : dget (parse_contract t) "الجنسية" = spec_nationality t := by
  unfold parse_contract spec_nationality
  by_cases ht : t = ""
  · simp only [if_pos ht, dget_map_empty]
  · simp only [if_neg ht]
    rw [dget_cleanup_mem _ _ (by decide),
      dget_step_compensation_ne t _ _ (by decide),
      dget_step_leave_ne t _ _ (by decide),
      dget_step_housing_ne t _ _ (by decide),
      dget_step_salary_ne t _ _ (by decide),
      dget_step_overtime_ne t _ _ (by decide),
      dget_step_workhours_ne t _ _ (by decide),
      dget_step_workdays_ne t _ _ (by decide),
      dget_step_trial_ne t _ _ (by decide),
      dget_step_joining_ne t _ _ (by decide),
      dget_step_start_end_ne t _ _ (by decide) (by decide),
      dget_step_duration_ne t _ _ (by decide),
      dget_step_mobile_ne t _ _ (by decide),
      dget_step_bank_ne t _ _ (by decide),
      dget_step_iban_ne t _ _ (by decide),
      dget_step_specialty_ne t _ _ (by decide),
      dget_step_education_ne t _ _ (by decide),
      dget_step_marital_ne t _ _ (by decide),
      dget_step_religion_ne t _ _ (by decide),
      dget_step_gender_ne t _ _ (by decide),
      dget_step_id_expiry_ne t _ _ (by decide),
      dget_step_id_type_ne t _ _ (by decide),
      dget_step_id_no_ne t _ _ (by decide),
      dget_step_birth_ne t _ _ (by decide),
      dget_step_nationality_self]

def spec_birth (t : String) : String :=
  if t = "" then "" else pyStrip (format_date_any (get_bi t ["تاريخ الميالد", "Date of Birth"]))

theorem field_birth (t : String) : dget (parse_contract t) "تاريخ الميلاد" = spec_birth t := by
  unfold parse_contract spec_birth
  by_cases ht : t = ""
  · simp only [if_pos ht, dget_map_empty]
  · simp only [if_neg ht]
    rw [dget_cleanup_mem _ _ (by decide),
      dget_step_compensation_ne t _ _ (by decide),
      dget_step_leave_ne t _ _ (by decide),
      dget_step_housing_ne t _ _ (by decide),
      dget_step_salary_ne t _ _ (by decide),
      dget_step_overtime_ne t _ _ (by decide),
      dget_step_workhours_ne t _ _ (by decide),
      dget_step_workdays_ne t _ _ (by decide),
      dget_step_trial_ne t _ _ (by decide),
      dget_step_joining_ne t _ _ (by decide),
      dget_step_start_end_ne t _ _ (by decide) (by decide),
      dget_step_duration_ne t _ _ (by decide),
      dget_step_mobile_ne t _ _ (by decide),
      dget_step_bank_ne t _ _ (by decide),
      dget_step_iban_ne t _ _ (by decide),
      dget_step_specialty_ne t _ _ (by decide),
      dget_step_education_ne t _ _ (by decide),
      dget_step_marital_ne t _ _ (by decide),
      dget_step_religion_ne t _ _ (by decide),
      dget_step_gender_ne t _ _ (by decide),
      dget_step_id_expiry_ne t _ _ (by decide),
      dget_step_id_type_ne t _ _ (by decide),
      dget_step_id_no_ne t _ _ (by decide),
      dget_step_birth_self]

def spec_id_no (t : String) : String :=
  if t = "" then "" else pyStrip (digits_only (get_bi t ["رقم الهوية", "Identity Number"]))

theorem field_id_no (t : String) : dget (parse_contract t) "رقم الهوية" = spec_id_no t := by
  unfold parse_contract spec_id_no
  by_cases ht : t = ""
  · simp only [if_pos ht, dget_map_empty]
  · simp only [if_neg ht]
    rw [dget_cleanup_mem _ _ (by decide),
      dget_step_compensation_ne t _ _ (by decide),
      dget_step_leave_ne t _ _ (by decide),
      dget_step_housing_ne t _ _ (by decide),
      dget_step_salary_ne t _ _ (by decide),
      dget_step_overtime_ne t _ _ (by decide),
      dget_step_workhours_ne t _ _ (by decide),
      dget_step_workdays_ne t _ _ (by decide),
      dget_step_trial_ne t _ _ (by decide),
      dget_step_joining_ne t _ _ (by decide),
      dget_step_start_end_ne t _ _ (by decide) (by decide),
      dget_step_duration_ne t _ _ (by decide),
      dget_step_mobile_ne t _ _ (by decide),
      dget_step_bank_ne t _ _ (by decide),
      dget_step_iban_ne t _ _ (by decide),
      dget_step_specialty_ne t _ _ (by decide),
      dget_step_education_ne t _ _ (by decide),
      dget_step_marital_ne t _ _ (by decide),
      dget_step_religion_ne t _ _ (by decide),
      dget_step_gender_ne t _ _ (by decide),
      dget_step_id_expiry_ne t _ _ (by decide),
      dget_step_id_type_ne t _ _ (by decide),
      dget_step_id_no_self]

def spec_id_type (t : String) : String :=
  if t = "" then "" else pyStrip (fix_rtl_value (get_bi t ["نوع الهوية", "ID Type"]))

theorem field_id_type (t : String) : dget (parse_contract t) "نوع الهوية" = spec_id_type t := by
  unfold parse_contract spec_id_type
  by_cases ht : t = ""
  · simp only [if_pos ht, dget_map_empty]
  · simp only [if_neg ht]
    rw [dget_cleanup_mem _ _ (by decide),
      dget_step_compensation_ne t _ _ (by decide),
      dget_step_leave_ne t _ _ (by decide),
      dget_step_housing_ne t _ _ (by decide),
      dget_step_salary_ne t _ _ (by decide),
      dget_step_overtime_ne t _ _ (by decide),
      dget_step_workhours_ne t _ _ (by decide),
      dget_step_workdays_ne t _ _ (by decide),
      dget_step_trial_ne t _ _ (by decide),
      dget_step_joining_ne t _ _ (by decide),
      dget_step_start_end_ne t _ _ (by decide) (by decide),
      dget_step_duration_ne t _ _ (by decide),
      dget_step_mobile_ne t _ _ (by decide),
      dget_step_bank_ne t _ _ (by decide),
      dget_step_iban_ne t _ _ (by decide),
      dget_step_specialty_ne t _ _ (by decide),
      dget_step_education_ne t _ _ (by decide),
      dget_step_marital_ne t _ _ (by decide),
      dget_step_religion_ne t _ _ (by decide),
      dget_step_gender_ne t _ _ (by decide),
      dget_step_id_expiry_ne t _ _ (by decide),
      dget_step_id_type_self]

def spec_id_expiry (t : String) : String :=
  if t = "" then "" else pyStrip (format_date_any (get_bi t ["تاريخ اإلنتهاء", "تاريخ الانتهاء", "ID Expiry Date"]))

theorem field_id_expiry (t : String) : dget (parse_contract t) "تاريخ انتهاء الهوية" = spec_id_expiry t := by
  unfold parse_contract spec_id_expiry
  by_cases ht : t = ""
  · simp only [if_pos ht, dget_map_empty]
  · simp only [if_neg ht]
    rw [dget_cleanup_mem _ _ (by decide),
      dget_step_compensation_ne t _ _ (by decide),
      dget_step_leave_ne t _ _ (by decide),
      dget_step_housing_ne t _ _ (by decide),
      dget_step_salary_ne t _ _ (by decide),
      dget_step_overtime_ne t _ _ (by decide),
      dget_step_workhours_ne t _ _ (by decide),
      dget_step_workdays_ne t _ _ (by decide),
      dget_step_trial_ne t _ _ (by decide),
      dget_step_joining_ne t _ _ (by decide),
      dget_step_start_end_ne t _ _ (by decide) (by decide),
      dget_step_duration_ne t _ _ (by decide),
      dget_step_mobile_ne t _ _ (by decide),
      dget_step_bank_ne t _ _ (by decide),
      dget_step_iban_ne t _ _ (by decide),
      dget_step_specialty_ne t _ _ (by decide),
      dget_step_education_ne t _ _ (by decide),
      dget_step_marital_ne t _ _ (by decide),
      dget_step_religion_ne t _ _ (by decide),
      dget_step_gender_ne t _ _ (by decide),
      dget_step_id_expiry_self]

def spec_gender (t : String) : String :=
  if t = "" then "" else pyStrip (fix_rtl_value (get_bi t ["الجنس", "Gender"]))

theorem field_gender (t : String) : dget (parse_contract t) "الجنس" = spec_gender t := by
  unfold parse_contract spec_gender
  by_cases ht : t = ""
  · simp only [if_pos ht, dget_map_empty]
  · simp only [if_neg ht]
    rw [dget_cleanup_mem _ _ (by decide),
      dget_step_compensation_ne t _ _ (by decide),
      dget_step_leave_ne t _ _ (by decide),
      dget_step_housing_ne t _ _ (by decide),
      dget_step_salary_ne t _ _ (by decide),
      dget_step_overtime_ne t _ _ (by decide),
      dget_step_workhours_ne t _ _ (by decide),
      dget_step_workdays_ne t _ _ (by decide),
      dget_step_trial_ne t _ _ (by decide),
      dget_step_joining_ne t _ _ (by decide),
      dget_step_start_end_ne t _ _ (by decide) (by decide),
      dget_step_duration_ne t _ _ (by decide),
      dget_step_mobile_ne t _ _ (by decide),
      dget_step_bank_ne t _ _ (by decide),
      dget_step_iban_ne t _ _ (by decide),
      dget_step_specialty_ne t _ _ (by decide),
      dget_step_education_ne t _ _ (by decide),
      dget_step_marital_ne t _ _ (by decide),
      dget_step_religion_ne t _ _ (by decide),
      dget_step_gender_self]

def spec_religion (t : String) : String :=
  if t = "" then "" else pyStrip (fix_rtl_value (get_bi t ["الديانة", "Religion"]))

theorem field_religion (t : String) : dget (parse_contract t) "الديانة" = spec_religion t := by
  unfold parse_contract spec_religion
  by_cases ht : t = ""
  · simp only [if_pos ht, dget_map_empty]
  · simp only [if_neg ht]
    rw [dget_cleanup_mem _ _ (by decide),
      dget_step_compensation_ne t _ _ (by decide),
      dget_step_leave_ne t _ _ (by decide),
      dget_step_housing_ne t _ _ (by decide),
      dget_step_salary_ne t _ _ (by decide),
      dget_step_overtime_ne t _ _ (by decide),
      dget_step_workhours_ne t _ _ (by decide),
      dget_step_workdays_ne t _ _ (by decide),
      dget_step_trial_ne t _ _ (by decide),
      dget_step_joining_ne t _ _ (by decide),
      dget_step_start_end_ne t _ _ (by decide) (by decide),
      dget_step_duration_ne t _ _ (by decide),
      dget_step_mobile_ne t _ _ (by decide),
      dget_step_bank_ne t _ _ (by decide),
      dget_step_iban_ne t _ _ (by decide),
      dget_step_specialty_ne t _ _ (by decide),
      dget_step_education_ne t _ _ (by decide),
      dget_step_marital_ne t _ _ (by decide),
      dget_step_religion_self]

def spec_marital (t : String) : String :=
  if t = "" then "" else pyStrip (fix_rtl_value (get_bi t ["الحالة االجتماعية", "الحالة الاجتماعية", "Marital Status"]))

theorem field_marital (t : String) : dget (parse_contract t) "الحالة الاجتماعية" = spec_marital t := by
  unfold parse_contract spec_marital
  by_cases ht : t = ""
  · simp only [if_pos ht, dget_map_empty]
  · simp only [if_neg ht]
    rw [dget_cleanup_mem _ _ (by decide),
      dget_step_compensation_ne t _ _ (by decide),
      dget_step_leave_ne t _ _ (by decide),
      dget_step_housing_ne t _ _ (by decide),
      dget_step_salary_ne t _ _ (by decide),
      dget_step_overtime_ne t _ _ (by decide),
      dget_step_workhours_ne t _ _ (by decide),
      dget_step_workdays_ne t _ _ (by decide),
      dget_step_trial_ne t _ _ (by decide),
      dget_step_joining_ne t _ _ (by decide),
      dget_step_start_end_ne t _ _ (by decide) (by decide),
      dget_step_duration_ne t _ _ (by decide),
      dget_step_mobile_ne t _ _ (by decide),
      dget_step_bank_ne t _ _ (by decide),
      dget_step_iban_ne t _ _ (by decide),
      dget_step_specialty_ne t _ _ (by decide),
      dget_step_education_ne t _ _ (by decide),
      dget_step_marital_self]

def spec_education (t : String) : String :=
  if t = "" then "" else pyStrip (fix_rtl_value (get_bi t ["المؤهل العلمي", "Education"]))

theorem field_education (t : String) : dget (parse_contract t) "المؤهل العلمي" = spec_education t := by
  unfold parse_contract spec_education
  by_cases ht : t = ""
  · simp only [if_pos ht, dget_map_empty]
  · simp only [if_neg ht]
    rw [dget_cleanup_mem _ _ (by decide),
      dget_step_compensation_ne t _ _ (by decide),
      dget_step_leave_ne t _ _ (by decide),
      dget_step_housing_ne t _ _ (by decide),
      dget_step_salary_ne t _ _ (by decide),
      dget_step_overtime_ne t _ _ (by decide),
      dget_step_workhours_ne t _ _ (by decide),
      dget_step_workdays_ne t _ _ (by decide),
      dget_step_trial_ne t _ _ (by decide),
      dget_step_joining_ne t _ _ (by decide),
      dget_step_start_end_ne t _ _ (by decide) (by decide),
      dget_step_duration_ne t _ _ (by decide),
      dget_step_mobile_ne t _ _ (by decide),
      dget_step_bank_ne t _ _ (by decide),
      dget_step_iban_ne t _ _ (by decide),
      dget_step_specialty_ne t _ _ (by decide),
      dget_step_education_self]

def spec_specialty (t : String) : String :=
  if t = "" then "" else pyStrip (fix_rtl_value (get_bi t ["التخصص", "Speciality"]))

theorem field_specialty (t : String) : dget (parse_contract t) "التخصص" = spec_specialty t := by
  unfold parse_contract spec_specialty
  by_cases ht : t = ""
  · simp only [if_pos ht, dget_map_empty]
  · simp only [if_neg ht]
    rw [dget_cleanup_mem _ _ (by decide),
      dget_step_compensation_ne t _ _ (by decide),
      dget_step_leave_ne t _ _ (by decide),
      dget_step_housing_ne t _ _ (by decide),
      dget_step_salary_ne t _ _ (by decide),
      dget_step_overtime_ne t _ _ (by decide),
      dget_step_workhours_ne t _ _ (by decide),
      dget_step_workdays_ne t _ _ (by decide),
      dget_step_trial_ne t _ _ (by decide),
      dget_step_joining_ne t _ _ (by decide),
      dget_step_start_end_ne t _ _ (by decide) (by decide),
      dget_step_duration_ne t _ _ (by decide),
      dget_step_mobile_ne t _ _ (by decide),
      dget_step_bank_ne t _ _ (by decide),
      dget_step_iban_ne t _ _ (by decide),
      dget_step_specialty_self]

def spec_iban (t : String) : String :=
  if t = "" then "" else pyStrip (pyStrip (removeWs (get_bi t ["رقم اآليبان", "رقم الآيبان", "Iban"])))

theorem field_iban (t : String) : dget (parse_contract t) "رقم الآيبان" = spec_iban t := by
  unfold parse_contract spec_iban
  by_cases ht : t = ""
  · simp only [if_pos ht, dget_map_empty]
  · simp only [if_neg ht]
    rw [dget_cleanup_mem _ _ (by decide),
      dget_step_compensation_ne t _ _ (by decide),
      dget_step_leave_ne t _ _ (by decide),
      dget_step_housing_ne t _ _ (by decide),
      dget_step_salary_ne t _ _ (by decide),
      dget_step_overtime_ne t _ _ (by decide),
      dget_step_workhours_ne t _ _ (by decide),
      dget_step_workdays_ne t _ _ (by decide),
      dget_step_trial_ne t _ _ (by decide),
      dget_step_joining_ne t _ _ (by decide),
      dget_step_start_end_ne t _ _ (by decide) (by decide),
      dget_step_duration_ne t _ _ (by decide),
      dget_step_mobile_ne t _ _ (by decide),
      dget_step_bank_ne t _ _ (by decide),
      dget_step_iban_self]

def spec_bank (t : String) : String :=
  if t = "" then "" else pyStrip (fix_rtl_value (get_bi t ["اسم البنك", "Bank Name"]))

theorem field_bank (t : String) : dget (parse_contract t) "اسم البنك" = spec_bank t := by
  unfold parse_contract spec_bank
  by_cases ht : t = ""
  · simp only [if_pos ht, dget_map_empty]
  · simp only [if_neg ht]
    rw [dget_cleanup_mem _ _ (by decide),
      dget_step_compensation_ne t _ _ (by decide),
      dget_step_leave_ne t _ _ (by decide),
      dget_step_housing_ne t _ _ (by decide),
      dget_step_salary_ne t _ _ (by decide),
      dget_step_overtime_ne t _ _ (by decide),
      dget_step_workhours_ne t _ _ (by decide),
      dget_step_workdays_ne t _ _ (by decide),
      dget_step_trial_ne t _ _ (by decide),
      dget_step_joining_ne t _ _ (by decide),
      dget_step_start_end_ne t _ _ (by decide) (by decide),
      dget_step_duration_ne t _ _ (by decide),
      dget_step_mobile_ne t _ _ (by decide),
      dget_step_bank_self]

def spec_employee_email (t : String) : String :=
  if t = "" then "" else pyStrip (secondEmailOr (pyFindall emailRE t) "")

theorem field_employee_email (t : String) : dget (parse_contract t) "بريد الموظف" = spec_employee_email t := by
  unfold parse_contract spec_employee_email
  by_cases ht : t = ""
  · simp only [if_pos ht, dget_map_empty]
  · simp only [if_neg ht]
    rw [dget_cleanup_mem _ _ (by decide),
      dget_step_compensation_ne t _ _ (by decide),
      dget_step_leave_ne t _ _ (by decide),
      dget_step_housing_ne t _ _ (by decide),
      dget_step_salary_ne t _ _ (by decide),
      dget_step_overtime_ne t _ _ (by decide),
      dget_step_workhours_ne t _ _ (by decide),
      dget_step_workdays_ne t _ _ (by decide),
      dget_step_trial_ne t _ _ (by decide),
      dget_step_joining_ne t _ _ (by decide),
      dget_step_start_end_ne t _ _ (by decide) (by decide),
      dget_step_duration_ne t _ _ (by decide),
      dget_step_mobile_ne t _ _ (by decide),
      dget_step_bank_ne t _ _ (by decide),
      dget_step_iban_ne t _ _ (by decide),
      dget_step_specialty_ne t _ _ (by decide),
      dget_step_education_ne t _ _ (by decide),
      dget_step_marital_ne t _ _ (by decide),
      dget_step_religion_ne t _ _ (by decide),
      dget_step_gender_ne t _ _ (by decide),
      dget_step_id_expiry_ne t _ _ (by decide),
      dget_step_id_type_ne t _ _ (by decide),
      dget_step_id_no_ne t _ _ (by decide),
      dget_step_birth_ne t _ _ (by decide),
      dget_step_nationality_ne t _ _ (by decide),
      dget_step_emp_no_ne t _ _ (by decide),
      dget_step_profession_ne t _ _ (by decide),
      dget_step_emp_name_ne t _ _ (by decide),
      dget_step_sign_ne t _ _ (by decide) (by decide),
      dget_step_emails_employee,
      dget_step_work_loc_ne t _ _ (by decide),
      dget_step_address_ne t _ _ (by decide),
      dget_step_comm_reg_ne t _ _ (by decide),
      dget_step_estab_no_ne t _ _ (by decide),
      dget_step_unified_no_ne t _ _ (by decide),
      dget_step_company_ne t _ _ (by decide),
      dget_step_contract_date3_ne t _ _ (by decide),
      dget_step_contract_date2_ne t _ _ (by decide),
      dget_step_contract_date1_ne t _ _ (by decide),
      dget_step_contract_no_ne t _ _ (by decide),
      dget_map_empty]

def spec_mobile (t : String) : String :=
  if t = "" then "" else pyStrip (if find_line_containing t "رقم الجوال" ≠ "" then normalize_mobile_from_line (find_line_containing t "رقم الجوال") else "")

theorem field_mobile (t : String) : dget (parse_contract t) "رقم الجوال" = spec_mobile t := by
  unfold parse_contract spec_mobile
  by_cases ht : t = ""
  · simp only [if_pos ht, dget_map_empty]
  · simp only [if_neg ht]
    rw [dget_cleanup_mem _ _ (by decide),
      dget_step_compensation_ne t _ _ (by decide),
      dget_step_leave_ne t _ _ (by decide),
      dget_step_housing_ne t _ _ (by decide),
      dget_step_salary_ne t _ _ (by decide),
      dget_step_overtime_ne t _ _ (by decide),
      dget_step_workhours_ne t _ _ (by decide),
      dget_step_workdays_ne t _ _ (by decide),
      dget_step_trial_ne t _ _ (by decide),
      dget_step_joining_ne t _ _ (by decide),
      dget_step_start_end_ne t _ _ (by decide) (by decide),
      dget_step_duration_ne t _ _ (by decide),
      dget_step_mobile_self,
      dget_step_bank_ne t _ _ (by decide),
      dget_step_iban_ne t _ _ (by decide),
      dget_step_specialty_ne t _ _ (by decide),
      dget_step_education_ne t _ _ (by decide),
      dget_step_marital_ne t _ _ (by decide),
      dget_step_religion_ne t _ _ (by decide),
      dget_step_gender_ne t _ _ (by decide),
      dget_step_id_expiry_ne t _ _ (by decide),
      dget_step_id_type_ne t _ _ (by decide),
      dget_step_id_no_ne t _ _ (by decide),
      dget_step_birth_ne t _ _ (by decide),
      dget_step_nationality_ne t _ _ (by decide),
      dget_step_emp_no_ne t _ _ (by decide),
      dget_step_profession_ne t _ _ (by decide),
      dget_step_emp_name_ne t _ _ (by decide),
      dget_step_sign_ne t _ _ (by decide) (by decide),
      dget_step_emails_ne t _ _ (by decide) (by decide),
      dget_step_work_loc_ne t _ _ (by decide),
      dget_step_address_ne t _ _ (by decide),
      dget_step_comm_reg_ne t _ _ (by decide),
      dget_step_estab_no_ne t _ _ (by decide),
      dget_step_unified_no_ne t _ _ (by decide),
      dget_step_company_ne t _ _ (by decide),
      dget_step_contract_date3_ne t _ _ (by decide),
      dget_step_contract_date2_ne t _ _ (by decide),
      dget_step_contract_date1_ne t _ _ (by decide),
      dget_step_contract_no_ne t _ _ (by decide),
      dget_map_empty]

def spec_start (t : String) : String :=
  if t = "" then "" else pyStrip (optStr (pySearch patStartEnd t) (fun m => format_date_any (grp m 1)) (optStr (pySearch patStart t) (fun m => format_date_any (grp m 1)) ""))

theorem field_start (t : String) : dget (parse_contract t) "بدء العقد" = spec_start t := by
  unfold parse_contract spec_start
  by_cases ht : t = ""
  · simp only [if_pos ht, dget_map_empty]
  · simp only [if_neg ht]
    rw [dget_cleanup_mem _ _ (by decide),
      dget_step_compensation_ne t _ _ (by decide),
      dget_step_leave_ne t _ _ (by decide),
      dget_step_housing_ne t _ _ (by decide),
      dget_step_salary_ne t _ _ (by decide),
      dget_step_overtime_ne t _ _ (by decide),
      dget_step_workhours_ne t _ _ (by decide),
      dget_step_workdays_ne t _ _ (by decide),
      dget_step_trial_ne t _ _ (by decide),
      dget_step_joining_ne t _ _ (by decide),
      dget_step_start_end_start,
      dget_step_duration_ne t _ _ (by decide),
      dget_step_mobile_ne t _ _ (by decide),
      dget_step_bank_ne t _ _ (by decide),
      dget_step_iban_ne t _ _ (by decide),
      dget_step_specialty_ne t _ _ (by decide),
      dget_step_education_ne t _ _ (by decide),
      dget_step_marital_ne t _ _ (by decide),
      dget_step_religion_ne t _ _ (by decide),
      dget_step_gender_ne t _ _ (by decide),
      dget_step_id_expiry_ne t _ _ (by decide),
      dget_step_id_type_ne t _ _ (by decide),
      dget_step_id_no_ne t _ _ (by decide),
      dget_step_birth_ne t _ _ (by decide),
      dget_step_nationality_ne t _ _ (by decide),
      dget_step_emp_no_ne t _ _ (by decide),
      dget_step_profession_ne t _ _ (by decide),
      dget_step_emp_name_ne t _ _ (by decide),
      dget_step_sign_ne t _ _ (by decide) (by decide),
      dget_step_emails_ne t _ _ (by decide) (by decide),
      dget_step_work_loc_ne t _ _ (by decide),
      dget_step_address_ne t _ _ (by decide),
      dget_step_comm_reg_ne t _ _ (by decide),
      dget_step_estab_no_ne t _ _ (by decide),
      dget_step_unified_no_ne t _ _ (by decide),
      dget_step_company_ne t _ _ (by decide),
      dget_step_contract_date3_ne t _ _ (by decide),
      dget_step_contract_date2_ne t _ _ (by decide),
      dget_step_contract_date1_ne t _ _ (by decide),
      dget_step_contract_no_ne t _ _ (by decide),
      dget_map_empty]

def spec_endd (t : String) : String :=
  if t = "" then "" else pyStrip (optStr (pySearch patStartEnd t) (fun m => format_date_any (grp m 2)) (optStr (pySearch patEnd t) (fun m => format_date_any (grp m 1)) ""))

theorem field_endd (t : String) : dget (parse_contract t) "انتهاء العقد" = spec_endd t := by
  unfold parse_contract spec_endd
  by_cases ht : t = ""
  · simp only [if_pos ht, dget_map_empty]
  · simp only [if_neg ht]
    rw [dget_cleanup_mem _ _ (by decide),
      dget_step_compensation_ne t _ _ (by decide),
      dget_step_leave_ne t _ _ (by decide),
      dget_step_housing_ne t _ _ (by decide),
      dget_step_salary_ne t _ _ (by decide),
      dget_step_overtime_ne t _ _ (by decide),
      dget_step_workhours_ne t _ _ (by decide),
      dget_step_workdays_ne t _ _ (by decide),
      dget_step_trial_ne t _ _ (by decide),
      dget_step_joining_ne t _ _ (by decide),
      dget_step_start_end_endd,
      dget_step_duration_ne t _ _ (by decide),
      dget_step_mobile_ne t _ _ (by decide),
      dget_step_bank_ne t _ _ (by decide),
      dget_step_iban_ne t _ _ (by decide),
      dget_step_specialty_ne t _ _ (by decide),
      dget_step_education_ne t _ _ (by decide),
      dget_step_marital_ne t _ _ (by decide),
      dget_step_religion_ne t _ _ (by decide),
      dget_step_gender_ne t _ _ (by decide),
      dget_step_id_expiry_ne t _ _ (by decide),
      dget_step_id_type_ne t _ _ (by decide),
      dget_step_id_no_ne t _ _ (by decide),
      dget_step_birth_ne t _ _ (by decide),
      dget_step_nationality_ne t _ _ (by decide),
      dget_step_emp_no_ne t _ _ (by decide),
      dget_step_profession_ne t _ _ (by decide),
      dget_step_emp_name_ne t _ _ (by decide),
      dget_step_sign_ne t _ _ (by decide) (by decide),
      dget_step_emails_ne t _ _ (by decide) (by decide),
      dget_step_work_loc_ne t _ _ (by decide),
      dget_step_address_ne t _ _ (by decide),
      dget_step_comm_reg_ne t _ _ (by decide),
      dget_step_estab_no_ne t _ _ (by decide),
      dget_step_unified_no_ne t _ _ (by decide),
      dget_step_company_ne t _ _ (by decide),
      dget_step_contract_date3_ne t _ _ (by decide),
      dget_step_contract_date2_ne t _ _ (by decide),
      dget_step_contract_date1_ne t _ _ (by decide),
      dget_step_contract_no_ne t _ _ (by decide),
      dget_map_empty]

def spec_joining (t : String) : String :=
  if t = "" then "" else pyStrip (optStr (pySearch patJoining t) (fun m => format_date_any (grp m 1)) "")

theorem field_joining (t : String) : dget (parse_contract t) "تاريخ المباشرة الفعلية" = spec_joining t := by
  unfold parse_contract spec_joining
  by_cases ht : t = ""
  · simp only [if_pos ht, dget_map_empty]
  · simp only [if_neg ht]
    rw [dget_cleanup_mem _ _ (by decide),
      dget_step_compensation_ne t _ _ (by decide),
      dget_step_leave_ne t _ _ (by decide),
      dget_step_housing_ne t _ _ (by decide),
      dget_step_salary_ne t _ _ (by decide),
      dget_step_overtime_ne t _ _ (by decide),
      dget_step_workhours_ne t _ _ (by decide),
      dget_step_workdays_ne t _ _ (by decide),
      dget_step_trial_ne t _ _ (by decide),
      dget_step_joining_self,
      dget_step_start_end_ne t _ _ (by decide) (by decide),
      dget_step_duration_ne t _ _ (by decide),
      dget_step_mobile_ne t _ _ (by decide),
      dget_step_bank_ne t _ _ (by decide),
      dget_step_iban_ne t _ _ (by decide),
      dget_step_specialty_ne t _ _ (by decide),
      dget_step_education_ne t _ _ (by decide),
      dget_step_marital_ne t _ _ (by decide),
      dget_step_religion_ne t _ _ (by decide),
      dget_step_gender_ne t _ _ (by decide),
      dget_step_id_expiry_ne t _ _ (by decide),
      dget_step_id_type_ne t _ _ (by decide),
      dget_step_id_no_ne t _ _ (by decide),
      dget_step_birth_ne t _ _ (by decide),
      dget_step_nationality_ne t _ _ (by decide),
      dget_step_emp_no_ne t _ _ (by decide),
      dget_step_profession_ne t _ _ (by decide),
      dget_step_emp_name_ne t _ _ (by decide),
      dget_step_sign_ne t _ _ (by decide) (by decide),
      dget_step_emails_ne t _ _ (by decide) (by decide),
      dget_step_work_loc_ne t _ _ (by decide),
      dget_step_address_ne t _ _ (by decide),
      dget_step_comm_reg_ne t _ _ (by decide),
      dget_step_estab_no_ne t _ _ (by decide),
      dget_step_unified_no_ne t _ _ (by decide),
      dget_step_company_ne t _ _ (by decide),
      dget_step_contract_date3_ne t _ _ (by decide),
      dget_step_contract_date2_ne t _ _ (by decide),
      dget_step_contract_date1_ne t _ _ (by decide),
      dget_step_contract_no_ne t _ _ (by decide),
      dget_map_empty]

def spec_duration (t : String) : String :=
  if t = "" then "" else pyStrip (optStr (pySearch patDuration t) (fun m => digits_only (grp m 1)) "")

theorem field_duration (t : String) : dget (parse_contract t) "مدة العقد" = spec_duration t := by
  unfold parse_contract spec_duration
  by_cases ht : t = ""
  · simp only [if_pos ht, dget_map_empty]
  · simp only [if_neg ht]
    rw [dget_cleanup_mem _ _ (by decide),
      dget_step_compensation_ne t _ _ (by decide),
      dget_step_leave_ne t _ _ (by decide),
      dget_step_housing_ne t _ _ (by decide),
      dget_step_salary_ne t _ _ (by decide),
      dget_step_overtime_ne t _ _ (by decide),
      dget_step_workhours_ne t _ _ (by decide),
      dget_step_workdays_ne t _ _ (by decide),
      dget_step_trial_ne t _ _ (by decide),
      dget_step_joining_ne t _ _ (by decide),
      dget_step_start_end_ne t _ _ (by decide) (by decide),
      dget_step_duration_self,
      dget_step_mobile_ne t _ _ (by decide),
      dget_step_bank_ne t _ _ (by decide),
      dget_step_iban_ne t _ _ (by decide),
      dget_step_specialty_ne t _ _ (by decide),
      dget_step_education_ne t _ _ (by decide),
      dget_step_marital_ne t _ _ (by decide),
      dget_step_religion_ne t _ _ (by decide),
      dget_step_gender_ne t _ _ (by decide),
      dget_step_id_expiry_ne t _ _ (by decide),
      dget_step_id_type_ne t _ _ (by decide),
      dget_step_id_no_ne t _ _ (by decide),
      dget_step_birth_ne t _ _ (by decide),
      dget_step_nationality_ne t _ _ (by decide),
      dget_step_emp_no_ne t _ _ (by decide),
      dget_step_profession_ne t _ _ (by decide),
      dget_step_emp_name_ne t _ _ (by decide),
      dget_step_sign_ne t _ _ (by decide) (by decide),
      dget_step_emails_ne t _ _ (by decide) (by decide),
      dget_step_work_loc_ne t _ _ (by decide),
      dget_step_address_ne t _ _ (by decide),
      dget_step_comm_reg_ne t _ _ (by decide),
      dget_step_estab_no_ne t _ _ (by decide),
      dget_step_unified_no_ne t _ _ (by decide),
      dget_step_company_ne t _ _ (by decide),
      dget_step_contract_date3_ne t _ _ (by decide),
      dget_step_contract_date2_ne t _ _ (by decide),
      dget_step_contract_date1_ne t _ _ (by decide),
      dget_step_contract_no_ne t _ _ (by decide),
      dget_map_empty]

def spec_trial (t : String) : String :=
  if t = "" then "" else pyStrip (optStr (pySearch patTrial t) (fun m => digits_only (if (grp m 1).data.length = 2 then normalize_reversed_short_number (grp m 1) else grp m 1)) "")

theorem field_trial (t : String) : dget (parse_contract t) "فترة التجربة" = spec_trial t := by
  unfold parse_contract spec_trial
  by_cases ht : t = ""
  · simp only [if_pos ht, dget_map_empty]
  · simp only [if_neg ht]
    rw [dget_cleanup_mem _ _ (by decide),
      dget_step_compensation_ne t _ _ (by decide),
      dget_step_leave_ne t _ _ (by decide),
      dget_step_housing_ne t _ _ (by decide),
      dget_step_salary_ne t _ _ (by decide),
      dget_step_overtime_ne t _ _ (by decide),
      dget_step_workhours_ne t _ _ (by decide),
      dget_step_workdays_ne t _ _ (by decide),
      dget_step_trial_self,
      dget_step_joining_ne t _ _ (by decide),
      dget_step_start_end_ne t _ _ (by decide) (by decide),
      dget_step_duration_ne t _ _ (by decide),
      dget_step_mobile_ne t _ _ (by decide),
      dget_step_bank_ne t _ _ (by decide),
      dget_step_iban_ne t _ _ (by decide),
      dget_step_specialty_ne t _ _ (by decide),
      dget_step_education_ne t _ _ (by decide),
      dget_step_marital_ne t _ _ (by decide),
      dget_step_religion_ne t _ _ (by decide),
      dget_step_gender_ne t _ _ (by decide),
      dget_step_id_expiry_ne t _ _ (by decide),
      dget_step_id_type_ne t _ _ (by decide),
      dget_step_id_no_ne t _ _ (by decide),
      dget_step_birth_ne t _ _ (by decide),
      dget_step_nationality_ne t _ _ (by decide),
      dget_step_emp_no_ne t _ _ (by decide),
      dget_step_profession_ne t _ _ (by decide),
      dget_step_emp_name_ne t _ _ (by decide),
      dget_step_sign_ne t _ _ (by decide) (by decide),
      dget_step_emails_ne t _ _ (by decide) (by decide),
      dget_step_work_loc_ne t _ _ (by decide),
      dget_step_address_ne t _ _ (by decide),
      dget_step_comm_reg_ne t _ _ (by decide),
      dget_step_estab_no_ne t _ _ (by decide),
      dget_step_unified_no_ne t _ _ (by decide),
      dget_step_company_ne t _ _ (by decide),
      dget_step_contract_date3_ne t _ _ (by decide),
      dget_step_contract_date2_ne t _ _ (by decide),
      dget_step_contract_date1_ne t _ _ (by decide),
      dget_step_contract_no_ne t _ _ (by decide),
      dget_map_empty]

def spec_workdays (t : String) : String :=
  if t = "" then "" else pyStrip (optStr (pySearch patWorkDays t) (fun m => digits_only (grp m 1)) "")

theorem field_workdays (t : String) : dget (parse_contract t) "أيام العمل الأسبوعية" = spec_workdays t := by
  unfold parse_contract spec_workdays
  by_cases ht : t = ""
  · simp only [if_pos ht, dget_map_empty]
  · simp only [if_neg ht]
    rw [dget_cleanup_mem _ _ (by decide),
      dget_step_compensation_ne t _ _ (by decide),
      dget_step_leave_ne t _ _ (by decide),
      dget_step_housing_ne t _ _ (by decide),
      dget_step_salary_ne t _ _ (by decide),
      dget_step_overtime_ne t _ _ (by decide),
      dget_step_workhours_ne t _ _ (by decide),
      dget_step_workdays_self,
      dget_step_trial_ne t _ _ (by decide),
      dget_step_joining_ne t _ _ (by decide),
      dget_step_start_end_ne t _ _ (by decide) (by decide),
      dget_step_duration_ne t _ _ (by decide),
      dget_step_mobile_ne t _ _ (by decide),
      dget_step_bank_ne t _ _ (by decide),
      dget_step_iban_ne t _ _ (by decide),
      dget_step_specialty_ne t _ _ (by decide),
      dget_step_education_ne t _ _ (by decide),
      dget_step_marital_ne t _ _ (by decide),
      dget_step_religion_ne t _ _ (by decide),
      dget_step_gender_ne t _ _ (by decide),
      dget_step_id_expiry_ne t _ _ (by decide),
      dget_step_id_type_ne t _ _ (by decide),
      dget_step_id_no_ne t _ _ (by decide),
      dget_step_birth_ne t _ _ (by decide),
      dget_step_nationality_ne t _ _ (by decide),
      dget_step_emp_no_ne t _ _ (by decide),
      dget_step_profession_ne t _ _ (by decide),
      dget_step_emp_name_ne t _ _ (by decide),
      dget_step_sign_ne t _ _ (by decide) (by decide),
      dget_step_emails_ne t _ _ (by decide) (by decide),
      dget_step_work_loc_ne t _ _ (by decide),
      dget_step_address_ne t _ _ (by decide),
      dget_step_comm_reg_ne t _ _ (by decide),
      dget_step_estab_no_ne t _ _ (by decide),
      dget_step_unified_no_ne t _ _ (by decide),
      dget_step_company_ne t _ _ (by decide),
      dget_step_contract_date3_ne t _ _ (by decide),
      dget_step_contract_date2_ne t _ _ (by decide),
      dget_step_contract_date1_ne t _ _ (by decide),
      dget_step_contract_no_ne t _ _ (by decide),
      dget_map_empty]

def spec_workhours (t : String) : String :=
  if t = "" then "" else pyStrip (optStr (pySearch patWorkHours t) (fun m => digits_only (grp m 1)) "")

theorem field_workhours (t : String) : dget (parse_contract t) "ساعات العمل اليومية" = spec_workhours t := by
  unfold parse_contract spec_workhours
  by_cases ht : t = ""
  · simp only [if_pos ht, dget_map_empty]
  · simp only [if_neg ht]
    rw [dget_cleanup_mem _ _ (by decide),
      dget_step_compensation_ne t _ _ (by decide),
      dget_step_leave_ne t _ _ (by decide),
      dget_step_housing_ne t _ _ (by decide),
      dget_step_salary_ne t _ _ (by decide),
      dget_step_overtime_ne t _ _ (by decide),
      dget_step_workhours_self,
      dget_step_workdays_ne t _ _ (by decide),
      dget_step_trial_ne t _ _ (by decide),
      dget_step_joining_ne t _ _ (by decide),
      dget_step_start_end_ne t _ _ (by decide) (by decide),
      dget_step_duration_ne t _ _ (by decide),
      dget_step_mobile_ne t _ _ (by decide),
      dget_step_bank_ne t _ _ (by decide),
      dget_step_iban_ne t _ _ (by decide),
      dget_step_specialty_ne t _ _ (by decide),
      dget_step_education_ne t _ _ (by decide),
      dget_step_marital_ne t _ _ (by decide),
      dget_step_religion_ne t _ _ (by decide),
      dget_step_gender_ne t _ _ (by decide),
      dget_step_id_expiry_ne t _ _ (by decide),
      dget_step_id_type_ne t _ _ (by decide),
      dget_step_id_no_ne t _ _ (by decide),
      dget_step_birth_ne t _ _ (by decide),
      dget_step_nationality_ne t _ _ (by decide),
      dget_step_emp_no_ne t _ _ (by decide),
      dget_step_profession_ne t _ _ (by decide),
      dget_step_emp_name_ne t _ _ (by decide),
      dget_step_sign_ne t _ _ (by decide) (by decide),
      dget_step_emails_ne t _ _ (by decide) (by decide),
      dget_step_work_loc_ne t _ _ (by decide),
      dget_step_address_ne t _ _ (by decide),
      dget_step_comm_reg_ne t _ _ (by decide),
      dget_step_estab_no_ne t _ _ (by decide),
      dget_step_unified_no_ne t _ _ (by decide),
      dget_step_company_ne t _ _ (by decide),
      dget_step_contract_date3_ne t _ _ (by decide),
      dget_step_contract_date2_ne t _ _ (by decide),
      dget_step_contract_date1_ne t _ _ (by decide),
      dget_step_contract_no_ne t _ _ (by decide),
      dget_map_empty]

def spec_overtime (t : String) : String :=
  if t = "" then "" else pyStrip (optStr (pySearch patOvertime t) (fun m => digits_only (if (grp m 1).data.length = 2 then normalize_reversed_short_number (grp m 1) else grp m 1)) "")

theorem field_overtime (t : String) : dget (parse_contract t) "أجر الساعة الإضافية" = spec_overtime t := by
  unfold parse_contract spec_overtime
  by_cases ht : t = ""
  · simp only [if_pos ht, dget_map_empty]
  · simp only [if_neg ht]
    rw [dget_cleanup_mem _ _ (by decide),
      dget_step_compensation_ne t _ _ (by decide),
      dget_step_leave_ne t _ _ (by decide),
      dget_step_housing_ne t _ _ (by decide),
      dget_step_salary_ne t _ _ (by decide),
      dget_step_overtime_self,
      dget_step_workhours_ne t _ _ (by decide),
      dget_step_workdays_ne t _ _ (by decide),
      dget_step_trial_ne t _ _ (by decide),
      dget_step_joining_ne t _ _ (by decide),
      dget_step_start_end_ne t _ _ (by decide) (by decide),
      dget_step_duration_ne t _ _ (by decide),
      dget_step_mobile_ne t _ _ (by decide),
      dget_step_bank_ne t _ _ (by decide),
      dget_step_iban_ne t _ _ (by decide),
      dget_step_specialty_ne t _ _ (by decide),
      dget_step_education_ne t _ _ (by decide),
      dget_step_marital_ne t _ _ (by decide),
      dget_step_religion_ne t _ _ (by decide),
      dget_step_gender_ne t _ _ (by decide),
      dget_step_id_expiry_ne t _ _ (by decide),
      dget_step_id_type_ne t _ _ (by decide),
      dget_step_id_no_ne t _ _ (by decide),
      dget_step_birth_ne t _ _ (by decide),
      dget_step_nationality_ne t _ _ (by decide),
      dget_step_emp_no_ne t _ _ (by decide),
      dget_step_profession_ne t _ _ (by decide),
      dget_step_emp_name_ne t _ _ (by decide),
      dget_step_sign_ne t _ _ (by decide) (by decide),
      dget_step_emails_ne t _ _ (by decide) (by decide),
      dget_step_work_loc_ne t _ _ (by decide),
      dget_step_address_ne t _ _ (by decide),
      dget_step_comm_reg_ne t _ _ (by decide),
      dget_step_estab_no_ne t _ _ (by decide),
      dget_step_unified_no_ne t _ _ (by decide),
      dget_step_company_ne t _ _ (by decide),
      dget_step_contract_date3_ne t _ _ (by decide),
      dget_step_contract_date2_ne t _ _ (by decide),
      dget_step_contract_date1_ne t _ _ (by decide),
      dget_step_contract_no_ne t _ _ (by decide),
      dget_map_empty]

def spec_salary (t : String) : String :=
  if t = "" then "" else pyStrip (optStr (pySearch patBaseSalary t) (fun m => normalize_amount_token (grp m 1)) "")

theorem field_salary (t : String) : dget (parse_contract t) "الراتب الأساسي" = spec_salary t := by
  unfold parse_contract spec_salary
  by_cases ht : t = ""
  · simp only [if_pos ht, dget_map_empty]
  · simp only [if_neg ht]
    rw [dget_cleanup_mem _ _ (by decide),
      dget_step_compensation_ne t _ _ (by decide),
      dget_step_leave_ne t _ _ (by decide),
      dget_step_housing_ne t _ _ (by decide),
      dget_step_salary_self,
      dget_step_overtime_ne t _ _ (by decide),
      dget_step_workhours_ne t _ _ (by decide),
      dget_step_workdays_ne t _ _ (by decide),
      dget_step_trial_ne t _ _ (by decide),
      dget_step_joining_ne t _ _ (by decide),
      dget_step_start_end_ne t _ _ (by decide) (by decide),
      dget_step_duration_ne t _ _ (by decide),
      dget_step_mobile_ne t _ _ (by decide),
      dget_step_bank_ne t _ _ (by decide),
      dget_step_iban_ne t _ _ (by decide),
      dget_step_specialty_ne t _ _ (by decide),
      dget_step_education_ne t _ _ (by decide),
      dget_step_marital_ne t _ _ (by decide),
      dget_step_religion_ne t _ _ (by decide),
      dget_step_gender_ne t _ _ (by decide),
      dget_step_id_expiry_ne t _ _ (by decide),
      dget_step_id_type_ne t _ _ (by decide),
      dget_step_id_no_ne t _ _ (by decide),
      dget_step_birth_ne t _ _ (by decide),
      dget_step_nationality_ne t _ _ (by decide),
      dget_step_emp_no_ne t _ _ (by decide),
      dget_step_profession_ne t _ _ (by decide),
      dget_step_emp_name_ne t _ _ (by decide),
      dget_step_sign_ne t _ _ (by decide) (by decide),
      dget_step_emails_ne t _ _ (by decide) (by decide),
      dget_step_work_loc_ne t _ _ (by decide),
      dget_step_address_ne t _ _ (by decide),
      dget_step_comm_reg_ne t _ _ (by decide),
      dget_step_estab_no_ne t _ _ (by decide),
      dget_step_unified_no_ne t _ _ (by decide),
      dget_step_company_ne t _ _ (by decide),
      dget_step_contract_date3_ne t _ _ (by decide),
      dget_step_contract_date2_ne t _ _ (by decide),
      dget_step_contract_date1_ne t _ _ (by decide),
      dget_step_contract_no_ne t _ _ (by decide),
      dget_map_empty]

def spec_housing (t : String) : String :=
  if t = "" then "" else pyStrip (optStr (pySearch patHousing t) (fun m => normalize_amount_token (grp m 1)) "")

theorem field_housing (t : String) : dget (parse_contract t) "بدل السكن" = spec_housing t := by
  unfold parse_contract spec_housing
  by_cases ht : t = ""
  · simp only [if_pos ht, dget_map_empty]
  · simp only [if_neg ht]
    rw [dget_cleanup_mem _ _ (by decide),
      dget_step_compensation_ne t _ _ (by decide),
      dget_step_leave_ne t _ _ (by decide),
      dget_step_housing_self,
      dget_step_salary_ne t _ _ (by decide),
      dget_step_overtime_ne t _ _ (by decide),
      dget_step_workhours_ne t _ _ (by decide),
      dget_step_workdays_ne t _ _ (by decide),
      dget_step_trial_ne t _ _ (by decide),
      dget_step_joining_ne t _ _ (by decide),
      dget_step_start_end_ne t _ _ (by decide) (by decide),
      dget_step_duration_ne t _ _ (by decide),
      dget_step_mobile_ne t _ _ (by decide),
      dget_step_bank_ne t _ _ (by decide),
      dget_step_iban_ne t _ _ (by decide),
      dget_step_specialty_ne t _ _ (by decide),
      dget_step_education_ne t _ _ (by decide),
      dget_step_marital_ne t _ _ (by decide),
      dget_step_religion_ne t _ _ (by decide),
      dget_step_gender_ne t _ _ (by decide),
      dget_step_id_expiry_ne t _ _ (by decide),
      dget_step_id_type_ne t _ _ (by decide),
      dget_step_id_no_ne t _ _ (by decide),
      dget_step_birth_ne t _ _ (by decide),
      dget_step_nationality_ne t _ _ (by decide),
      dget_step_emp_no_ne t _ _ (by decide),
      dget_step_profession_ne t _ _ (by decide),
      dget_step_emp_name_ne t _ _ (by decide),
      dget_step_sign_ne t _ _ (by decide) (by decide),
      dget_step_emails_ne t _ _ (by decide) (by decide),
      dget_step_work_loc_ne t _ _ (by decide),
      dget_step_address_ne t _ _ (by decide),
      dget_step_comm_reg_ne t _ _ (by decide),
      dget_step_estab_no_ne t _ _ (by decide),
      dget_step_unified_no_ne t _ _ (by decide),
      dget_step_company_ne t _ _ (by decide),
      dget_step_contract_date3_ne t _ _ (by decide),
      dget_step_contract_date2_ne t _ _ (by decide),
      dget_step_contract_date1_ne t _ _ (by decide),
      dget_step_contract_no_ne t _ _ (by decide),
      dget_map_empty]

def spec_leave (t : String) : String :=
  if t = "" then "" else pyStrip (optStr (pySearch patLeave t) (fun m => digits_only (if (grp m 1).data.length = 2 then normalize_reversed_short_number (grp m 1) else grp m 1)) "")

theorem field_leave (t : String) : dget (parse_contract t) "الإجازة السنوية" = spec_leave t := by
  unfold parse_contract spec_leave
  by_cases ht : t = ""
  · simp only [if_pos ht, dget_map_empty]
  · simp only [if_neg ht]
    rw [dget_cleanup_mem _ _ (by decide),
      dget_step_compensation_ne t _ _ (by decide),
      dget_step_leave_self,
      dget_step_housing_ne t _ _ (by decide),
      dget_step_salary_ne t _ _ (by decide),
      dget_step_overtime_ne t _ _ (by decide),
      dget_step_workhours_ne t _ _ (by decide),
      dget_step_workdays_ne t _ _ (by decide),
      dget_step_trial_ne t _ _ (by decide),
      dget_step_joining_ne t _ _ (by decide),
      dget_step_start_end_ne t _ _ (by decide) (by decide),
      dget_step_duration_ne t _ _ (by decide),
      dget_step_mobile_ne t _ _ (by decide),
      dget_step_bank_ne t _ _ (by decide),
      dget_step_iban_ne t _ _ (by decide),
      dget_step_specialty_ne t _ _ (by decide),
      dget_step_education_ne t _ _ (by decide),
      dget_step_marital_ne t _ _ (by decide),
      dget_step_religion_ne t _ _ (by decide),
      dget_step_gender_ne t _ _ (by decide),
      dget_step_id_expiry_ne t _ _ (by decide),
      dget_step_id_type_ne t _ _ (by decide),
      dget_step_id_no_ne t _ _ (by decide),
      dget_step_birth_ne t _ _ (by decide),
      dget_step_nationality_ne t _ _ (by decide),
      dget_step_emp_no_ne t _ _ (by decide),
      dget_step_profession_ne t _ _ (by decide),
      dget_step_emp_name_ne t _ _ (by decide),
      dget_step_sign_ne t _ _ (by decide) (by decide),
      dget_step_emails_ne t _ _ (by decide) (by decide),
      dget_step_work_loc_ne t _ _ (by decide),
      dget_step_address_ne t _ _ (by decide),
      dget_step_comm_reg_ne t _ _ (by decide),
      dget_step_estab_no_ne t _ _ (by decide),
      dget_step_unified_no_ne t _ _ (by decide),
      dget_step_company_ne t _ _ (by decide),
      dget_step_contract_date3_ne t _ _ (by decide),
      dget_step_contract_date2_ne t _ _ (by decide),
      dget_step_contract_date1_ne t _ _ (by decide),
      dget_step_contract_no_ne t _ _ (by decide),
      dget_map_empty]

def spec_compensation (t : String) : String :=
  if t = "" then "" else pyStrip (optStr (pySearch patCompensation t) (fun m => normalize_amount_token (grp m 1)) "")

theorem field_compensation (t : String) : dget (parse_contract t) "التعويض عند الفسخ بدون سبب" = spec_compensation t := by
  unfold parse_contract spec_compensation
  by_cases ht : t = ""
  · simp only [if_pos ht, dget_map_empty]
  · simp only [if_neg ht]
    rw [dget_cleanup_mem _ _ (by decide),
      dget_step_compensation_self,
      dget_step_leave_ne t _ _ (by decide),
      dget_step_housing_ne t _ _ (by decide),
      dget_step_salary_ne t _ _ (by decide),
      dget_step_overtime_ne t _ _ (by decide),
      dget_step_workhours_ne t _ _ (by decide),
      dget_step_workdays_ne t _ _ (by decide),
      dget_step_trial_ne t _ _ (by decide),
      dget_step_joining_ne t _ _ (by decide),
      dget_step_start_end_ne t _ _ (by decide) (by decide),
      dget_step_duration_ne t _ _ (by decide),
      dget_step_mobile_ne t _ _ (by decide),
      dget_step_bank_ne t _ _ (by decide),
      dget_step_iban_ne t _ _ (by decide),
      dget_step_specialty_ne t _ _ (by decide),
      dget_step_education_ne t _ _ (by decide),
      dget_step_marital_ne t _ _ (by decide),
      dget_step_religion_ne t _ _ (by decide),
      dget_step_gender_ne t _ _ (by decide),
      dget_step_id_expiry_ne t _ _ (by decide),
      dget_step_id_type_ne t _ _ (by decide),
      dget_step_id_no_ne t _ _ (by decide),
      dget_step_birth_ne t _ _ (by decide),
      dget_step_nationality_ne t _ _ (by decide),
      dget_step_emp_no_ne t _ _ (by decide),
      dget_step_profession_ne t _ _ (by decide),
      dget_step_emp_name_ne t _ _ (by decide),
      dget_step_sign_ne t _ _ (by decide) (by decide),
      dget_step_emails_ne t _ _ (by decide) (by decide),
      dget_step_work_loc_ne t _ _ (by decide),
      dget_step_address_ne t _ _ (by decide),
      dget_step_comm_reg_ne t _ _ (by decide),
      dget_step_estab_no_ne t _ _ (by decide),
      dget_step_unified_no_ne t _ _ (by decide),
      dget_step_company_ne t _ _ (by decide),
      dget_step_contract_date3_ne t _ _ (by decide),
      dget_step_contract_date2_ne t _ _ (by decide),
      dget_step_contract_date1_ne t _ _ (by decide),
      dget_step_contract_no_ne t _ _ (by decide),
      dget_map_empty]

/-- The per-field extraction function: for each schema field, the value the
parser computes for it, as a function of the input text alone.  Each branch
mirrors exactly one independent block of `parse_contract`. -/
def fieldSpec (h : String) (t : String) : String :=
  match h with
  | "رقم العقد" => spec_contract_no t
  | "تاريخ العقد" => spec_contract_date t
  | "شركة/مؤسسة" => spec_company t
  | "الرقم الوطني الموحد" => spec_unified_no t
  | "رقم المنشأة" => spec_estab_no t
  | "السجل التجاري" => spec_comm_reg t
  | "عنوان الشركة" => spec_address t
  | "مكان العمل" => spec_work_loc t
  | "بريد الشركة" => spec_company_email t
  | "المسؤول الموقع" => spec_sign_name t
  | "الصفة" => spec_sign_sifa t
  | "اسم الموظف" => spec_emp_name t
  | "رقم الهوية" => spec_id_no t
  | "نوع الهوية" => spec_id_type t
  | "تاريخ الميلاد" => spec_birth t
  | "تاريخ انتهاء الهوية" => spec_id_expiry t
  | "الجنسية" => spec_nationality t
  | "الجنس" => spec_gender t
  | "الديانة" => spec_religion t
  | "الحالة الاجتماعية" => spec_marital t
  | "المؤهل العلمي" => spec_education t
  | "التخصص" => spec_specialty t
  | "المهنة" => spec_profession t
  | "الرقم الوظيفي" => spec_emp_no t
  | "رقم الآيبان" => spec_iban t
  | "اسم البنك" => spec_bank t
  | "بريد الموظف" => spec_employee_email t
  | "رقم الجوال" => spec_mobile t
  | "بدء العقد" => spec_start t
  | "انتهاء العقد" => spec_endd t
  | "تاريخ المباشرة الفعلية" => spec_joining t
  | "مدة العقد" => spec_duration t
  | "فترة التجربة" => spec_trial t
  | "أيام العمل الأسبوعية" => spec_workdays t
  | "ساعات العمل اليومية" => spec_workhours t
  | "الراتب الأساسي" => spec_salary t
  | "بدل السكن" => spec_housing t
  | "الإجازة السنوية" => spec_leave t
  | "أجر الساعة الإضافية" => spec_overtime t
  | "التعويض عند الفسخ بدون سبب" => spec_compensation t
  | _ => ""

/-- C1: for every input text (the empty text included) the parsed record has
exactly the 40 schema field names of HEADERS as its key set, in schema
order; every value is a string; and each field holds exactly the value of
its own extraction block, a function of the text alone — so a failed lookup
yields the empty string for that field only and cannot affect any other
field.  (The embedding is total, which reflects that the Python function
returns normally on every input.) -/
theorem C1_parse_contract_total_schema (t : String) :
    ((parse_contract t).map Prod.fst = HEADERS) ∧
    (∀ h : String, dget (parse_contract t) h = if h ∈ HEADERS then fieldSpec h t else "") := by
  refine ⟨parse_contract_keys t, fun h => ?_⟩
  by_cases hm : h ∈ HEADERS
  · rw [if_pos hm]
    simp only [HEADERS, List.mem_cons, List.not_mem_nil, or_false] at hm
    rcases hm with rfl | rfl | rfl | rfl | rfl | rfl | rfl | rfl | rfl | rfl | rfl | rfl | rfl | rfl | rfl | rfl | rfl | rfl | rfl | rfl | rfl | rfl | rfl | rfl | rfl | rfl | rfl | rfl | rfl | rfl | rfl | rfl | rfl | rfl | rfl | rfl | rfl | rfl | rfl | rfl
    · exact field_contract_no t
    · exact field_contract_date t
    · exact field_company t
    · exact field_unified_no t
    · exact field_estab_no t
    · exact field_comm_reg t
    · exact field_address t
    · exact field_work_loc t
    · exact field_company_email t
    · exact field_sign_name t
    · exact field_sign_sifa t
    · exact field_emp_name t
    · exact field_id_no t
    · exact field_id_type t
    · exact field_birth t
    · exact field_id_expiry t
    · exact field_nationality t
    · exact field_gender t
    · exact field_religion t
    · exact field_marital t
    · exact field_education t
    · exact field_specialty t
    · exact field_profession t
    · exact field_emp_no t
    · exact field_iban t
    · exact field_bank t
    · exact field_employee_email t
    · exact field_mobile t
    · exact field_start t
    · exact field_endd t
    · exact field_joining t
    · exact field_duration t
    · exact field_trial t
    · exact field_workdays t
    · exact field_workhours t
    · exact field_salary t
    · exact field_housing t
    · exact field_leave t
    · exact field_overtime t
    · exact field_compensation t
  · rw [if_neg hm]
    exact dget_not_mem (by rw [parse_contract_keys t]; exact hm)


/-! ## Quality-scorer lemmas and C10 -/

theorem quality_fold (row : Row) (ks : List String) (n : Nat) (ms : List String) :
    ks.foldl
      (fun (acc : Nat × List String) h =>
        if pyStrip (dget row h) ≠ "" then (acc.1 + 1, acc.2) else (acc.1, acc.2 ++ [h]))
      (n, ms)
      = (n + (ks.filter (fun h => pyStrip (dget row h) ≠ "")).length,
         ms ++ ks.filter (fun h => pyStrip (dget row h) = "")) := by
  induction ks generalizing n ms with
  | nil => simp
  | cons k ks ih =>
    simp only [List.foldl_cons]
    by_cases hc : pyStrip (dget row k) ≠ ""
    · rw [if_pos hc, ih,
        List.filter_cons_of_pos (by simpa using hc),
        List.filter_cons_of_neg (by simpa using hc)]
      refine Prod.ext ?_ rfl
      simp only [List.length_cons]
      omega
    · rw [if_neg hc, ih,
        List.filter_cons_of_neg (by simpa using hc),
        List.filter_cons_of_pos (by simpa using not_not.mp hc)]
      refine Prod.ext rfl ?_
      simp

theorem pyRound1_exact (f : Nat) : pyRound1 ((f : ℚ) / 40 * 100) = (f : ℚ) * 5 / 2 := by
  have h1 : ((f : ℚ) / 40 * 100) * 10 = ((25 * f : ℤ) : ℚ) := by push_cast; ring
  simp only [pyRound1]
  rw [h1, Int.floor_intCast, sub_self, if_pos (by norm_num : (0 : ℚ) < 1 / 2)]
  push_cast
  ring

/-- The closed form of the quality report. -/
theorem calc_quality_eq (row : Row) :
    calc_quality row
      = ((HEADERS.filter (fun h => pyStrip (dget row h) ≠ "")).length, 40,
         pyRound1 (((HEADERS.filter (fun h => pyStrip (dget row h) ≠ "")).length : ℚ) / 40 * 100),
         HEADERS.filter (fun h => pyStrip (dget row h) = "")) := by
  unfold calc_quality
  rw [quality_fold]
  have hlen : HEADERS.length = 40 := by rfl
  simp only [hlen, List.nil_append, Nat.zero_add]
  norm_num

theorem quality_len (row : Row) (ks : List String) :
    (ks.filter (fun h => pyStrip (dget row h) ≠ "")).length
      + (ks.filter (fun h => pyStrip (dget row h) = "")).length = ks.length := by
  induction ks with
  | nil => rfl
  | cons k ks ih =>
    by_cases hc : pyStrip (dget row k) = ""
    · rw [List.filter_cons_of_neg (by simpa using hc), List.filter_cons_of_pos (by simpa using hc)]
      simp only [List.length_cons]
      omega
    · rw [List.filter_cons_of_pos (by simpa using hc), List.filter_cons_of_neg (by simpa using hc)]
      simp only [List.length_cons]
      omega

/-- C10: the quality report has total always the schema size 40, filled the
number of schema fields with nonblank trimmed value, percent equal to
round of filled over total times one hundred at one decimal (here exactly
filled times five halves), and missing exactly the blank fields in schema
order, with filled plus the number of missing equal to 40; a record filling
the first 14 of the 40 fields scores filled 14, percent 35 and 26 missing
entries. -/
theorem C10_calc_quality_report (row : Row) :
    (calc_quality row).2.1 = 40 ∧
    (calc_quality row).1 = (HEADERS.filter (fun h => pyStrip (dget row h) ≠ "")).length ∧
    (calc_quality row).2.2.2 = HEADERS.filter (fun h => pyStrip (dget row h) = "") ∧
    (calc_quality row).2.2.1
      = pyRound1 (((calc_quality row).1 : ℚ) / (((calc_quality row).2.1 : Nat) : ℚ) * 100) ∧
    (calc_quality row).2.2.1 = ((calc_quality row).1 : ℚ) * 5 / 2 ∧
    (calc_quality row).1 + (calc_quality row).2.2.2.length = 40 ∧
    calc_quality ((HEADERS.take 14).map (fun h => (h, "x"))) = (14, 40, 35, HEADERS.drop 14) ∧
    (HEADERS.drop 14).length = 26 := by
  rw [calc_quality_eq]
  refine ⟨rfl, rfl, rfl, by norm_num, ?_, ?_, ?_, by decide⟩
  · exact pyRound1_exact _
  · exact quality_len row HEADERS
  · rw [calc_quality_eq]
    have h1 : (HEADERS.filter
        (fun h => pyStrip (dget ((HEADERS.take 14).map (fun h => (h, "x"))) h) ≠ "")).length
        = 14 := by decide
    have h2 : HEADERS.filter
        (fun h => pyStrip (dget ((HEADERS.take 14).map (fun h => (h, "x"))) h) = "")
        = HEADERS.drop 14 := by decide
    rw [h1, h2, pyRound1_exact]
    norm_num


/-! ## Merge lemmas and C9 -/

theorem mergeFold_preserve (ai : List (String × String)) (k : String) :
    ∀ (r : Row) (n : Nat), pyStrip (dget r k) ≠ "" →
      dget ((ai.foldl (mergeStep true) (r, n)).1) k = dget r k := by
  induction ai with
  | nil => intro r n _; rfl
  | cons kv rest ih =>
    intro r n h
    obtain ⟨k1, v1⟩ := kv
    simp only [List.foldl_cons, mergeStep]
    by_cases h1 : v1 = ""
    · rw [if_pos h1]; exact ih r n h
    · rw [if_neg h1]
      by_cases h2 : k1 = k
      · subst h2
        rw [if_pos ⟨trivial, h⟩]
        exact ih r n h
      · by_cases h3 : pyStrip (dget r k1) ≠ ""
        · rw [if_pos ⟨trivial, h3⟩]; exact ih r n h
        · rw [if_neg (by simp [h3])]
          have hd : dget (dset r k1 v1) k = dget r k := dget_dset_ne _ _ h2
          have h4 : pyStrip (dget (dset r k1 v1) k) ≠ "" := by rw [hd]; exact h
          rw [ih _ _ h4, hd]

theorem mergeFold_frame (ai : List (String × String)) (k : String) (b : Bool) :
    ∀ (r : Row) (n : Nat), k ∉ ai.map Prod.fst →
      dget ((ai.foldl (mergeStep b) (r, n)).1) k = dget r k := by
  induction ai with
  | nil => intro r n _; rfl
  | cons kv rest ih =>
    intro r n h
    obtain ⟨k1, v1⟩ := kv
    simp only [List.map_cons, List.mem_cons] at h
    push_neg at h
    simp only [List.foldl_cons, mergeStep]
    split_ifs
    · exact ih r n h.2
    · exact ih r n h.2
    · rw [ih _ _ h.2, dget_dset_ne _ _ (fun he => h.1 he.symm)]

theorem mergeFold_writes (ai : List (String × String)) (k : String) :
    ∀ (r : Row) (n : Nat),
      dget ((ai.foldl (mergeStep true) (r, n)).1) k = dget r k ∨
      (pyStrip (dget r k) = "" ∧
       ∃ v, (k, v) ∈ ai ∧ v ≠ "" ∧ dget ((ai.foldl (mergeStep true) (r, n)).1) k = v) := by
  induction ai with
  | nil => intro r n; left; rfl
  | cons kv rest ih =>
    intro r n
    obtain ⟨k1, v1⟩ := kv
    simp only [List.foldl_cons, mergeStep]
    by_cases h1 : v1 = ""
    · rw [if_pos h1]
      rcases ih r n with h | ⟨he, v, hv, hne, hval⟩
      · exact Or.inl h
      · exact Or.inr ⟨he, v, List.mem_cons_of_mem _ hv, hne, hval⟩
    · rw [if_neg h1]
      by_cases hcond : pyStrip (dget r k1) ≠ ""
      · rw [if_pos ⟨trivial, hcond⟩]
        rcases ih r n with h | ⟨he, v, hv, hne, hval⟩
        · exact Or.inl h
        · exact Or.inr ⟨he, v, List.mem_cons_of_mem _ hv, hne, hval⟩
      · rw [if_neg (by simp [hcond])]
        by_cases h2 : k1 = k
        · subst h2
          rcases ih (dset r k1 v1) (n + 1) with h | ⟨he, v, hv, hne, hval⟩
          · refine Or.inr ⟨not_not.mp hcond, v1, List.mem_cons_self _ _, h1, ?_⟩
            rw [h, dget_dset_self]
          · exact Or.inr ⟨not_not.mp hcond, v, List.mem_cons_of_mem _ hv, hne, hval⟩
        · rcases ih (dset r k1 v1) (n + 1) with h | ⟨he, v, hv, hne, hval⟩
          · left; rw [h, dget_dset_ne _ _ h2]
          · right
            rw [dget_dset_ne _ _ h2] at he
            exact ⟨he, v, List.mem_cons_of_mem _ hv, hne, hval⟩

/-- C9: under the default fill-empty-only policy, a fallback value is
written into a field only when the value is non-empty and the field's
current trimmed value is empty: a field already holding a nonblank value
keeps it whatever the fallback supplies, a field not named by the fallback
values is never touched (for either policy), and any changed field ends up
holding one of the non-empty fallback values for it, its previous trimmed
value having been empty. -/
theorem C9_merge_fill_empty_only :
    (∀ (row : Row) (ai : List (String × String)) (k : String),
       pyStrip (dget row k) ≠ "" →
       dget (merge_row_with_ai row ai).1 k = dget row k) ∧
    (∀ (row : Row) (ai : List (String × String)) (b : Bool) (k : String),
       k ∉ ai.map Prod.fst →
       dget (merge_row_with_ai row ai b).1 k = dget row k) ∧
    (∀ (row : Row) (ai : List (String × String)) (k : String),
       dget (merge_row_with_ai row ai).1 k = dget row k ∨
       (pyStrip (dget row k) = "" ∧
        ∃ v, (k, v) ∈ ai ∧ v ≠ "" ∧ dget (merge_row_with_ai row ai).1 k = v)) := by
  refine ⟨?_, ?_, ?_⟩
  · intro row ai k h
    exact mergeFold_preserve ai k row 0 h
  · intro row ai b k h
    exact mergeFold_frame ai k b row 0 h
  · intro row ai k
    exact mergeFold_writes ai k row 0

/-- Witness for C9: a record holding X in field F keeps X when the fallback
supplies Y for F, and an untouched field is unchanged. -/
theorem C9_merge_fill_empty_only_witness :
    dget (merge_row_with_ai [("F", "X")] [("F", "Y")]).1 "F" = "X" ∧
    dget (merge_row_with_ai [("F", "X")] [("G", "Y")] false).1 "F" = "X" := by
  constructor
  · rw [C9_merge_fill_empty_only.1 [("F", "X")] [("F", "Y")] "F" (by decide)]
    rfl
  · rw [C9_merge_fill_empty_only.2.1 [("F", "X")] [("G", "Y")] false "F" (by decide)]
    rfl

/-! ## Date lemmas, C6 and C5 -/

theorem digitVal_le (c : Char) : digitVal c ≤ 9 := by
  unfold digitVal
  split_ifs with h1 h2 h3
  · simp only [isDig09, Bool.and_eq_true, decide_eq_true_eq] at h1
    have hlo : '0'.toNat ≤ c.toNat := h1.1
    have hhi : c.toNat ≤ '9'.toNat := h1.2
    have e1 : '0'.toNat = 48 := rfl
    have e2 : '9'.toNat = 57 := rfl
    omega
  · simp only [Bool.and_eq_true, decide_eq_true_eq] at h2
    have hlo : '٠'.toNat ≤ c.toNat := h2.1
    have hhi : c.toNat ≤ '٩'.toNat := h2.2
    have e1 : '٠'.toNat = 1632 := rfl
    have e2 : '٩'.toNat = 1641 := rfl
    omega
  · simp only [Bool.and_eq_true, decide_eq_true_eq] at h3
    have hlo : '۰'.toNat ≤ c.toNat := h3.1
    have hhi : c.toNat ≤ '۹'.toNat := h3.2
    have e1 : '۰'.toNat = 1776 := rfl
    have e2 : '۹'.toNat = 1785 := rfl
    omega
  · omega

theorem pyIntL_fold_bound (l : List Char) : ∀ acc : Nat,
    l.foldl (fun a c => a * 10 + digitVal c) acc < (acc + 1) * 10 ^ l.length := by
  induction l with
  | nil => intro acc; simp
  | cons c cs ih =>
    intro acc
    simp only [List.foldl_cons, List.length_cons]
    calc cs.foldl (fun a c => a * 10 + digitVal c) (acc * 10 + digitVal c)
        < (acc * 10 + digitVal c + 1) * 10 ^ cs.length := ih _
      _ ≤ (acc + 1) * 10 ^ (cs.length + 1) := by
          have hd : digitVal c ≤ 9 := digitVal_le c
          ring_nf
          nlinarith [Nat.pos_pow_of_pos cs.length (by norm_num : 0 < 10)]

theorem pyIntL_lt (l : List Char) : pyIntL l < 10 ^ l.length := by
  have := pyIntL_fold_bound l 0
  simpa [pyIntL] using this

theorem matchDate3_len {s a b c : List Char} (h : matchDate3 s = some (a, b, c)) :
    a.length ≤ 4 ∧ c.length ≤ 4 := by
  simp only [matchDate3] at h
  split at h
  · exact absurd h (by simp)
  · rename_i hlen
    split at h
    · split at h
      · split at h
        · exact absurd h (by simp)
        · split at h
          · split at h
            · split at h
              · exact absurd h (by simp)
              · simp only [Option.some.injEq, Prod.mk.injEq] at h
                obtain ⟨ha, hb, hc⟩ := h
                subst ha
                subst hc
                constructor
                · push_neg at hlen
                  omega
                · simp [List.length_take]
            · exact absurd h (by simp)
          · exact absurd h (by simp)
      · exact absurd h (by simp)
    · exact absurd h (by simp)

theorem findDate3_len : ∀ {l a b c : List Char}, findDate3 l = some (a, b, c) →
    a.length ≤ 4 ∧ c.length ≤ 4 := by
  intro l
  induction l with
  | nil => intro a b c h; exact absurd h (by simp [findDate3])
  | cons x xs ih =>
    intro a b c h
    simp only [findDate3] at h
    cases hm : matchDate3 (x :: xs) with
    | some t =>
      rw [hm] at h
      simp only [Option.orElse] at h
      obtain ⟨a1, b1, c1⟩ := t
      simp only [Option.some.injEq, Prod.mk.injEq] at h
      obtain ⟨ha, hb, hc⟩ := h
      subst ha
      subst hc
      exact matchDate3_len hm
    | none =>
      rw [hm] at h
      simp only [Option.orElse] at h
      exact ih h



theorem pyIntL_le_9999 {l : List Char} (h : l.length ≤ 4) : pyIntL l ≤ 9999 := by
  have h1 := pyIntL_lt l
  have h2 : (10 : Nat) ^ l.length ≤ 10 ^ 4 := Nat.pow_le_pow_right (by norm_num) h
  omega

/-- C6: the date formatter returns the empty string unless the parsed month
lies in one to twelve and the parsed day in one to thirty-one; on success
the output is rendered as two-digit day, slash, two-digit month, slash,
four-digit year; the ISO token 2024-09-21 renders as 21/09/2024 and a token
with month thirteen yields the empty string. -/
theorem C6_format_date_validation :
    format_date_any "2024-09-21" = "21/09/2024" ∧
    format_date_any "2024-13-21" = "" ∧
    (∀ s : String, format_date_any s = "" ∨
      ∃ d m y : Nat, 1 ≤ m ∧ m ≤ 12 ∧ 1 ≤ d ∧ d ≤ 31 ∧ y ≤ 9999 ∧
        format_date_any s = padZ 2 d ++ "/" ++ padZ 2 m ++ "/" ++ padZ 4 y) := by
  refine ⟨by decide, by decide, ?_⟩
  intro s
  by_cases h0 : s = ""
  · left
    simp [format_date_any, h0]
  · simp only [format_date_any, if_neg h0]
    cases hf : findDate3 (pyStrip s).data with
    | none => left; rfl
    | some abc =>
      obtain ⟨a, b, c⟩ := abc
      have hlen := findDate3_len hf
      simp only
      by_cases hrev : c.length = 4 ∧ 2100 < pyIntL c
      · rw [if_pos hrev]
        by_cases ha : a.length = 4
        · rw [if_pos ha]
          by_cases hv : 1 ≤ pyIntL b ∧ pyIntL b ≤ 12 ∧ 1 ≤ pyIntL c.reverse ∧ pyIntL c.reverse ≤ 31
          · right
            exact ⟨pyIntL c.reverse, pyIntL b, pyIntL a, hv.1, hv.2.1, hv.2.2.1, hv.2.2.2,
              pyIntL_le_9999 hlen.1, by rw [if_pos hv]⟩
          · left; rw [if_neg hv]
        · rw [if_neg ha]
          by_cases hv : 1 ≤ pyIntL b ∧ pyIntL b ≤ 12 ∧ 1 ≤ pyIntL a ∧ pyIntL a ≤ 31
          · right
            refine ⟨pyIntL a, pyIntL b,
              (if pyIntL c.reverse < 100 then pyIntL c.reverse + 2000 else pyIntL c.reverse),
              hv.1, hv.2.1, hv.2.2.1, hv.2.2.2, ?_, by rw [if_pos hv]⟩
            have hc4 : c.reverse.length ≤ 4 := by
              rw [List.length_reverse]; exact hlen.2
            have hb := pyIntL_le_9999 hc4
            split_ifs with hy <;> omega
          · left; rw [if_neg hv]
      · rw [if_neg hrev]
        by_cases ha : a.length = 4
        · rw [if_pos ha]
          by_cases hv : 1 ≤ pyIntL b ∧ pyIntL b ≤ 12 ∧ 1 ≤ pyIntL c ∧ pyIntL c ≤ 31
          · right
            exact ⟨pyIntL c, pyIntL b, pyIntL a, hv.1, hv.2.1, hv.2.2.1, hv.2.2.2,
              pyIntL_le_9999 hlen.1, by rw [if_pos hv]⟩
          · left; rw [if_neg hv]
        · rw [if_neg ha]
          by_cases hv : 1 ≤ pyIntL b ∧ pyIntL b ≤ 12 ∧ 1 ≤ pyIntL a ∧ pyIntL a ≤ 31
          · right
            refine ⟨pyIntL a, pyIntL b,
              (if pyIntL c < 100 then pyIntL c + 2000 else pyIntL c),
              hv.1, hv.2.1, hv.2.2.1, hv.2.2.2, ?_, by rw [if_pos hv]⟩
            have hb := pyIntL_le_9999 hlen.2
            split_ifs with hy <;> omega
          · left; rw [if_neg hv]


/-- The interpretation tail of `format_date_any` after the year-repair
stage: disambiguate year-first from day-first by the length of the first
part, validate month and day, and render.  Used to state where the repair
feeds its result. -/
def dateAssemble (a b c : List Char) : String :=
  let dmy :=
    if a.length = 4 then (pyIntL c, pyIntL b, pyIntL a)
    else
      let y := pyIntL c
      (pyIntL a, pyIntL b, if y < 100 then y + 2000 else y)
  if 1 ≤ dmy.2.1 ∧ dmy.2.1 ≤ 12 ∧ 1 ≤ dmy.1 ∧ dmy.1 ≤ 31 then
    padZ 2 dmy.1 ++ "/" ++ padZ 2 dmy.2.1 ++ "/" ++ padZ 4 dmy.2.2
  else ""

/-- C5 counterexample: a four-digit year above 2100 in the FIRST (outer)
position is not repaired: the claim prescribes digit-reversal of the year
token wherever of the two outer positions it occupies, which at this input
would give the 20/12/2023 rendering, but the code reverses only the third
part and emits the implausible year unchanged. -/
theorem C5_counterexample :
    format_date_any "3202-12-20" = "20/12/3202" ∧
    ("20/12/3202" : String) ≠ "20/12/2023" := by
  constructor
  · decide
  · decide

/-- C5 amended: the reversed-year repair of `format_date_any` applies only
when the THIRD part of the matched token has four digits and parses above
2100, in which case the digit-reversed token feeds the normal
interpretation and validation tail; a year above 2100 in the first
position is emitted unrepaired. -/
theorem C5_year_repair_third_only :
    format_date_any "20-12-3202" = "20/12/2023" ∧
    format_date_any "3202-12-20" = "20/12/3202" ∧
    (∀ (s : String) (a b c : List Char),
      s ≠ "" →
      findDate3 (pyStrip s).data = some (a, b, c) →
      c.length = 4 → 2100 < pyIntL c →
      format_date_any s = dateAssemble a b c.reverse) ∧
    (∀ (s : String) (a b c : List Char),
      s ≠ "" →
      findDate3 (pyStrip s).data = some (a, b, c) →
      ¬ (c.length = 4 ∧ 2100 < pyIntL c) →
      format_date_any s = dateAssemble a b c) := by
  refine ⟨by decide, by decide, ?_, ?_⟩
  · intro s a b c h0 hf hc4 hy
    simp only [format_date_any, if_neg h0, hf]
    have hcc : (if c.length = 4 ∧ 2100 < pyIntL c then c.reverse else c) = c.reverse :=
      if_pos ⟨hc4, hy⟩
    rw [hcc]
    rfl
  · intro s a b c h0 hf hno
    simp only [format_date_any, if_neg h0, hf]
    have hcc : (if c.length = 4 ∧ 2100 < pyIntL c then c.reverse else c) = c :=
      if_neg hno
    rw [hcc]
    rfl

/-- Witness for C5: the repair conjunct applied at the concrete token
20-12-3202, and the no-repair conjunct at 3202-12-20. -/
theorem C5_year_repair_third_only_witness :
    format_date_any "20-12-3202" = dateAssemble "20".data "12".data ("3202".data.reverse) ∧
    format_date_any "3202-12-20" = dateAssemble "3202".data "12".data "20".data := by
  constructor
  · exact C5_year_repair_third_only.2.2.1 "20-12-3202" "20".data "12".data "3202".data
      (by decide) (by decide) (by decide) (by decide)
  · exact C5_year_repair_third_only.2.2.2 "3202-12-20" "3202".data "12".data "20".data
      (by decide) (by decide) (by decide)


/-! ## Amount lemmas and C7 -/

theorem clean_amount_digits (s : String) : (clean_amount_to_int s).data.all isDig = true := by
  unfold clean_amount_to_int
  by_cases h0 : s = ""
  · simp [h0]
  · rw [if_neg h0]
    generalize s.data = l
    induction l with
    | nil => simp
    | cons x xs ih =>
      by_cases hx : isDig x
      · rw [List.dropWhile_cons_of_neg (by simp [hx])]
        rw [List.all_eq_true]
        intro c hc
        rcases List.mem_filter.mp hc with ⟨hmem, hne⟩
        rcases List.mem_cons.mp hmem with rfl | hmem2
        · exact hx
        · have hp := List.mem_takeWhile_imp hmem2
          simp only [Bool.or_eq_true] at hp
          rcases hp with hp | hp
          · exact hp
          · simp only [Bool.not_eq_true'] at hne
            rw [beq_iff_eq] at hp
            rw [beq_eq_false_iff_ne] at hne
            exact absurd hp hne
      · rw [List.dropWhile_cons_of_pos (by simp [hx])]
        exact ih

/-- C7: the amount normalizer reduces a numeric token to an integer digit
string, the grouped decimal 2,000.00 giving 2000; a token marked by the
transposed-amount prefix (a leading zero-zero-dot segment) is reversed
wholesale before the normal strip-and-truncate step, so the transposed form
of 9,720.00 gives 9720; and every output consists of digits only. -/
theorem C7_normalize_amount :
    normalize_amount_token "2,000.00" = "2000" ∧
    normalize_amount_token "00.027,9" = "9720" ∧
    (∀ t : String, t ≠ "" → pyStartsWith (pyStrip t) "00." = true →
       normalize_amount_token t = clean_amount_to_int (strRev (pyStrip t))) ∧
    (∀ t : String, t ≠ "" → pyStartsWith (pyStrip t) "00." = false →
       normalize_amount_token t = clean_amount_to_int (pyStrip t)) ∧
    (∀ s : String, (clean_amount_to_int s).data.all isDig = true) := by
  refine ⟨by decide, by decide, ?_, ?_, clean_amount_digits⟩
  · intro t ht hs
    simp only [normalize_amount_token, if_neg ht]
    by_cases hc : containsSub (pyStrip t) "," = true
    · rw [if_pos ⟨hs, hc⟩]
    · rw [if_neg (by simp [hc]), if_pos ⟨hs, (by simp [hc])⟩]
  · intro t ht hs
    simp only [normalize_amount_token, if_neg ht]
    rw [if_neg (by simp [hs]), if_neg (by simp [hs])]

/-- Witness for C7: the reversal conjunct applied at the transposed token
and the plain conjunct at the grouped decimal. -/
theorem C7_normalize_amount_witness :
    normalize_amount_token "00.027,9" = clean_amount_to_int (strRev (pyStrip "00.027,9")) ∧
    normalize_amount_token "2,000.00" = clean_amount_to_int (pyStrip "2,000.00") := by
  constructor
  · exact C7_normalize_amount.2.2.1 "00.027,9" (by decide) (by decide)
  · exact C7_normalize_amount.2.2.2.1 "2,000.00" (by decide) (by decide)

/-! ## Mobile lemmas and C8 -/

/-- C8: mobile-number canonicalization.  The two concrete examples of the
specification; when no digit run equals or starts with 966, the output is
the concatenation of all digit runs with a leading 9660 rewritten to 966;
and when such a run exists and a local number is found (a ten-digit run
starting 05, or a nine-digit run starting 5 prefixed by a zero), the output
is 966 followed by the local number with its leading zero dropped. -/
theorem C8_mobile_normalization :
    normalize_mobile_from_line "966 0505606061" = "966505606061" ∧
    normalize_mobile_from_line "9660550266101" = "966550266101" ∧
    (∀ line : String, line ≠ "" → digit_runs line ≠ [] →
      (digit_runs line).any (fun g => g == "966" || pyStartsWith g "966") = false →
      normalize_mobile_from_line line =
        (if pyStartsWith (String.join (digit_runs line)) "9660" = true then
          "966" ++ pyDrop (String.join (digit_runs line)) 4
        else String.join (digit_runs line))) ∧
    (∀ line : String, line ≠ "" →
      (digit_runs line).any (fun g => g == "966" || pyStartsWith g "966") = true →
      findLocal (digit_runs line) ≠ "" →
      normalize_mobile_from_line line = "966" ++ pyDrop (findLocal (digit_runs line)) 1) := by
  refine ⟨by decide, by decide, ?_, ?_⟩
  · intro line h0 hne hno
    simp only [normalize_mobile_from_line, if_neg h0, if_neg hne]
    rw [if_neg (by simp [hno])]
  · intro line h0 hyes hloc
    have hne : digit_runs line ≠ [] := by
      intro he
      rw [he] at hyes
      simp at hyes
    simp only [normalize_mobile_from_line, if_neg h0, if_neg hne]
    rw [if_pos ⟨hyes, hloc⟩]

/-- Witness for C8: the country-code conjunct at the first example line and
the fallback conjunct at a line with no 966 run. -/
theorem C8_mobile_normalization_witness :
    normalize_mobile_from_line "966 0505606061"
      = "966" ++ pyDrop (findLocal (digit_runs "966 0505606061")) 1 ∧
    normalize_mobile_from_line "0123 456"
      = (if pyStartsWith (String.join (digit_runs "0123 456")) "9660" = true then
          "966" ++ pyDrop (String.join (digit_runs "0123 456")) 4
        else String.join (digit_runs "0123 456")) := by
  constructor
  · exact C8_mobile_normalization.2.2.2 "966 0505606061" (by decide) (by decide) (by decide)
  · exact C8_mobile_normalization.2.2.1 "0123 456" (by decide) (by decide) (by decide)

/-! ## Strip lemmas for the normalizer claims -/

theorem dropWhile_len_le (p : Char → Bool) (l : List Char) :
    (l.dropWhile p).length ≤ l.length := by
  induction l with
  | nil => simp
  | cons x xs ih =>
    by_cases h : p x
    · rw [List.dropWhile_cons_of_pos h]
      exact le_trans ih (by simp)
    · rw [List.dropWhile_cons_of_neg h]

theorem pyStripL_len_le (x : List Char) : (pyStripL x).length ≤ x.length := by
  unfold pyStripL
  calc ((x.dropWhile pySpace).reverse.dropWhile pySpace).reverse.length
      = ((x.dropWhile pySpace).reverse.dropWhile pySpace).length := by
        rw [List.length_reverse]
    _ ≤ (x.dropWhile pySpace).reverse.length := dropWhile_len_le _ _
    _ = (x.dropWhile pySpace).length := by rw [List.length_reverse]
    _ ≤ x.length := dropWhile_len_le _ _

theorem strip_id_parts {x : List Char} (h : pyStripL x = x) (hne : x ≠ []) :
    (∃ c t, x = c :: t ∧ pySpace c = false) ∧
    (∃ c t, x.reverse = c :: t ∧ pySpace c = false) := by
  obtain ⟨c, t, hct⟩ := List.exists_cons_of_ne_nil hne
  have hrne : x.reverse ≠ [] := by simp [hne]
  obtain ⟨c2, t2, hct2⟩ := List.exists_cons_of_ne_nil hrne
  have hc : pySpace c = false := by
    by_contra hcs
    rw [Bool.not_eq_false] at hcs
    have h1 : (x.dropWhile pySpace).length ≤ t.length := by
      rw [hct, List.dropWhile_cons_of_pos hcs]
      exact dropWhile_len_le _ _
    have h2 : (pyStripL x).length ≤ (x.dropWhile pySpace).length := by
      unfold pyStripL
      rw [List.length_reverse]
      calc ((x.dropWhile pySpace).reverse.dropWhile pySpace).length
          ≤ (x.dropWhile pySpace).reverse.length := dropWhile_len_le _ _
        _ = (x.dropWhile pySpace).length := by rw [List.length_reverse]
    rw [h] at h2
    have hxlen : x.length = t.length + 1 := by rw [hct]; simp
    omega
  have hdw : x.dropWhile pySpace = x := by
    rw [hct, List.dropWhile_cons_of_neg (by simp [hc])]
  have hc2 : pySpace c2 = false := by
    by_contra hcs
    rw [Bool.not_eq_false] at hcs
    have h1 : (pyStripL x).length ≤ t2.length := by
      unfold pyStripL
      rw [List.length_reverse, hdw, hct2, List.dropWhile_cons_of_pos hcs]
      exact dropWhile_len_le _ _
    rw [h] at h1
    have h3 : x.length = t2.length + 1 := by
      have : x.reverse.length = t2.length + 1 := by rw [hct2]; simp
      rw [List.length_reverse] at this
      exact this
    omega
  exact ⟨⟨c, t, hct, hc⟩, ⟨c2, t2, hct2, hc2⟩⟩

theorem strip_id_of_parts {x : List Char}
    (h1 : ∃ c t, x = c :: t ∧ pySpace c = false)
    (h2 : ∃ c t, x.reverse = c :: t ∧ pySpace c = false) :
    pyStripL x = x := by
  obtain ⟨c, t, hct, hc⟩ := h1
  obtain ⟨c2, t2, hct2, hc2⟩ := h2
  unfold pyStripL
  have hdw : x.dropWhile pySpace = x := by
    rw [hct, List.dropWhile_cons_of_neg (by simp [hc])]
  rw [hdw, hct2, List.dropWhile_cons_of_neg (by simp [hc2]), ← hct2, List.reverse_reverse]

theorem pyStripL_reverse_id {x : List Char} (h : pyStripL x = x) :
    pyStripL x.reverse = x.reverse := by
  by_cases hne : x = []
  · subst hne
    rfl
  · obtain ⟨p1, p2⟩ := strip_id_parts h hne
    exact strip_id_of_parts p2 (by rw [List.reverse_reverse]; exact p1)

theorem pyStripL_concat {x y : List Char}
    (hx : pyStripL x = x) (hxne : x ≠ []) (hy : pyStripL y = y) (hyne : y ≠ []) :
    pyStripL (x ++ ':' :: ' ' :: y) = x ++ ':' :: ' ' :: y := by
  obtain ⟨⟨c, t, hct, hc⟩, _⟩ := strip_id_parts hx hxne
  obtain ⟨_, ⟨c2, t2, hct2, hc2⟩⟩ := strip_id_parts hy hyne
  apply strip_id_of_parts
  · exact ⟨c, t ++ ':' :: ' ' :: y, by rw [hct, List.cons_append], hc⟩
  · refine ⟨c2, t2 ++ [' ', ':'] ++ x.reverse, ?_, hc2⟩
    rw [List.reverse_append]
    have : (':' :: ' ' :: y).reverse = y.reverse ++ [' ', ':'] := by
      simp
    rw [this, hct2]
    simp

theorem colon_split_append : ∀ (x : List Char), ':' ∉ x → ∀ (y : List Char),
    (x ++ ':' :: y).takeWhile (fun c => c ≠ ':') = x ∧
    (x ++ ':' :: y).dropWhile (fun c => c ≠ ':') = ':' :: y := by
  intro x
  induction x with
  | nil =>
    intro _ y
    constructor
    · simp [List.takeWhile_cons]
    · simp [List.dropWhile_cons]
  | cons a as ih =>
    intro hx y
    have hane : a ≠ ':' := fun he => hx (by simp [he])
    have hxs : ':' ∉ as := fun hm => hx (List.mem_cons_of_mem _ hm)
    constructor
    · rw [List.cons_append, List.takeWhile_cons_of_pos (by simp [hane]), (ih hxs y).1]
    · rw [List.cons_append, List.dropWhile_cons_of_pos (by simp [hane]), (ih hxs y).2]

/-- The label re-reversal of a second normalization pass: a line already in
label-colon-value form, with an Arabic-only label (no Latin or at-sign,
fewer than three digits, no colon) and an Arabic-free stripped value, has
its label mirrored again by `smart_normalize_line`. -/
theorem smart_rereverse (l v : String)
    (hl : pyStrip l = l) (hv : pyStrip v = v) (hlne : l ≠ "") (hvne : v ≠ "")
    (hlc : hasColon l = false)
    (har : 0 < ar_count l) (hlat : lat_count l = 0) (hdig : dig_count l < 3)
    (hvar : ar_count v = 0) :
    smart_normalize_line (l ++ ": " ++ v) = strRev l ++ ": " ++ v := by
  have hld : l.data ≠ [] := fun he => hlne (String.ext (by rw [he]))
  have hvd : v.data ≠ [] := fun he => hvne (String.ext (by rw [he]))
  have hlL : pyStripL l.data = l.data := congrArg String.data hl
  have hvL : pyStripL v.data = v.data := congrArg String.data hv
  have hdata : (l ++ ": " ++ v).data = l.data ++ ':' :: ' ' :: v.data := by
    rw [String.data_append, String.data_append]
    simp [List.append_assoc]
  have hnotinl : ':' ∉ l.data := by
    intro hm
    have hcont : hasColon l = true := List.elem_eq_true_of_mem hm
    rw [hlc] at hcont
    exact absurd hcont (by simp)
  have hstripconcat : pyStrip (l ++ ": " ++ v) = l ++ ": " ++ v := by
    show String.mk (pyStripL (l ++ ": " ++ v).data) = l ++ ": " ++ v
    rw [hdata, pyStripL_concat hlL hld hvL hvd, ← hdata]
  have hne0 : (l ++ ": " ++ v) ≠ "" := by
    intro he
    rw [he] at hdata
    exact absurd hdata.symm (by simp)
  have hsw : pyStartsWith (l ++ ": " ++ v) ":" = false := by
    show List.isPrefixOf ":".data (l ++ ": " ++ v).data = false
    rw [hdata]
    obtain ⟨c, t, hct⟩ := List.exists_cons_of_ne_nil hld
    have hcne : (':' : Char) ≠ c := by
      intro he
      exact hnotinl (by rw [hct, ← he]; exact List.mem_cons_self _ _)
    rw [hct, List.cons_append]
    show List.isPrefixOf [':'] (c :: (t ++ ':' :: ' ' :: v.data)) = false
    simp [List.isPrefixOf, hcne]
  have hhc : hasColon (l ++ ": " ++ v) = true := by
    show (l ++ ": " ++ v).data.contains ':' = true
    rw [hdata]
    exact List.elem_eq_true_of_mem (by simp)
  have hsplit1 : (splitColon1 (l ++ ": " ++ v)).1 = l := by
    show String.mk ((l ++ ": " ++ v).data.takeWhile (fun c => c ≠ ':')) = l
    rw [hdata, (colon_split_append l.data hnotinl (' ' :: v.data)).1]
  have hsplit2 : (splitColon1 (l ++ ": " ++ v)).2 = String.mk (' ' :: v.data) := by
    show String.mk (((l ++ ": " ++ v).data.dropWhile (fun c => c ≠ ':')).drop 1)
        = String.mk (' ' :: v.data)
    rw [hdata, (colon_split_append l.data hnotinl (' ' :: v.data)).2]
    rfl
  have hright : pyStrip (String.mk (' ' :: v.data)) = v := by
    show String.mk (pyStripL (' ' :: v.data)) = v
    have hsp : pyStripL (' ' :: v.data) = pyStripL v.data := by
      unfold pyStripL
      rw [List.dropWhile_cons_of_pos (by decide)]
    rw [hsp, hvL]
  have hrevstrip : pyStrip (strRev l) = strRev l := by
    show String.mk (pyStripL l.data.reverse) = strRev l
    rw [pyStripL_reverse_id hlL]
    rfl
  have e1 : (if pyStartsWith (l ++ ": " ++ v) ":" = true ∧ countColon (l ++ ": " ++ v) = 1
      then pyStrip (pyDrop (l ++ ": " ++ v) 1) else (l ++ ": " ++ v)) = l ++ ": " ++ v :=
    if_neg (by simp [hsw])
  simp only [smart_normalize_line]
  rw [hstripconcat]
  rw [if_neg hne0]
  rw [e1]
  rw [if_neg (show ¬ ¬ (hasColon (l ++ ": " ++ v) = true) by simp [hhc])]
  rw [hsplit1, hsplit2, hl, hright]
  rw [if_neg (show ¬ (0 < ar_count v ∧ lat_count v = 0 ∧ dig_count v < 3) by simp [hvar])]
  rw [if_pos ⟨har, hlat, hdig⟩]
  rw [hrevstrip, hv]


/-! ## Single-line normalization lemmas -/

theorem splitlinesAux_cons_no_break (cur : List Char) (c : Char) (cs : List Char)
    (hc : isLineBreak c = false) :
    splitlinesAux cur (c :: cs) = splitlinesAux (c :: cur) cs := by
  have hcr : c ≠ '\r' := by
    intro he
    rw [he] at hc
    exact absurd hc (by decide)
  rcases cs with _ | ⟨c2, cs⟩
  · simp [splitlinesAux, hc]
  · by_cases h2 : c2 = '\n'
    · subst h2
      simp [splitlinesAux, hc, hcr]
    · simp [splitlinesAux, hc, hcr, h2]

theorem splitlinesAux_no_break :
    ∀ (l cur : List Char), (∀ c ∈ l, isLineBreak c = false) →
      splitlinesAux cur l = if cur.reverse ++ l = [] then [] else [cur.reverse ++ l] := by
  intro l
  induction l with
  | nil =>
    intro cur _
    simp [splitlinesAux]
  | cons c cs ih =>
    intro cur h
    have hc : isLineBreak c = false := h c (by simp)
    have hcs : ∀ c2 ∈ cs, isLineBreak c2 = false := fun c2 hm => h c2 (by simp [hm])
    rw [splitlinesAux_cons_no_break cur c cs hc, ih (c :: cur) hcs]
    have hne : cur.reverse ++ c :: cs ≠ [] := by simp
    rw [if_neg hne]
    have hne2 : (c :: cur).reverse ++ cs ≠ [] := by simp
    rw [if_neg hne2]
    simp

theorem pySplitlines_single (x : String)
    (hnb : ∀ c ∈ x.data, isLineBreak c = false) (hne : x ≠ "") :
    pySplitlines x = [x] := by
  unfold pySplitlines
  rw [splitlinesAux_no_break x.data [] hnb]
  have hd : x.data ≠ [] := fun he => hne (String.ext (by rw [he]))
  rw [List.reverse_nil, List.nil_append, if_neg hd]
  rfl

theorem strReplaceL_single_not_mem (m : Char) (rep : List Char) :
    ∀ (l : List Char) (fuel : Nat), l.length < fuel → m ∉ l →
      strReplaceL [m] rep fuel l = l := by
  intro l
  induction l with
  | nil =>
    intro fuel hf _
    cases fuel with
    | zero => omega
    | succ f => rfl
  | cons c cs ih =>
    intro fuel hf hm
    cases fuel with
    | zero => omega
    | succ f =>
      have hcm : (m == c) = false := by
        rw [beq_eq_false_iff_ne]
        intro he
        rw [he] at hm
        exact hm (List.mem_cons_self _ _)
      have hih := ih f (by simp at hf; omega) (fun hmm => hm (List.mem_cons_of_mem _ hmm))
      simp [strReplaceL, List.isPrefixOf, hcm, hih]

theorem strReplace_single_not_mem (s : String) (m : Char) (pat rep : String)
    (hp : pat.data = [m]) (h : m ∉ s.data) : strReplace s pat rep = s := by
  show String.mk (strReplaceL pat.data rep.data (s.data.length + 1) s.data) = s
  rw [hp, strReplaceL_single_not_mem m rep.data s.data (s.data.length + 1) (by omega) h]

theorem normalize_text_id (x : String)
    (h1 : '‏' ∉ x.data) (h2 : '‎' ∉ x.data) : normalize_text x = x := by
  unfold normalize_text nfkc
  rw [strReplace_single_not_mem x '‏' _ _ rfl h1]
  rw [strReplace_single_not_mem x '‎' _ _ rfl h2]

theorem normalize_single_line (x : String)
    (hnb : ∀ c ∈ x.data, isLineBreak c = false)
    (h1 : '‏' ∉ x.data) (h2 : '‎' ∉ x.data) (hne : x ≠ "")
    (hres : maybe_reverse_sentence (smart_normalize_line x) ≠ "") :
    normalize_contract_text x = maybe_reverse_sentence (smart_normalize_line x) := by
  unfold normalize_contract_text
  rw [pySplitlines_single x hnb hne]
  simp only [List.map_cons, List.map_nil]
  rw [normalize_text_id x h1 h2]
  rw [List.filter_cons_of_pos (by simpa using hres)]
  rfl


/-- A label-colon-value line with an Arabic-only stripped label and an
Arabic-free stripped value, free of line breaks and directional marks, is
mapped by the whole `normalize_contract_text` pipeline to the form with the
mirrored label. -/
theorem normalize_rereverse (l v : String)
    (hl : pyStrip l = l) (hv : pyStrip v = v) (hlne : l ≠ "") (hvne : v ≠ "")
    (hlc : hasColon l = false)
    (har : 0 < ar_count l) (hlat : lat_count l = 0) (hdig : dig_count l < 3)
    (hvar : ar_count v = 0)
    (hbl : ∀ c ∈ l.data, isLineBreak c = false)
    (hbv : ∀ c ∈ v.data, isLineBreak c = false)
    (hm1 : '‏' ∉ l.data) (hm2 : '‎' ∉ l.data)
    (hm3 : '‏' ∉ v.data) (hm4 : '‎' ∉ v.data) :
    normalize_contract_text (l ++ ": " ++ v) = strRev l ++ ": " ++ v := by
  have hld : l.data ≠ [] := fun he => hlne (String.ext (by rw [he]))
  have hvd : v.data ≠ [] := fun he => hvne (String.ext (by rw [he]))
  have hlL : pyStripL l.data = l.data := congrArg String.data hl
  have hvL : pyStripL v.data = v.data := congrArg String.data hv
  have hdata : (l ++ ": " ++ v).data = l.data ++ ':' :: ' ' :: v.data := by
    rw [String.data_append, String.data_append]
    simp [List.append_assoc]
  have hxnb : ∀ c ∈ (l ++ ": " ++ v).data, isLineBreak c = false := by
    intro c hc
    rw [hdata] at hc
    simp only [List.mem_append, List.mem_cons] at hc
    rcases hc with h | rfl | rfl | h
    · exact hbl c h
    · decide
    · decide
    · exact hbv c h
  have hxm1 : '‏' ∉ (l ++ ": " ++ v).data := by
    rw [hdata]
    simp only [List.mem_append, List.mem_cons]
    push_neg
    exact ⟨hm1, by decide, by decide, hm3⟩
  have hxm2 : '‎' ∉ (l ++ ": " ++ v).data := by
    rw [hdata]
    simp only [List.mem_append, List.mem_cons]
    push_neg
    exact ⟨hm2, by decide, by decide, hm4⟩
  have hxne : l ++ ": " ++ v ≠ "" := by
    intro he
    have h0 := hdata
    rw [he] at h0
    exact absurd h0.symm (by simp)
  have hsm := smart_rereverse l v hl hv hlne hvne hlc har hlat hdig hvar
  have hydata : (strRev l ++ ": " ++ v).data = l.data.reverse ++ ':' :: ' ' :: v.data := by
    rw [String.data_append, String.data_append]
    simp only [List.append_assoc]
    rfl
  have hystrip : pyStrip (strRev l ++ ": " ++ v) = strRev l ++ ": " ++ v := by
    show String.mk (pyStripL (strRev l ++ ": " ++ v).data) = strRev l ++ ": " ++ v
    rw [hydata, pyStripL_concat (pyStripL_reverse_id hlL) (by simp [hld]) hvL hvd, ← hydata]
  have hyc : hasColon (strRev l ++ ": " ++ v) = true := by
    show ((strRev l ++ ": " ++ v).data.contains ':') = true
    rw [hydata]
    exact List.elem_eq_true_of_mem (by simp)
  have hyne : strRev l ++ ": " ++ v ≠ "" := by
    intro he
    have h0 := hydata
    rw [he] at h0
    exact absurd h0.symm (by simp)
  have hmr : maybe_reverse_sentence (strRev l ++ ": " ++ v) = strRev l ++ ": " ++ v := by
    simp only [maybe_reverse_sentence]
    rw [hystrip, if_neg hyne, if_pos hyc]
  have hres : maybe_reverse_sentence (smart_normalize_line (l ++ ": " ++ v)) ≠ "" := by
    rw [hsm, hmr]
    exact hyne
  rw [normalize_single_line _ hxnb hxm1 hxm2 hxne hres, hsm, hmr]


/-- C2 counterexample: normalization is not idempotent.  The line with the
correctly-ordered Arabic-only label gets its label mirrored again by a
second pass, so running the normalizer on its own output changes it. -/
theorem C2_counterexample :
    normalize_contract_text (normalize_contract_text "اب: c")
      ≠ normalize_contract_text "اب: c" := by
  decide

/-- C2 amended: `normalize_contract_text` is not idempotent.  The mirrored
label detection keys off Arabic-present (no Latin, fewer than three digits)
alone, not off un-ordered labels, so a second pass re-reverses the label of
any line already in label-colon-value form whose label is Arabic-only and
whose value is Arabic-free: `smart_normalize_line` maps it to the form with
the mirrored label, and for a single such line free of line breaks and
directional marks the whole pipeline does the same, a further pass undoes it,
and the output differs from the input whenever the label is not a
palindrome.  Concretely, one pass sends the label-value line to its
label-mirrored form and a second pass sends it back. -/
theorem C2_not_idempotent :
    (∀ l v : String,
      pyStrip l = l → pyStrip v = v → l ≠ "" → v ≠ "" →
      hasColon l = false →
      0 < ar_count l → lat_count l = 0 → dig_count l < 3 →
      ar_count v = 0 →
      smart_normalize_line (l ++ ": " ++ v) = strRev l ++ ": " ++ v) ∧
    (∀ l v : String,
      pyStrip l = l → pyStrip v = v → l ≠ "" → v ≠ "" →
      hasColon l = false →
      0 < ar_count l → lat_count l = 0 → dig_count l < 3 →
      ar_count v = 0 →
      (∀ c ∈ l.data, isLineBreak c = false) →
      (∀ c ∈ v.data, isLineBreak c = false) →
      '‏' ∉ l.data → '‎' ∉ l.data → '‏' ∉ v.data → '‎' ∉ v.data →
      normalize_contract_text (l ++ ": " ++ v) = strRev l ++ ": " ++ v ∧
      normalize_contract_text (normalize_contract_text (l ++ ": " ++ v))
        = l ++ ": " ++ v ∧
      (strRev l ≠ l →
        normalize_contract_text (normalize_contract_text (l ++ ": " ++ v))
          ≠ normalize_contract_text (l ++ ": " ++ v))) ∧
    normalize_contract_text "اب: c" = "با: c" ∧
    normalize_contract_text (normalize_contract_text "اب: c") = "اب: c" := by
  refine ⟨smart_rereverse, ?_, by decide, by decide⟩
  intro l v hl hv hlne hvne hlc har hlat hdig hvar hbl hbv hm1 hm2 hm3 hm4
  have hlL : pyStripL l.data = l.data := congrArg String.data hl
  have hld : l.data ≠ [] := fun he => hlne (String.ext (by rw [he]))
  have h1 := normalize_rereverse l v hl hv hlne hvne hlc har hlat hdig hvar
    hbl hbv hm1 hm2 hm3 hm4
  have hsr : pyStrip (strRev l) = strRev l := by
    show String.mk (pyStripL l.data.reverse) = strRev l
    rw [pyStripL_reverse_id hlL]
    rfl
  have hsrne : strRev l ≠ "" := by
    intro he
    have h0 : l.data.reverse = [] := congrArg String.data he
    rw [List.reverse_eq_nil_iff] at h0
    exact hld h0
  have hsrc : hasColon (strRev l) = false := by
    by_contra h
    rw [Bool.not_eq_false] at h
    have hmem : ':' ∈ l.data.reverse := List.mem_of_elem_eq_true h
    rw [List.mem_reverse] at hmem
    have hcl : hasColon l = true := List.elem_eq_true_of_mem hmem
    rw [hlc] at hcl
    exact absurd hcl (by simp)
  have hsar : ar_count (strRev l) = ar_count l := by
    show (l.data.reverse.filter isArabic).length = (l.data.filter isArabic).length
    rw [List.filter_reverse, List.length_reverse]
  have hslat : lat_count (strRev l) = lat_count l := by
    show (l.data.reverse.filter isLatAt).length = (l.data.filter isLatAt).length
    rw [List.filter_reverse, List.length_reverse]
  have hsdig : dig_count (strRev l) = dig_count l := by
    show (l.data.reverse.filter isDig).length = (l.data.filter isDig).length
    rw [List.filter_reverse, List.length_reverse]
  have hsbl : ∀ c ∈ (strRev l).data, isLineBreak c = false := by
    intro c hc
    exact hbl c (List.mem_reverse.mp hc)
  have hsm1 : '‏' ∉ (strRev l).data := fun h => hm1 (List.mem_reverse.mp h)
  have hsm2 : '‎' ∉ (strRev l).data := fun h => hm2 (List.mem_reverse.mp h)
  have hrr : strRev (strRev l) = l := String.ext (by
    show l.data.reverse.reverse = l.data
    rw [List.reverse_reverse])
  have h2 := normalize_rereverse (strRev l) v hsr hv hsrne hvne hsrc
    (by rw [hsar]; exact har) (by rw [hslat]; exact hlat) (by rw [hsdig]; exact hdig)
    hvar hsbl hbv hsm1 hsm2 hm3 hm4
  rw [hrr] at h2
  refine ⟨h1, by rw [h1]; exact h2, ?_⟩
  intro hrl
  rw [h1, h2]
  intro he
  have hd : l.data ++ ':' :: ' ' :: v.data = l.data.reverse ++ ':' :: ' ' :: v.data := by
    have hd0 := congrArg String.data he
    rw [String.data_append, String.data_append, String.data_append,
      String.data_append] at hd0
    simpa [List.append_assoc] using hd0
  have hlen : l.data.length = l.data.reverse.length := (List.length_reverse _).symm
  have hinj := List.append_inj hd hlen
  exact hrl (String.ext hinj.1.symm)

/-- Witness for C2: the pipeline-level conjunct applied to the concrete
label-value line; its Arabic-only label is mirrored by one pass of
`normalize_contract_text`, restored by the next, and the two outputs
differ. -/
theorem C2_not_idempotent_witness :
    normalize_contract_text ("اب" ++ ": " ++ "c") = strRev "اب" ++ ": " ++ "c" ∧
    normalize_contract_text (normalize_contract_text ("اب" ++ ": " ++ "c"))
      = "اب" ++ ": " ++ "c" ∧
    (strRev "اب" ≠ "اب" →
      normalize_contract_text (normalize_contract_text ("اب" ++ ": " ++ "c"))
        ≠ normalize_contract_text ("اب" ++ ": " ++ "c")) :=
  C2_not_idempotent.2.1 "اب" "c" (by decide) (by decide) (by decide) (by decide)
    (by decide) (by decide) (by decide) (by decide) (by decide)
    (by decide) (by decide) (by decide) (by decide) (by decide) (by decide)


theorem hasColon_of_count {s : String} (h : countColon s = 1) : hasColon s = true := by
  have hm : ':' ∈ s.data := by
    have hp : 0 < s.data.count ':' := by
      unfold countColon at h
      omega
    exact List.count_pos_iff.mp hp
  exact List.elem_eq_true_of_mem hm

/-- C3 counterexample: a line consisting of a single leading colon followed
by a mirrored Arabic label is NOT repaired to label-colon-value form: the
code strips the lone leading colon and returns the remainder unchanged,
whereas the claim prescribes the reordered form with the mirrored side
reversed into the label position. -/
theorem C3_counterexample :
    smart_normalize_line ":اب" = "اب" ∧ ("اب" : String) ≠ "با: " := by
  constructor
  · decide
  · decide

/-- C3 amended: for a line whose stripped form contains exactly one colon
and does not start with it, the mirrored-label repair is exactly as
claimed: when the right side has at least one Arabic letter, no Latin
letter or at-sign, and fewer than three digits, the line is reordered with
the reversed right side as label and the left side (trimmed) as value;
otherwise, when the left side qualifies, symmetrically.  (A lone leading
colon is stripped and the line returned unrepaired, which is the case the
counterexample removes from the claim.) -/
theorem C3_label_value_repair (line : String)
    (h1 : countColon (pyStrip line) = 1)
    (h2 : pyStartsWith (pyStrip line) ":" = false) :
    (0 < ar_count (pyStrip (splitColon1 (pyStrip line)).2) ∧
       lat_count (pyStrip (splitColon1 (pyStrip line)).2) = 0 ∧
       dig_count (pyStrip (splitColon1 (pyStrip line)).2) < 3 →
      smart_normalize_line line
        = pyStrip (strRev (pyStrip (splitColon1 (pyStrip line)).2)) ++ ": " ++
          pyStrip (pyStrip (splitColon1 (pyStrip line)).1)) ∧
    (¬ (0 < ar_count (pyStrip (splitColon1 (pyStrip line)).2) ∧
        lat_count (pyStrip (splitColon1 (pyStrip line)).2) = 0 ∧
        dig_count (pyStrip (splitColon1 (pyStrip line)).2) < 3) →
      0 < ar_count (pyStrip (splitColon1 (pyStrip line)).1) →
      lat_count (pyStrip (splitColon1 (pyStrip line)).1) = 0 →
      dig_count (pyStrip (splitColon1 (pyStrip line)).1) < 3 →
      smart_normalize_line line
        = pyStrip (strRev (pyStrip (splitColon1 (pyStrip line)).1)) ++ ": " ++
          pyStrip (pyStrip (splitColon1 (pyStrip line)).2)) := by
  have hne : pyStrip line ≠ "" := by
    intro he
    rw [he] at h1
    exact absurd h1 (by decide)
  have e1 : (if pyStartsWith (pyStrip line) ":" = true ∧ countColon (pyStrip line) = 1
      then pyStrip (pyDrop (pyStrip line) 1) else pyStrip line) = pyStrip line :=
    if_neg (by simp [h2])
  constructor
  · intro hr
    simp only [smart_normalize_line]
    rw [if_neg hne, e1]
    rw [if_neg (show ¬ ¬ (hasColon (pyStrip line) = true) by simp [hasColon_of_count h1])]
    rw [if_pos hr]
  · intro hr hl1 hl2 hl3
    simp only [smart_normalize_line]
    rw [if_neg hne, e1]
    rw [if_neg (show ¬ ¬ (hasColon (pyStrip line) = true) by simp [hasColon_of_count h1])]
    rw [if_neg hr]
    rw [if_pos ⟨hl1, hl2, hl3⟩]

/-- Witness for C3: the right-side repair at a value-colon-mirrored-label
line and the left-side repair at a label-colon-value line. -/
theorem C3_label_value_repair_witness :
    smart_normalize_line "22 :با"
      = pyStrip (strRev (pyStrip (splitColon1 (pyStrip "22 :با")).2)) ++ ": " ++
        pyStrip (pyStrip (splitColon1 (pyStrip "22 :با")).1) ∧
    smart_normalize_line "اب: c"
      = pyStrip (strRev (pyStrip (splitColon1 (pyStrip "اب: c")).1)) ++ ": " ++
        pyStrip (pyStrip (splitColon1 (pyStrip "اب: c")).2) := by
  constructor
  · exact (C3_label_value_repair "22 :با" (by decide) (by decide)).1 (by decide)
  · exact (C3_label_value_repair "اب: c" (by decide) (by decide)).2
      (by decide) (by decide) (by decide) (by decide)

/-- C4 counterexample: a line with two colons DOES undergo label-value
reordering: the repair splits at the first colon whenever at least one
colon is present, it does not require exactly one. -/
theorem C4_counterexample :
    smart_normalize_line "اب: c: d" = "با: c: d" ∧
    ("با: c: d" : String) ≠ "اب: c: d" := by
  constructor
  · decide
  · decide

/-- C4 amended: the free-text reversal applies exactly to colon-free lines
with at least ten Arabic letters outnumbering the Latin ones, and any line
containing a colon is returned by the sentence pass stripped but
unreversed; however the label-value repair of `smart_normalize_line`
treats any line with at least one colon (splitting at the first), so a
two-colon line can still be reordered, as the concrete conjunct shows. -/
theorem C4_line_classification :
    (∀ line : String, hasColon (pyStrip line) = true →
       maybe_reverse_sentence line = pyStrip line) ∧
    (∀ line : String, hasColon (pyStrip line) = false →
       maybe_reverse_sentence line =
         (if 10 ≤ ar_count (pyStrip line) ∧ lat_count (pyStrip line) < ar_count (pyStrip line)
          then strRev (pyStrip line) else pyStrip line)) ∧
    smart_normalize_line "اب: c: d" = "با: c: d" := by
  refine ⟨?_, ?_, by decide⟩
  · intro line h
    have hne : pyStrip line ≠ "" := by
      intro he
      rw [he] at h
      exact absurd h (by decide)
    simp only [maybe_reverse_sentence]
    rw [if_neg hne, if_pos h]
  · intro line h
    by_cases hne : pyStrip line = ""
    · simp only [maybe_reverse_sentence]
      rw [if_pos hne, hne]
      rw [show ar_count "" = 0 from rfl]
      norm_num
    · simp only [maybe_reverse_sentence]
      rw [if_neg hne, if_neg (by simp [h])]

/-- Witness for C4: the colon conjunct at a label line and the free-text
conjunct at a plain Latin line. -/
theorem C4_line_classification_witness :
    maybe_reverse_sentence "a: b" = pyStrip "a: b" ∧
    maybe_reverse_sentence "abc"
      = (if 10 ≤ ar_count (pyStrip "abc") ∧ lat_count (pyStrip "abc") < ar_count (pyStrip "abc")
         then strRev (pyStrip "abc") else pyStrip "abc") := by
  constructor
  · exact C4_line_classification.1 "a: b" (by decide)
  · exact C4_line_classification.2.1 "abc" (by decide)


end Contracts
